import Mathlib

/-!
# unifi-network-mcp: the tool handlers of `internal/mcp/server.go`

A shallow embedding of the MCP server's site resolver and tool handlers.
The controller client (`unifi.NetworkClient`) is an external collaborator: it is
modelled as an arbitrary state-transforming object, and every invocation of
one of its operations is recorded, in order, in a call log.  Debug logging
has no effect on results and is left out.
-/

namespace UnifiMcp

/-! ## Data model -/

/-- Site record of the controller, with the three fields `resolveSiteID` reads. -/
structure Site where
  ID : String
  ExternalID : String
  Name : String
  deriving DecidableEq

/-- Dynamic Go values (`any`) as they occur in arguments, payloads and envelopes:
nil, booleans, Go `int` values (`int n`, with `n` in the 64-bit range), float64
values (what a JSON number decodes to; the finite float64 `float m e` is the
number `m * 2 ^ e`), strings, slices, `map[string]any` objects and site
records. -/
inductive Value where
  | null : Value
  | bool (b : Bool) : Value
  | int (n : Int) : Value
  | float (m e : Int) : Value
  | str (s : String) : Value
  | list (xs : List Value) : Value
  | obj (m : List (String × Value)) : Value
  | site (s : Site) : Value

/-- Go `map[string]any`, as an association list read by first match. -/
abbrev GoMap := List (String × Value)

/-- Map read `m[k]`: the bound value, or nil when the key is absent. -/
def GoMap.index (m : GoMap) (k : String) : Value :=
  match m.lookup k with
  | some v => v
  | none => Value.null

/-- Map write `m[k] = v` on a non-nil map: the binding of `k` is replaced. -/
def GoMap.set (m : GoMap) (k : String) (v : Value) : GoMap :=
  (k, v) :: m.filter (fun e => e.1 ≠ k)

/-- Go `error` value, identified with its message. -/
structure GoError where
  msg : String
  deriving DecidableEq

/-- Go `fmt.Errorf` with a constant format string. -/
def fmtErrorf (text : String) : GoError := ⟨text⟩

/-- Tool result of mcp-go: an error result carrying a text, or a JSON result
carrying structured data. -/
inductive CallToolResult where
  | toolError (text : String) : CallToolResult
  | toolJSON (data : Value) : CallToolResult

/-- Library `mcp.NewToolResultError`. -/
def NewToolResultError (text : String) : CallToolResult :=
  CallToolResult.toolError text

/-- Library `mcp.NewToolResultErrorFromErr`: the text, followed by the cause
when there is one. -/
def NewToolResultErrorFromErr (text : String) (err : Option GoError) : CallToolResult :=
  match err with
  | some e => CallToolResult.toolError (text ++ ": " ++ e.msg)
  | none => CallToolResult.toolError text

/-- What a handler hands back to the dispatcher: the Go pair
`(*CallToolResult, error)`, or a run-time panic. -/
inductive Outcome where
  | returned (result : CallToolResult) (err : Option GoError) : Outcome
  | panicked (reason : String) : Outcome

/-- Library `mcp.NewToolResultJSON` on marshallable data. -/
def NewToolResultJSON (data : Value) : Outcome :=
  Outcome.returned (CallToolResult.toolJSON data) none

/-- Tool call request: the raw `Params.Arguments` value. -/
structure CallToolRequest where
  Arguments : Value

/-- Library `CallToolRequest.GetArguments`: the argument map, or a nil map when
the arguments are not a map. -/
def CallToolRequest.GetArguments (r : CallToolRequest) : GoMap :=
  match r.Arguments with
  | Value.obj m => m
  | _ => []

/-- Library `CallToolRequest.GetString`: the argument when it is a string,
the default otherwise. -/
def CallToolRequest.GetString (r : CallToolRequest) (key : String) (defaultValue : String) :
    String :=
  match r.GetArguments.lookup key with
  | some (Value.str s) => s
  | _ => defaultValue

/-- Go `strconv.Atoi` on 64-bit `int`: optional sign, decimal digits, in range. -/
def atoi (s : String) : Option Int :=
  let digits : List Char → Option Int := fun ds =>
    if ds = [] ∨ ¬ ds.all Char.isDigit then none
    else some (ds.foldl (fun a c => a * 10 + ((c.toNat : Int) - 48)) 0)
  let v : Option Int :=
    match s.toList with
    | '-' :: ds => (digits ds).map (fun n => -n)
    | '+' :: ds => digits ds
    | ds => digits ds
  match v with
  | some n => if -(2 : Int) ^ 63 ≤ n ∧ n < (2 : Int) ^ 63 then some n else none
  | none => none

/-- The float64 `m * 2 ^ e` with its fraction discarded (truncation toward
zero). -/
def truncFloat (m e : Int) : Int :=
  if 0 ≤ e then m * 2 ^ e.toNat else Int.tdiv m (2 ^ (-e).toNat)

/-- Go conversion `int(v)` of the float64 `m * 2 ^ e` to the 64-bit `int`:
the fraction is discarded; a value out of the range of `int` converts to an
implementation-dependent result, on amd64 the least `int`. -/
def floatToInt (m e : Int) : Int :=
  if -(2 : Int) ^ 63 ≤ truncFloat m e ∧ truncFloat m e < (2 : Int) ^ 63 then truncFloat m e
  else -(2 : Int) ^ 63

/-- Library `CallToolRequest.GetInt`: a Go `int` as is, a float64 through the
conversion `int(v)`, a string through `Atoi`, the default otherwise. -/
def CallToolRequest.GetInt (r : CallToolRequest) (key : String) (defaultValue : Int) : Int :=
  match r.GetArguments.lookup key with
  | some (Value.int n) => n
  | some (Value.float m e) => floatToInt m e
  | some (Value.str s) =>
    match atoi s with
    | some n => n
    | none => defaultValue
  | _ => defaultValue

/-! ## The controller client -/

/-- Operations of the controller client that the handlers invoke, with the
arguments handed over. -/
inductive Op where
  | Authenticate
  | GetSites
  | GetDevices (siteID : String)
  | GetDeviceDetailed (siteID deviceID : String)
  | GetDeviceStats (siteID deviceID : String)
  | GetInfo
  | GetPendingDevices
  | GetWiFiNetworks (siteID : String)
  | GetWiFiNetworkDetailed (siteID networkID : String)
  | GetWiFiBroadcasts (siteID : String)
  | GetClients (siteID : String) (limit offset : Int)
  | GetClientDetailed (siteID mac : String)
  | GetClientStats (siteID : String)
  | GetHealth (siteID : String)
  | CheckEndpointHealth
  | GetFirewallZones (siteID : String)
  | GetFirewallZoneDetailed (siteID zoneID : String)
  | GetACLRules (siteID : String)
  | GetACLRuleDetailed (siteID ruleID : String)
  | GetHotspotVouchers (siteID : String)
  | GetHotspotVoucherDetailed (siteID voucherID : String)
  | GetTrafficRules (siteID : String)
  | GetTrafficRuleDetailed (siteID ruleID : String)
  | GetVPNServers (siteID : String)
  | GetDeviceTags (siteID : String)
  | GetWANConfig (siteID : String)
  | GetRADIUSProfiles (siteID : String)
  | GetDPICategories
  | GetDPIApplications
  | PatchWiFiNetwork (siteID networkID : String) (settings : GoMap)
  | PatchFirewallZone (siteID zoneID : String) (settings : GoMap)
  | PatchACLRule (siteID ruleID : String) (settings : GoMap)
  | PatchHotspotVoucher (siteID voucherID : String) (settings : GoMap)
  | PatchTrafficRule (siteID ruleID : String) (settings : GoMap)
  | CreateWiFiNetwork (siteID : String) (config : GoMap)
  | CreateFirewallZone (siteID : String) (config : GoMap)
  | CreateACLRule (siteID : String) (config : GoMap)
  | CreateHotspotVoucher (siteID : String) (config : GoMap)
  | CreateTrafficRule (siteID : String) (config : GoMap)
  | CreateVPNTunnel (siteID : String) (config : GoMap)

/-- Shape of what an operation returns. -/
inductive RespKind where
  | session
  | sites
  | items
  | entity
  | mapping

/-- Go return values per shape: `error`, `([]Site, error)`, `([]T, error)`,
`(T, error)` and `(map[string]any, error)`, where the map may be nil. -/
@[reducible] def RespKind.Resp : RespKind → Type
  | RespKind.session => Option GoError
  | RespKind.sites => List Site × Option GoError
  | RespKind.items => List Value × Option GoError
  | RespKind.entity => Value × Option GoError
  | RespKind.mapping => Option GoMap × Option GoError

/-- Shape of the return values of each operation. -/
@[reducible] def Op.kind : Op → RespKind
  | Op.Authenticate => RespKind.session
  | Op.GetSites => RespKind.sites
  | Op.GetDevices _ => RespKind.items
  | Op.GetDeviceDetailed _ _ => RespKind.entity
  | Op.GetDeviceStats _ _ => RespKind.entity
  | Op.GetInfo => RespKind.entity
  | Op.GetPendingDevices => RespKind.items
  | Op.GetWiFiNetworks _ => RespKind.items
  | Op.GetWiFiNetworkDetailed _ _ => RespKind.entity
  | Op.GetWiFiBroadcasts _ => RespKind.items
  | Op.GetClients _ _ _ => RespKind.items
  | Op.GetClientDetailed _ _ => RespKind.entity
  | Op.GetClientStats _ => RespKind.entity
  | Op.GetHealth _ => RespKind.entity
  | Op.CheckEndpointHealth => RespKind.entity
  | Op.GetFirewallZones _ => RespKind.items
  | Op.GetFirewallZoneDetailed _ _ => RespKind.entity
  | Op.GetACLRules _ => RespKind.items
  | Op.GetACLRuleDetailed _ _ => RespKind.entity
  | Op.GetHotspotVouchers _ => RespKind.items
  | Op.GetHotspotVoucherDetailed _ _ => RespKind.entity
  | Op.GetTrafficRules _ => RespKind.items
  | Op.GetTrafficRuleDetailed _ _ => RespKind.entity
  | Op.GetVPNServers _ => RespKind.items
  | Op.GetDeviceTags _ => RespKind.items
  | Op.GetWANConfig _ => RespKind.items
  | Op.GetRADIUSProfiles _ => RespKind.items
  | Op.GetDPICategories => RespKind.items
  | Op.GetDPIApplications => RespKind.items
  | Op.PatchWiFiNetwork _ _ _ => RespKind.mapping
  | Op.PatchFirewallZone _ _ _ => RespKind.mapping
  | Op.PatchACLRule _ _ _ => RespKind.mapping
  | Op.PatchHotspotVoucher _ _ _ => RespKind.mapping
  | Op.PatchTrafficRule _ _ _ => RespKind.mapping
  | Op.CreateWiFiNetwork _ _ => RespKind.entity
  | Op.CreateFirewallZone _ _ => RespKind.entity
  | Op.CreateACLRule _ _ => RespKind.entity
  | Op.CreateHotspotVoucher _ _ => RespKind.entity
  | Op.CreateTrafficRule _ _ => RespKind.entity
  | Op.CreateVPNTunnel _ _ => RespKind.entity

/-- Return type of an operation. -/
@[reducible] def Op.Resp (op : Op) : Type := op.kind.Resp

/-- Controller client over a hidden state `σ`: each operation reads and may
change the state and yields its Go return values. -/
structure NetworkClient (σ : Type) where
  call : (op : Op) → σ → op.Resp × σ

/-- Collaborator state together with the log of operations invoked so far,
oldest first. -/
structure World (σ : Type) where
  state : σ
  calls : List Op

/-- Computation that talks to the collaborator. -/
def Exec (σ α : Type) : Type := World σ → α × World σ

instance (σ : Type) : Monad (Exec σ) where
  pure a := fun w => (a, w)
  bind m f := fun w => f (m w).1 (m w).2

/-- One invocation of a collaborator operation, logged. -/
def NetworkClient.invoke {σ : Type} (nc : NetworkClient σ) (op : Op) : Exec σ op.Resp :=
  fun w => ((nc.call op w.state).1, ⟨(nc.call op w.state).2, w.calls ++ [op]⟩)

/-! ## Site resolver -/

/-- Source `Server.resolveSiteID`: the Go pair `(string, error)`. -/
def resolveSiteID {σ : Type} (nc : NetworkClient σ) (siteID : String) :
    Exec σ (String × Option GoError) := do
  let (sites, err) ← nc.invoke Op.GetSites
  if let some err := err then
    return ("", some err)
  match sites with
  | [] => return ("", some (fmtErrorf "no sites available"))
  | first :: _ =>
    if siteID = "" ∨ siteID = "default" then
      return (first.ExternalID, none)
    if let some site := sites.find? (fun site => site.Name = siteID) then
      return (site.ExternalID, none)
    if let some site := sites.find? (fun site => site.ID = siteID ∨ site.ExternalID = siteID) then
      return (site.ExternalID, none)
    return (siteID, none)

/-! ## GET handlers -/

/-- Source `Server.getNetworkSites`. -/
def getNetworkSites {σ : Type} (nc : NetworkClient σ) (_request : CallToolRequest) :
    Exec σ Outcome := do
  if let some err ← nc.invoke Op.Authenticate then
    return Outcome.returned (NewToolResultErrorFromErr "Authentication failed" (some err)) none
  let (sites, err) ← nc.invoke Op.GetSites
  if let some err := err then
    return Outcome.returned (NewToolResultErrorFromErr "Failed to get sites" (some err)) none
  return NewToolResultJSON (Value.obj [
    ("sites", Value.list (sites.map Value.site)),
    ("count", Value.int sites.length)])

/-- Source `Server.getNetworkDevices`. -/
def getNetworkDevices {σ : Type} (nc : NetworkClient σ) (request : CallToolRequest) :
    Exec σ Outcome := do
  let siteID := request.GetString "site_id" ""
  if let some err ← nc.invoke Op.Authenticate then
    return Outcome.returned (NewToolResultErrorFromErr "Authentication failed" (some err)) none
  let (resolvedSiteID, err) ← resolveSiteID nc siteID
  if let some err := err then
    return Outcome.returned (NewToolResultErrorFromErr "Failed to resolve site ID" (some err)) none
  let (devices, err) ← nc.invoke (Op.GetDevices resolvedSiteID)
  if let some err := err then
    return Outcome.returned (NewToolResultErrorFromErr "Failed to get devices" (some err)) none
  return NewToolResultJSON (Value.obj [
    ("devices", Value.list devices),
    ("count", Value.int devices.length),
    ("site_id", Value.str resolvedSiteID)])

/-- Source `Server.getDeviceDetailed`. -/
def getDeviceDetailed {σ : Type} (nc : NetworkClient σ) (request : CallToolRequest) :
    Exec σ Outcome := do
  let siteID := request.GetString "site_id" ""
  let deviceID := request.GetString "device_id" ""
  if deviceID = "" then
    return Outcome.returned (NewToolResultError "device_id is required") none
  if let some err ← nc.invoke Op.Authenticate then
    return Outcome.returned (NewToolResultErrorFromErr "Authentication failed" (some err)) none
  let (resolvedSiteID, err) ← resolveSiteID nc siteID
  if let some err := err then
    return Outcome.returned (NewToolResultErrorFromErr "Failed to resolve site ID" (some err)) none
  let (device, err) ← nc.invoke (Op.GetDeviceDetailed resolvedSiteID deviceID)
  if let some err := err then
    return Outcome.returned (NewToolResultErrorFromErr "Failed to get device details" (some err)) none
  let result := Value.obj [
    ("device", device),
    ("site_id", Value.str resolvedSiteID),
    ("device_id", Value.str deviceID)]
  return NewToolResultJSON result

/-- Source `Server.getDeviceStats`. -/
def getDeviceStats {σ : Type} (nc : NetworkClient σ) (request : CallToolRequest) :
    Exec σ Outcome := do
  let siteID := request.GetString "site_id" ""
  let deviceID := request.GetString "device_id" ""
  if deviceID = "" then
    return Outcome.returned (NewToolResultError "device_id is required") none
  if let some err ← nc.invoke Op.Authenticate then
    return Outcome.returned (NewToolResultErrorFromErr "Authentication failed" (some err)) none
  let (resolvedSiteID, err) ← resolveSiteID nc siteID
  if let some err := err then
    return Outcome.returned (NewToolResultErrorFromErr "Failed to resolve site ID" (some err)) none
  let (stats, err) ← nc.invoke (Op.GetDeviceStats resolvedSiteID deviceID)
  if let some err := err then
    return Outcome.returned (NewToolResultErrorFromErr "Failed to get device stats" (some err)) none
  return NewToolResultJSON (Value.obj [
    ("stats", stats),
    ("site_id", Value.str resolvedSiteID),
    ("device_id", Value.str deviceID)])

/-- Source `Server.getNetworkInfo`. -/
def getNetworkInfo {σ : Type} (nc : NetworkClient σ) (_request : CallToolRequest) :
    Exec σ Outcome := do
  if let some err ← nc.invoke Op.Authenticate then
    return Outcome.returned (NewToolResultErrorFromErr "Authentication failed" (some err)) none
  let (info, err) ← nc.invoke Op.GetInfo
  if let some err := err then
    return Outcome.returned (NewToolResultErrorFromErr "Failed to get network info" (some err)) none
  return NewToolResultJSON info

/-- Source `Server.getPendingDevices`. -/
def getPendingDevices {σ : Type} (nc : NetworkClient σ) (_request : CallToolRequest) :
    Exec σ Outcome := do
  if let some err ← nc.invoke Op.Authenticate then
    return Outcome.returned (NewToolResultErrorFromErr "Authentication failed" (some err)) none
  let (devices, err) ← nc.invoke Op.GetPendingDevices
  if let some err := err then
    return Outcome.returned (NewToolResultErrorFromErr "Failed to get pending devices" (some err)) none
  return NewToolResultJSON (Value.obj [
    ("devices", Value.list devices),
    ("count", Value.int devices.length)])

/-- Source `Server.getWiFiNetworks`. -/
def getWiFiNetworks {σ : Type} (nc : NetworkClient σ) (request : CallToolRequest) :
    Exec σ Outcome := do
  let siteID := request.GetString "site_id" ""
  if let some err ← nc.invoke Op.Authenticate then
    return Outcome.returned (NewToolResultErrorFromErr "Authentication failed" (some err)) none
  let (resolvedSiteID, err) ← resolveSiteID nc siteID
  if let some err := err then
    return Outcome.returned (NewToolResultErrorFromErr "Failed to resolve site ID" (some err)) none
  let (networks, err) ← nc.invoke (Op.GetWiFiNetworks resolvedSiteID)
  if let some err := err then
    return Outcome.returned (NewToolResultErrorFromErr "Failed to get wifi networks" (some err)) none
  return NewToolResultJSON (Value.obj [
    ("networks", Value.list networks),
    ("count", Value.int networks.length),
    ("site_id", Value.str resolvedSiteID)])

/-- Source `Server.getWiFiBroadcasts`. -/
def getWiFiBroadcasts {σ : Type} (nc : NetworkClient σ) (request : CallToolRequest) :
    Exec σ Outcome := do
  let siteID := request.GetString "site_id" ""
  if let some err ← nc.invoke Op.Authenticate then
    return Outcome.returned (NewToolResultErrorFromErr "Authentication failed" (some err)) none
  let (resolvedSiteID, err) ← resolveSiteID nc siteID
  if let some err := err then
    return Outcome.returned (NewToolResultErrorFromErr "Failed to resolve site ID" (some err)) none
  let (broadcasts, err) ← nc.invoke (Op.GetWiFiBroadcasts resolvedSiteID)
  if let some err := err then
    return Outcome.returned (NewToolResultErrorFromErr "Failed to get wifi broadcasts" (some err)) none
  return NewToolResultJSON (Value.obj [
    ("broadcasts", Value.list broadcasts),
    ("count", Value.int broadcasts.length),
    ("site_id", Value.str resolvedSiteID)])

/-- Source `Server.getNetworkClients`. -/
def getNetworkClients {σ : Type} (nc : NetworkClient σ) (request : CallToolRequest) :
    Exec σ Outcome := do
  let siteID := request.GetString "site_id" ""
  let limit := request.GetInt "limit" 25
  let offset := request.GetInt "offset" 0
  if let some err ← nc.invoke Op.Authenticate then
    return Outcome.returned (NewToolResultErrorFromErr "Authentication failed" (some err)) none
  let (resolvedSiteID, err) ← resolveSiteID nc siteID
  if let some err := err then
    return Outcome.returned (NewToolResultErrorFromErr "Failed to resolve site ID" (some err)) none
  let (clients, err) ← nc.invoke (Op.GetClients resolvedSiteID limit offset)
  if let some err := err then
    return Outcome.returned (NewToolResultErrorFromErr "Failed to get network clients" (some err)) none
  return NewToolResultJSON (Value.obj [
    ("clients", Value.list clients),
    ("count", Value.int clients.length),
    ("site_id", Value.str resolvedSiteID),
    ("limit", Value.int limit),
    ("offset", Value.int offset)])

/-- Source `Server.getClientDetailed`. -/
def getClientDetailed {σ : Type} (nc : NetworkClient σ) (request : CallToolRequest) :
    Exec σ Outcome := do
  let siteID := request.GetString "site_id" ""
  let mac := request.GetString "mac" ""
  if mac = "" then
    return Outcome.returned (NewToolResultError "mac is required") none
  if let some err ← nc.invoke Op.Authenticate then
    return Outcome.returned (NewToolResultErrorFromErr "Authentication failed" (some err)) none
  let (resolvedSiteID, err) ← resolveSiteID nc siteID
  if let some err := err then
    return Outcome.returned (NewToolResultErrorFromErr "Failed to resolve site ID" (some err)) none
  let (client, err) ← nc.invoke (Op.GetClientDetailed resolvedSiteID mac)
  if let some err := err then
    return Outcome.returned (NewToolResultErrorFromErr "Failed to get client details" (some err)) none
  return NewToolResultJSON (Value.obj [
    ("client", client),
    ("site_id", Value.str resolvedSiteID),
    ("mac", Value.str mac)])

/-- Source `Server.getClientStats`. -/
def getClientStats {σ : Type} (nc : NetworkClient σ) (request : CallToolRequest) :
    Exec σ Outcome := do
  let siteID := request.GetString "site_id" ""
  if let some err ← nc.invoke Op.Authenticate then
    return Outcome.returned (NewToolResultErrorFromErr "Authentication failed" (some err)) none
  let (resolvedSiteID, err) ← resolveSiteID nc siteID
  if let some err := err then
    return Outcome.returned (NewToolResultErrorFromErr "Failed to resolve site ID" (some err)) none
  let (stats, err) ← nc.invoke (Op.GetClientStats resolvedSiteID)
  if let some err := err then
    return Outcome.returned (NewToolResultErrorFromErr "Failed to get client stats" (some err)) none
  return NewToolResultJSON (Value.obj [
    ("stats", stats),
    ("site_id", Value.str resolvedSiteID)])

/-- Source `Server.getFirewallZones`. -/
def getFirewallZones {σ : Type} (nc : NetworkClient σ) (request : CallToolRequest) :
    Exec σ Outcome := do
  let siteID := request.GetString "site_id" ""
  if let some err ← nc.invoke Op.Authenticate then
    return Outcome.returned (NewToolResultErrorFromErr "Authentication failed" (some err)) none
  let (resolvedSiteID, err) ← resolveSiteID nc siteID
  if let some err := err then
    return Outcome.returned (NewToolResultErrorFromErr "Failed to resolve site ID" (some err)) none
  let (zones, err) ← nc.invoke (Op.GetFirewallZones resolvedSiteID)
  if let some err := err then
    return Outcome.returned (NewToolResultErrorFromErr "Failed to get firewall zones" (some err)) none
  return NewToolResultJSON (Value.obj [
    ("zones", Value.list zones),
    ("count", Value.int zones.length),
    ("site_id", Value.str resolvedSiteID)])

/-- Source `Server.getACLRules`. -/
def getACLRules {σ : Type} (nc : NetworkClient σ) (request : CallToolRequest) :
    Exec σ Outcome := do
  let siteID := request.GetString "site_id" ""
  if let some err ← nc.invoke Op.Authenticate then
    return Outcome.returned (NewToolResultErrorFromErr "Authentication failed" (some err)) none
  let (resolvedSiteID, err) ← resolveSiteID nc siteID
  if let some err := err then
    return Outcome.returned (NewToolResultErrorFromErr "Failed to resolve site ID" (some err)) none
  let (rules, err) ← nc.invoke (Op.GetACLRules resolvedSiteID)
  if let some err := err then
    return Outcome.returned (NewToolResultErrorFromErr "Failed to get acl rules" (some err)) none
  return NewToolResultJSON (Value.obj [
    ("rules", Value.list rules),
    ("count", Value.int rules.length),
    ("site_id", Value.str resolvedSiteID)])

/-- Source `Server.getHotspotVouchers`. -/
def getHotspotVouchers {σ : Type} (nc : NetworkClient σ) (request : CallToolRequest) :
    Exec σ Outcome := do
  let siteID := request.GetString "site_id" ""
  if let some err ← nc.invoke Op.Authenticate then
    return Outcome.returned (NewToolResultErrorFromErr "Authentication failed" (some err)) none
  let (resolvedSiteID, err) ← resolveSiteID nc siteID
  if let some err := err then
    return Outcome.returned (NewToolResultErrorFromErr "Failed to resolve site ID" (some err)) none
  let (vouchers, err) ← nc.invoke (Op.GetHotspotVouchers resolvedSiteID)
  if let some err := err then
    return Outcome.returned (NewToolResultErrorFromErr "Failed to get hotspot vouchers" (some err)) none
  return NewToolResultJSON (Value.obj [
    ("vouchers", Value.list vouchers),
    ("count", Value.int vouchers.length),
    ("site_id", Value.str resolvedSiteID)])

/-- Source `Server.getTrafficRules`. -/
def getTrafficRules {σ : Type} (nc : NetworkClient σ) (request : CallToolRequest) :
    Exec σ Outcome := do
  let siteID := request.GetString "site_id" ""
  if let some err ← nc.invoke Op.Authenticate then
    return Outcome.returned (NewToolResultErrorFromErr "Authentication failed" (some err)) none
  let (resolvedSiteID, err) ← resolveSiteID nc siteID
  if let some err := err then
    return Outcome.returned (NewToolResultErrorFromErr "Failed to resolve site ID" (some err)) none
  let (rules, err) ← nc.invoke (Op.GetTrafficRules resolvedSiteID)
  if let some err := err then
    return Outcome.returned (NewToolResultErrorFromErr "Failed to get traffic rules" (some err)) none
  return NewToolResultJSON (Value.obj [
    ("rules", Value.list rules),
    ("count", Value.int rules.length),
    ("site_id", Value.str resolvedSiteID)])

/-- Source `Server.getVPNServers`. -/
def getVPNServers {σ : Type} (nc : NetworkClient σ) (request : CallToolRequest) :
    Exec σ Outcome := do
  let siteID := request.GetString "site_id" ""
  if let some err ← nc.invoke Op.Authenticate then
    return Outcome.returned (NewToolResultErrorFromErr "Authentication failed" (some err)) none
  let (resolvedSiteID, err) ← resolveSiteID nc siteID
  if let some err := err then
    return Outcome.returned (NewToolResultErrorFromErr "Failed to resolve site ID" (some err)) none
  let (servers, err) ← nc.invoke (Op.GetVPNServers resolvedSiteID)
  if let some err := err then
    return Outcome.returned (NewToolResultErrorFromErr "Failed to get vpn servers" (some err)) none
  let result := Value.obj [
    ("servers", Value.list servers),
    ("count", Value.int servers.length),
    ("site_id", Value.str resolvedSiteID)]
  return NewToolResultJSON result

/-- Source `Server.getDPICategories`. -/
def getDPICategories {σ : Type} (nc : NetworkClient σ) (_request : CallToolRequest) :
    Exec σ Outcome := do
  if let some err ← nc.invoke Op.Authenticate then
    return Outcome.returned (NewToolResultErrorFromErr "Authentication failed" (some err)) none
  let (categories, err) ← nc.invoke Op.GetDPICategories
  if let some err := err then
    return Outcome.returned (NewToolResultErrorFromErr "Failed to get dpi categories" (some err)) none
  return NewToolResultJSON (Value.obj [
    ("categories", Value.list categories),
    ("count", Value.int categories.length)])

/-- Source `Server.getDPIApps`. -/
def getDPIApps {σ : Type} (nc : NetworkClient σ) (_request : CallToolRequest) :
    Exec σ Outcome := do
  if let some err ← nc.invoke Op.Authenticate then
    return Outcome.returned (NewToolResultErrorFromErr "Authentication failed" (some err)) none
  let (apps, err) ← nc.invoke Op.GetDPIApplications
  if let some err := err then
    return Outcome.returned (NewToolResultErrorFromErr "Failed to get dpi apps" (some err)) none
  return NewToolResultJSON (Value.obj [
    ("apps", Value.list apps),
    ("count", Value.int apps.length)])

/-! ## PATCH handlers -/

/-- Go type assertion `v.(map[string]interface{})`: the map when the dynamic
type is a map, failure otherwise (nil included). -/
def Value.asMap : Value → Option GoMap
  | Value.obj m => some m
  | _ => none

/-- Source `Server.patchWiFiNetwork`. -/
def patchWiFiNetwork {σ : Type} (nc : NetworkClient σ) (request : CallToolRequest) :
    Exec σ Outcome := do
  let siteID := request.GetString "site_id" ""
  let networkID := request.GetString "network_id" ""
  let args := request.GetArguments
  let some settings := (args.index "settings").asMap
    | return Outcome.returned (NewToolResultError "settings must be an object") none
  if networkID = "" then
    return Outcome.returned (NewToolResultError "network_id is required") none
  if let some err ← nc.invoke Op.Authenticate then
    return Outcome.returned (NewToolResultErrorFromErr "Authentication failed" (some err)) none
  let (resolvedSiteID, err) ← resolveSiteID nc siteID
  if let some err := err then
    return Outcome.returned (NewToolResultErrorFromErr "Failed to resolve site ID" (some err)) none
  let (result, err) ← nc.invoke (Op.PatchWiFiNetwork resolvedSiteID networkID settings)
  if let some err := err then
    return Outcome.returned (NewToolResultErrorFromErr "Failed to update wifi network" (some err)) none
  let some result := result
    | return Outcome.panicked "assignment to entry in nil map"
  let result := result.set "success" (Value.bool true)
  let result := result.set "network_id" (Value.str networkID)
  let result := result.set "site_id" (Value.str resolvedSiteID)
  return NewToolResultJSON (Value.obj result)

/-- Source `Server.patchFirewallZone`. -/
def patchFirewallZone {σ : Type} (nc : NetworkClient σ) (request : CallToolRequest) :
    Exec σ Outcome := do
  let siteID := request.GetString "site_id" ""
  let zoneID := request.GetString "zone_id" ""
  let args := request.GetArguments
  let some settings := (args.index "settings").asMap
    | return Outcome.returned (NewToolResultError "settings must be an object") none
  if zoneID = "" then
    return Outcome.returned (NewToolResultError "zone_id is required") none
  if let some err ← nc.invoke Op.Authenticate then
    return Outcome.returned (NewToolResultErrorFromErr "Authentication failed" (some err)) none
  let (resolvedSiteID, err) ← resolveSiteID nc siteID
  if let some err := err then
    return Outcome.returned (NewToolResultErrorFromErr "Failed to resolve site ID" (some err)) none
  let (result, err) ← nc.invoke (Op.PatchFirewallZone resolvedSiteID zoneID settings)
  if let some err := err then
    return Outcome.returned (NewToolResultErrorFromErr "Failed to update firewall zone" (some err)) none
  let some result := result
    | return Outcome.panicked "assignment to entry in nil map"
  let result := result.set "success" (Value.bool true)
  let result := result.set "zone_id" (Value.str zoneID)
  let result := result.set "site_id" (Value.str resolvedSiteID)
  return NewToolResultJSON (Value.obj result)

/-- Source `Server.patchACLRule`. -/
def patchACLRule {σ : Type} (nc : NetworkClient σ) (request : CallToolRequest) :
    Exec σ Outcome := do
  let siteID := request.GetString "site_id" ""
  let ruleID := request.GetString "rule_id" ""
  let args := request.GetArguments
  let some settings := (args.index "settings").asMap
    | return Outcome.returned (NewToolResultError "settings must be an object") none
  if ruleID = "" then
    return Outcome.returned (NewToolResultError "rule_id is required") none
  if let some err ← nc.invoke Op.Authenticate then
    return Outcome.returned (NewToolResultErrorFromErr "Authentication failed" (some err)) none
  let (resolvedSiteID, err) ← resolveSiteID nc siteID
  if let some err := err then
    return Outcome.returned (NewToolResultErrorFromErr "Failed to resolve site ID" (some err)) none
  let (result, err) ← nc.invoke (Op.PatchACLRule resolvedSiteID ruleID settings)
  if let some err := err then
    return Outcome.returned (NewToolResultErrorFromErr "Failed to update acl rule" (some err)) none
  let some result := result
    | return Outcome.panicked "assignment to entry in nil map"
  let result := result.set "success" (Value.bool true)
  let result := result.set "rule_id" (Value.str ruleID)
  let result := result.set "site_id" (Value.str resolvedSiteID)
  return NewToolResultJSON (Value.obj result)

/-- Source `Server.patchHotspotVoucher`. -/
def patchHotspotVoucher {σ : Type} (nc : NetworkClient σ) (request : CallToolRequest) :
    Exec σ Outcome := do
  let siteID := request.GetString "site_id" ""
  let voucherID := request.GetString "voucher_id" ""
  let args := request.GetArguments
  let some settings := (args.index "settings").asMap
    | return Outcome.returned (NewToolResultError "settings must be an object") none
  if voucherID = "" then
    return Outcome.returned (NewToolResultError "voucher_id is required") none
  if let some err ← nc.invoke Op.Authenticate then
    return Outcome.returned (NewToolResultErrorFromErr "Authentication failed" (some err)) none
  let (resolvedSiteID, err) ← resolveSiteID nc siteID
  if let some err := err then
    return Outcome.returned (NewToolResultErrorFromErr "Failed to resolve site ID" (some err)) none
  let (result, err) ← nc.invoke (Op.PatchHotspotVoucher resolvedSiteID voucherID settings)
  if let some err := err then
    return Outcome.returned (NewToolResultErrorFromErr "Failed to update hotspot voucher" (some err)) none
  let some result := result
    | return Outcome.panicked "assignment to entry in nil map"
  let result := result.set "success" (Value.bool true)
  let result := result.set "voucher_id" (Value.str voucherID)
  let result := result.set "site_id" (Value.str resolvedSiteID)
  return NewToolResultJSON (Value.obj result)

/-- Source `Server.patchTrafficRule`. -/
def patchTrafficRule {σ : Type} (nc : NetworkClient σ) (request : CallToolRequest) :
    Exec σ Outcome := do
  let siteID := request.GetString "site_id" ""
  let ruleID := request.GetString "rule_id" ""
  let args := request.GetArguments
  let some settings := (args.index "settings").asMap
    | return Outcome.returned (NewToolResultError "settings must be an object") none
  if ruleID = "" then
    return Outcome.returned (NewToolResultError "rule_id is required") none
  if let some err ← nc.invoke Op.Authenticate then
    return Outcome.returned (NewToolResultErrorFromErr "Authentication failed" (some err)) none
  let (resolvedSiteID, err) ← resolveSiteID nc siteID
  if let some err := err then
    return Outcome.returned (NewToolResultErrorFromErr "Failed to resolve site ID" (some err)) none
  let (result, err) ← nc.invoke (Op.PatchTrafficRule resolvedSiteID ruleID settings)
  if let some err := err then
    return Outcome.returned (NewToolResultErrorFromErr "Failed to update traffic rule" (some err)) none
  let some result := result
    | return Outcome.panicked "assignment to entry in nil map"
  let result := result.set "success" (Value.bool true)
  let result := result.set "rule_id" (Value.str ruleID)
  let result := result.set "site_id" (Value.str resolvedSiteID)
  return NewToolResultJSON (Value.obj result)

/-! ## POST handlers -/

/-- Source `Server.createWiFiNetwork`. -/
def createWiFiNetwork {σ : Type} (nc : NetworkClient σ) (request : CallToolRequest) :
    Exec σ Outcome := do
  let siteID := request.GetString "site_id" ""
  let args := request.GetArguments
  let some config := (args.index "config").asMap
    | return Outcome.returned (NewToolResultError "config must be an object") none
  if let some err ← nc.invoke Op.Authenticate then
    return Outcome.returned (NewToolResultErrorFromErr "Authentication failed" (some err)) none
  let (resolvedSiteID, err) ← resolveSiteID nc siteID
  if let some err := err then
    return Outcome.returned (NewToolResultErrorFromErr "Failed to resolve site ID" (some err)) none
  let (result, err) ← nc.invoke (Op.CreateWiFiNetwork resolvedSiteID config)
  if let some err := err then
    return Outcome.returned (NewToolResultErrorFromErr "Failed to create wifi network" (some err)) none
  return NewToolResultJSON (Value.obj [
    ("success", Value.bool true),
    ("network", result),
    ("site_id", Value.str resolvedSiteID)])

/-- Source `Server.createFirewallZone`. -/
def createFirewallZone {σ : Type} (nc : NetworkClient σ) (request : CallToolRequest) :
    Exec σ Outcome := do
  let siteID := request.GetString "site_id" ""
  let args := request.GetArguments
  let some config := (args.index "config").asMap
    | return Outcome.returned (NewToolResultError "config must be an object") none
  if let some err ← nc.invoke Op.Authenticate then
    return Outcome.returned (NewToolResultErrorFromErr "Authentication failed" (some err)) none
  let (resolvedSiteID, err) ← resolveSiteID nc siteID
  if let some err := err then
    return Outcome.returned (NewToolResultErrorFromErr "Failed to resolve site ID" (some err)) none
  let (result, err) ← nc.invoke (Op.CreateFirewallZone resolvedSiteID config)
  if let some err := err then
    return Outcome.returned (NewToolResultErrorFromErr "Failed to create firewall zone" (some err)) none
  return NewToolResultJSON (Value.obj [
    ("success", Value.bool true),
    ("zone", result),
    ("site_id", Value.str resolvedSiteID)])

/-- Source `Server.createACLRule`. -/
def createACLRule {σ : Type} (nc : NetworkClient σ) (request : CallToolRequest) :
    Exec σ Outcome := do
  let siteID := request.GetString "site_id" ""
  let args := request.GetArguments
  let some config := (args.index "config").asMap
    | return Outcome.returned (NewToolResultError "config must be an object") none
  if let some err ← nc.invoke Op.Authenticate then
    return Outcome.returned (NewToolResultErrorFromErr "Authentication failed" (some err)) none
  let (resolvedSiteID, err) ← resolveSiteID nc siteID
  if let some err := err then
    return Outcome.returned (NewToolResultErrorFromErr "Failed to resolve site ID" (some err)) none
  let (result, err) ← nc.invoke (Op.CreateACLRule resolvedSiteID config)
  if let some err := err then
    return Outcome.returned (NewToolResultErrorFromErr "Failed to create acl rule" (some err)) none
  return NewToolResultJSON (Value.obj [
    ("success", Value.bool true),
    ("rule", result),
    ("site_id", Value.str resolvedSiteID)])

/-- Source `Server.createHotspotVoucher`. -/
def createHotspotVoucher {σ : Type} (nc : NetworkClient σ) (request : CallToolRequest) :
    Exec σ Outcome := do
  let siteID := request.GetString "site_id" ""
  let args := request.GetArguments
  let some config := (args.index "config").asMap
    | return Outcome.returned (NewToolResultError "config must be an object") none
  if let some err ← nc.invoke Op.Authenticate then
    return Outcome.returned (NewToolResultErrorFromErr "Authentication failed" (some err)) none
  let (resolvedSiteID, err) ← resolveSiteID nc siteID
  if let some err := err then
    return Outcome.returned (NewToolResultErrorFromErr "Failed to resolve site ID" (some err)) none
  let (result, err) ← nc.invoke (Op.CreateHotspotVoucher resolvedSiteID config)
  if let some err := err then
    return Outcome.returned (NewToolResultErrorFromErr "Failed to create hotspot voucher" (some err)) none
  return NewToolResultJSON (Value.obj [
    ("success", Value.bool true),
    ("voucher", result),
    ("site_id", Value.str resolvedSiteID)])

/-- Source `Server.createTrafficRule`. -/
def createTrafficRule {σ : Type} (nc : NetworkClient σ) (request : CallToolRequest) :
    Exec σ Outcome := do
  let siteID := request.GetString "site_id" ""
  let args := request.GetArguments
  let some config := (args.index "config").asMap
    | return Outcome.returned (NewToolResultError "config must be an object") none
  if let some err ← nc.invoke Op.Authenticate then
    return Outcome.returned (NewToolResultErrorFromErr "Authentication failed" (some err)) none
  let (resolvedSiteID, err) ← resolveSiteID nc siteID
  if let some err := err then
    return Outcome.returned (NewToolResultErrorFromErr "Failed to resolve site ID" (some err)) none
  let (result, err) ← nc.invoke (Op.CreateTrafficRule resolvedSiteID config)
  if let some err := err then
    return Outcome.returned (NewToolResultErrorFromErr "Failed to create traffic rule" (some err)) none
  return NewToolResultJSON (Value.obj [
    ("success", Value.bool true),
    ("rule", result),
    ("site_id", Value.str resolvedSiteID)])

/-- Source `Server.createVPNTunnel`. -/
def createVPNTunnel {σ : Type} (nc : NetworkClient σ) (request : CallToolRequest) :
    Exec σ Outcome := do
  let siteID := request.GetString "site_id" ""
  let args := request.GetArguments
  let some config := (args.index "config").asMap
    | return Outcome.returned (NewToolResultError "config must be an object") none
  if let some err ← nc.invoke Op.Authenticate then
    return Outcome.returned (NewToolResultErrorFromErr "Authentication failed" (some err)) none
  let (resolvedSiteID, err) ← resolveSiteID nc siteID
  if let some err := err then
    return Outcome.returned (NewToolResultErrorFromErr "Failed to resolve site ID" (some err)) none
  let (result, err) ← nc.invoke (Op.CreateVPNTunnel resolvedSiteID config)
  if let some err := err then
    return Outcome.returned (NewToolResultErrorFromErr "Failed to create vpn tunnel" (some err)) none
  return NewToolResultJSON (Value.obj [
    ("success", Value.bool true),
    ("tunnel", result),
    ("site_id", Value.str resolvedSiteID)])

/-! ## Detail, health and configuration handlers -/

/-- Source `Server.getWiFiNetworkDetailed`. -/
def getWiFiNetworkDetailed {σ : Type} (nc : NetworkClient σ) (request : CallToolRequest) :
    Exec σ Outcome := do
  if let some err ← nc.invoke Op.Authenticate then
    return Outcome.returned (NewToolResultErrorFromErr "Authentication failed" (some err)) none
  let siteID := request.GetString "site_id" ""
  let networkID := request.GetString "network_id" ""
  if networkID = "" then
    return Outcome.returned
      (NewToolResultErrorFromErr "Missing required parameter: network_id" none) none
  let (resolvedSiteID, err) ← resolveSiteID nc siteID
  if let some err := err then
    return Outcome.returned (NewToolResultErrorFromErr "Failed to resolve site ID" (some err)) none
  let (network, err) ← nc.invoke (Op.GetWiFiNetworkDetailed resolvedSiteID networkID)
  if let some err := err then
    return Outcome.returned (NewToolResultErrorFromErr "Failed to get network details" (some err)) none
  return NewToolResultJSON network

/-- Source `Server.getSiteHealth`. -/
def getSiteHealth {σ : Type} (nc : NetworkClient σ) (request : CallToolRequest) :
    Exec σ Outcome := do
  let siteID := request.GetString "site_id" ""
  if let some err ← nc.invoke Op.Authenticate then
    return Outcome.returned (NewToolResultErrorFromErr "Authentication failed" (some err)) none
  let (resolvedSiteID, err) ← resolveSiteID nc siteID
  if let some err := err then
    return Outcome.returned (NewToolResultErrorFromErr "Failed to resolve site ID" (some err)) none
  let (health, err) ← nc.invoke (Op.GetHealth resolvedSiteID)
  if let some err := err then
    return Outcome.returned (NewToolResultErrorFromErr "Failed to get health" (some err)) none
  let result := Value.obj [
    ("health", health),
    ("site_id", Value.str resolvedSiteID)]
  return NewToolResultJSON result

/-- Source `Server.checkNetworkEndpointHealth`. -/
def checkNetworkEndpointHealth {σ : Type} (nc : NetworkClient σ) (_request : CallToolRequest) :
    Exec σ Outcome := do
  if let some err ← nc.invoke Op.Authenticate then
    return Outcome.returned (NewToolResultErrorFromErr "Authentication failed" (some err)) none
  let (health, err) ← nc.invoke Op.CheckEndpointHealth
  if let some err := err then
    return Outcome.returned (NewToolResultErrorFromErr "Failed to check endpoint health" (some err)) none
  let result := Value.obj [
    ("endpoint", Value.str "Unifi Network"),
    ("health", health)]
  return NewToolResultJSON result

/-- Source `Server.checkProtectEndpointHealth`. -/
def checkProtectEndpointHealth {σ : Type} (nc : NetworkClient σ) (_request : CallToolRequest) :
    Exec σ Outcome := do
  if let some err ← nc.invoke Op.Authenticate then
    return Outcome.returned (NewToolResultErrorFromErr "Authentication failed" (some err)) none
  let result := Value.obj [
    ("endpoint", Value.str "Unifi Protect"),
    ("message", Value.str "Protect endpoint health check is not available in network-mcp. Use unifi-mcp for combined access."),
    ("status", Value.str "skipped")]
  return NewToolResultJSON result

/-- Source `Server.getFirewallZoneDetailed`. -/
def getFirewallZoneDetailed {σ : Type} (nc : NetworkClient σ) (request : CallToolRequest) :
    Exec σ Outcome := do
  if let some err ← nc.invoke Op.Authenticate then
    return Outcome.returned (NewToolResultErrorFromErr "Authentication failed" (some err)) none
  let siteID := request.GetString "site_id" ""
  let zoneID := request.GetString "firewall_zone_id" ""
  if zoneID = "" then
    return Outcome.returned
      (NewToolResultErrorFromErr "Missing required parameter: firewall_zone_id" none) none
  let (resolvedSiteID, err) ← resolveSiteID nc siteID
  if let some err := err then
    return Outcome.returned (NewToolResultErrorFromErr "Failed to resolve site ID" (some err)) none
  let (zone, err) ← nc.invoke (Op.GetFirewallZoneDetailed resolvedSiteID zoneID)
  if let some err := err then
    return Outcome.returned (NewToolResultErrorFromErr "Failed to get firewall zone details" (some err)) none
  return NewToolResultJSON zone

/-- Source `Server.getACLRuleDetailed`. -/
def getACLRuleDetailed {σ : Type} (nc : NetworkClient σ) (request : CallToolRequest) :
    Exec σ Outcome := do
  if let some err ← nc.invoke Op.Authenticate then
    return Outcome.returned (NewToolResultErrorFromErr "Authentication failed" (some err)) none
  let siteID := request.GetString "site_id" ""
  let ruleID := request.GetString "acl_rule_id" ""
  if ruleID = "" then
    return Outcome.returned
      (NewToolResultErrorFromErr "Missing required parameter: acl_rule_id" none) none
  let (resolvedSiteID, err) ← resolveSiteID nc siteID
  if let some err := err then
    return Outcome.returned (NewToolResultErrorFromErr "Failed to resolve site ID" (some err)) none
  let (rule, err) ← nc.invoke (Op.GetACLRuleDetailed resolvedSiteID ruleID)
  if let some err := err then
    return Outcome.returned (NewToolResultErrorFromErr "Failed to get ACL rule details" (some err)) none
  return NewToolResultJSON rule

/-- Source `Server.getHotspotVoucherDetailed`. -/
def getHotspotVoucherDetailed {σ : Type} (nc : NetworkClient σ) (request : CallToolRequest) :
    Exec σ Outcome := do
  if let some err ← nc.invoke Op.Authenticate then
    return Outcome.returned (NewToolResultErrorFromErr "Authentication failed" (some err)) none
  let siteID := request.GetString "site_id" ""
  let voucherID := request.GetString "voucher_id" ""
  if voucherID = "" then
    return Outcome.returned
      (NewToolResultErrorFromErr "Missing required parameter: voucher_id" none) none
  let (resolvedSiteID, err) ← resolveSiteID nc siteID
  if let some err := err then
    return Outcome.returned (NewToolResultErrorFromErr "Failed to resolve site ID" (some err)) none
  let (voucher, err) ← nc.invoke (Op.GetHotspotVoucherDetailed resolvedSiteID voucherID)
  if let some err := err then
    return Outcome.returned (NewToolResultErrorFromErr "Failed to get voucher details" (some err)) none
  return NewToolResultJSON voucher

/-- Source `Server.getTrafficRuleDetailed`. -/
def getTrafficRuleDetailed {σ : Type} (nc : NetworkClient σ) (request : CallToolRequest) :
    Exec σ Outcome := do
  if let some err ← nc.invoke Op.Authenticate then
    return Outcome.returned (NewToolResultErrorFromErr "Authentication failed" (some err)) none
  let siteID := request.GetString "site_id" ""
  let ruleID := request.GetString "traffic_matching_list_id" ""
  if ruleID = "" then
    return Outcome.returned
      (NewToolResultErrorFromErr "Missing required parameter: traffic_matching_list_id" none) none
  let (resolvedSiteID, err) ← resolveSiteID nc siteID
  if let some err := err then
    return Outcome.returned (NewToolResultErrorFromErr "Failed to resolve site ID" (some err)) none
  let (rule, err) ← nc.invoke (Op.GetTrafficRuleDetailed resolvedSiteID ruleID)
  if let some err := err then
    return Outcome.returned (NewToolResultErrorFromErr "Failed to get traffic rule details" (some err)) none
  return NewToolResultJSON rule

/-- Source `Server.getDeviceTags`. -/
def getDeviceTags {σ : Type} (nc : NetworkClient σ) (request : CallToolRequest) :
    Exec σ Outcome := do
  if let some err ← nc.invoke Op.Authenticate then
    return Outcome.returned (NewToolResultErrorFromErr "Authentication failed" (some err)) none
  let siteID := request.GetString "site_id" ""
  let (resolvedSiteID, err) ← resolveSiteID nc siteID
  if let some err := err then
    return Outcome.returned (NewToolResultErrorFromErr "Failed to resolve site ID" (some err)) none
  let (tags, err) ← nc.invoke (Op.GetDeviceTags resolvedSiteID)
  if let some err := err then
    return Outcome.returned (NewToolResultErrorFromErr "Failed to get device tags" (some err)) none
  let result := Value.obj [
    ("tags", Value.list tags),
    ("count", Value.int tags.length),
    ("site_id", Value.str resolvedSiteID)]
  return NewToolResultJSON result

/-- Source `Server.getWANConfig`. -/
def getWANConfig {σ : Type} (nc : NetworkClient σ) (request : CallToolRequest) :
    Exec σ Outcome := do
  if let some err ← nc.invoke Op.Authenticate then
    return Outcome.returned (NewToolResultErrorFromErr "Authentication failed" (some err)) none
  let siteID := request.GetString "site_id" ""
  let (resolvedSiteID, err) ← resolveSiteID nc siteID
  if let some err := err then
    return Outcome.returned (NewToolResultErrorFromErr "Failed to resolve site ID" (some err)) none
  let (wanConfig, err) ← nc.invoke (Op.GetWANConfig resolvedSiteID)
  if let some err := err then
    return Outcome.returned (NewToolResultErrorFromErr "Failed to get WAN config" (some err)) none
  let result := Value.obj [
    ("wans", Value.list wanConfig),
    ("count", Value.int wanConfig.length),
    ("site_id", Value.str resolvedSiteID)]
  return NewToolResultJSON result

/-- Source `Server.getRADIUSProfiles`. -/
def getRADIUSProfiles {σ : Type} (nc : NetworkClient σ) (request : CallToolRequest) :
    Exec σ Outcome := do
  if let some err ← nc.invoke Op.Authenticate then
    return Outcome.returned (NewToolResultErrorFromErr "Authentication failed" (some err)) none
  let siteID := request.GetString "site_id" ""
  let (resolvedSiteID, err) ← resolveSiteID nc siteID
  if let some err := err then
    return Outcome.returned (NewToolResultErrorFromErr "Failed to resolve site ID" (some err)) none
  let (profiles, err) ← nc.invoke (Op.GetRADIUSProfiles resolvedSiteID)
  if let some err := err then
    return Outcome.returned (NewToolResultErrorFromErr "Failed to get RADIUS profiles" (some err)) none
  let result := Value.obj [
    ("profiles", Value.list profiles),
    ("count", Value.int profiles.length),
    ("site_id", Value.str resolvedSiteID)]
  return NewToolResultJSON result

/-- Source `Server.getDPIApplications`. -/
def getDPIApplications {σ : Type} (nc : NetworkClient σ) (_request : CallToolRequest) :
    Exec σ Outcome := do
  if let some err ← nc.invoke Op.Authenticate then
    return Outcome.returned (NewToolResultErrorFromErr "Authentication failed" (some err)) none
  let (applications, err) ← nc.invoke Op.GetDPIApplications
  if let some err := err then
    return Outcome.returned (NewToolResultErrorFromErr "Failed to get DPI applications" (some err)) none
  let result := Value.obj [
    ("applications", Value.list applications),
    ("count", Value.int applications.length)]
  return NewToolResultJSON result

/-! ## Tool registration -/

/-- Library `server.ServerTool`: a named tool, its declared input properties
(name, type, description; the schema type is always "object") and its handler. -/
structure ServerTool (σ : Type) where
  Name : String
  Description : String
  Properties : List (String × String × String)
  Handler : CallToolRequest → Exec σ Outcome

/-- Source `Server.registerTools`: the tools handed to `AddTools`, in order. -/
def registerTools {σ : Type} (nc : NetworkClient σ) : List (ServerTool σ) := [
  ⟨"get_network_sites", "Get all sites from Unifi Network", [], getNetworkSites nc⟩,
  ⟨"get_network_devices", "Get all devices from Unifi Network", [
      ("site_id", "string", "Site ID (optional, defaults to first site)")],
    getNetworkDevices nc⟩,
  ⟨"get_device_detailed", "Get detailed information about a specific device", [
      ("site_id", "string", "Site ID (optional, defaults to first site)"),
      ("device_id", "string", "Device ID (required)")],
    getDeviceDetailed nc⟩,
  ⟨"get_device_stats", "Get statistics for a specific device", [
      ("site_id", "string", "Site ID (optional, defaults to first site)"),
      ("device_id", "string", "Device ID (required)")],
    getDeviceStats nc⟩,
  ⟨"get_network_info", "Get UniFi Network application version and info", [], getNetworkInfo nc⟩,
  ⟨"get_pending_devices", "Get devices pending adoption", [], getPendingDevices nc⟩,
  ⟨"get_wifi_networks", "Get WiFi networks from a site", [
      ("site_id", "string", "Site ID (optional, defaults to first site)")],
    getWiFiNetworks nc⟩,
  ⟨"get_wifi_network_detailed", "Get detailed information about a specific WiFi network", [
      ("site_id", "string", "Site ID (optional, defaults to first site)"),
      ("network_id", "string", "Network ID (required)")],
    getWiFiNetworkDetailed nc⟩,
  ⟨"get_wifi_broadcasts", "Get WiFi broadcast SSIDs from a site", [
      ("site_id", "string", "Site ID (optional, defaults to first site)")],
    getWiFiBroadcasts nc⟩,
  ⟨"get_network_clients", "Get network clients from a site", [
      ("site_id", "string", "Site ID (optional, defaults to first site)"),
      ("limit", "integer", "Limit (optional, default 25)"),
      ("offset", "integer", "Offset (optional, default 0)")],
    getNetworkClients nc⟩,
  ⟨"get_client_detailed", "Get detailed information about a specific client", [
      ("site_id", "string", "Site ID (optional, defaults to first site)"),
      ("mac", "string", "Client MAC address (required)")],
    getClientDetailed nc⟩,
  ⟨"get_client_stats", "Get client statistics from a site", [
      ("site_id", "string", "Site ID (optional, defaults to first site)")],
    getClientStats nc⟩,
  ⟨"get_site_health", "Get health status of a site", [
      ("site_id", "string", "Site ID (optional, defaults to first site)")],
    getSiteHealth nc⟩,
  ⟨"check_network_endpoint_health", "Check health status of the Unifi Network endpoint", [], checkNetworkEndpointHealth nc⟩,
  ⟨"check_protect_endpoint_health", "Check health status of the Unifi Protect endpoint", [], checkProtectEndpointHealth nc⟩,
  ⟨"get_firewall_zones", "Get firewall zones from a site", [
      ("site_id", "string", "Site ID (optional, defaults to first site)")],
    getFirewallZones nc⟩,
  ⟨"get_firewall_zone_detailed", "Get detailed information about a specific firewall zone", [
      ("site_id", "string", "Site ID (optional, defaults to first site)"),
      ("firewall_zone_id", "string", "Firewall zone ID (required)")],
    getFirewallZoneDetailed nc⟩,
  ⟨"get_acl_rules", "Get ACL rules from a site", [
      ("site_id", "string", "Site ID (optional, defaults to first site)")],
    getACLRules nc⟩,
  ⟨"get_acl_rule_detailed", "Get detailed information about a specific ACL rule", [
      ("site_id", "string", "Site ID (optional, defaults to first site)"),
      ("acl_rule_id", "string", "ACL rule ID (required)")],
    getACLRuleDetailed nc⟩,
  ⟨"get_hotspot_vouchers", "Get hotspot vouchers from a site", [
      ("site_id", "string", "Site ID (optional, defaults to first site)")],
    getHotspotVouchers nc⟩,
  ⟨"get_hotspot_voucher_detailed", "Get detailed information about a specific hotspot voucher", [
      ("site_id", "string", "Site ID (optional, defaults to first site)"),
      ("voucher_id", "string", "Voucher ID (required)")],
    getHotspotVoucherDetailed nc⟩,
  ⟨"get_traffic_rules", "Get traffic rules from a site", [
      ("site_id", "string", "Site ID (optional, defaults to first site)")],
    getTrafficRules nc⟩,
  ⟨"get_traffic_rule_detailed", "Get detailed information about a specific traffic matching rule", [
      ("site_id", "string", "Site ID (optional, defaults to first site)"),
      ("traffic_matching_list_id", "string", "Traffic matching list ID (required)")],
    getTrafficRuleDetailed nc⟩,
  ⟨"get_vpn_servers", "Get VPN server configurations from a site", [
      ("site_id", "string", "Site ID (optional, defaults to first site)")],
    getVPNServers nc⟩,
  ⟨"get_device_tags", "Get device tags from a site", [
      ("site_id", "string", "Site ID (optional, defaults to first site)")],
    getDeviceTags nc⟩,
  ⟨"get_wan_config", "Get WAN configuration from a site", [
      ("site_id", "string", "Site ID (optional, defaults to first site)")],
    getWANConfig nc⟩,
  ⟨"get_radius_profiles", "Get RADIUS server profiles from a site", [
      ("site_id", "string", "Site ID (optional, defaults to first site)")],
    getRADIUSProfiles nc⟩,
  ⟨"get_dpi_categories", "Get DPI traffic categories", [], getDPICategories nc⟩,
  ⟨"get_dpi_apps", "Get DPI applications", [], getDPIApps nc⟩,
  ⟨"get_dpi_applications", "Get DPI applications list", [], getDPIApplications nc⟩,
  ⟨"patch_wifi_network", "Update WiFi network settings", [
      ("site_id", "string", "Site ID (optional, defaults to first site)"),
      ("network_id", "string", "Network ID (required)"),
      ("settings", "object", "Settings to update (required)")],
    patchWiFiNetwork nc⟩,
  ⟨"patch_firewall_zone", "Update firewall zone", [
      ("site_id", "string", "Site ID (optional, defaults to first site)"),
      ("zone_id", "string", "Zone ID (required)"),
      ("settings", "object", "Settings to update (required)")],
    patchFirewallZone nc⟩,
  ⟨"patch_acl_rule", "Update ACL rule", [
      ("site_id", "string", "Site ID (optional, defaults to first site)"),
      ("rule_id", "string", "Rule ID (required)"),
      ("settings", "object", "Settings to update (required)")],
    patchACLRule nc⟩,
  ⟨"patch_hotspot_voucher", "Update hotspot voucher", [
      ("site_id", "string", "Site ID (optional, defaults to first site)"),
      ("voucher_id", "string", "Voucher ID (required)"),
      ("settings", "object", "Settings to update (required)")],
    patchHotspotVoucher nc⟩,
  ⟨"patch_traffic_rule", "Update traffic rule", [
      ("site_id", "string", "Site ID (optional, defaults to first site)"),
      ("rule_id", "string", "Rule ID (required)"),
      ("settings", "object", "Settings to update (required)")],
    patchTrafficRule nc⟩,
  ⟨"create_wifi_network", "Create a new WiFi network", [
      ("site_id", "string", "Site ID (optional, defaults to first site)"),
      ("config", "object", "WiFi network configuration (required)")],
    createWiFiNetwork nc⟩,
  ⟨"create_firewall_zone", "Create a new firewall zone", [
      ("site_id", "string", "Site ID (optional, defaults to first site)"),
      ("config", "object", "Firewall zone configuration (required)")],
    createFirewallZone nc⟩,
  ⟨"create_acl_rule", "Create a new ACL rule", [
      ("site_id", "string", "Site ID (optional, defaults to first site)"),
      ("config", "object", "ACL rule configuration (required)")],
    createACLRule nc⟩,
  ⟨"create_hotspot_voucher", "Create a new hotspot voucher", [
      ("site_id", "string", "Site ID (optional, defaults to first site)"),
      ("config", "object", "Voucher configuration (required)")],
    createHotspotVoucher nc⟩,
  ⟨"create_traffic_rule", "Create a new traffic rule", [
      ("site_id", "string", "Site ID (optional, defaults to first site)"),
      ("config", "object", "Traffic rule configuration (required)")],
    createTrafficRule nc⟩,
  ⟨"create_vpn_tunnel", "Create a new VPN tunnel", [
      ("site_id", "string", "Site ID (optional, defaults to first site)"),
      ("config", "object", "VPN tunnel configuration (required)")],
    createVPNTunnel nc⟩]

/-! ## Test doubles -/

/-- Scripted answers of a test double, one per shape of return values. -/
def scriptedResp (auth : Option GoError) (sites : List Site × Option GoError)
    (items : List Value) (entity : Value) (mapping : Option GoMap) (opErr : Option GoError) :
    (k : RespKind) → k.Resp
  | RespKind.session => auth
  | RespKind.sites => sites
  | RespKind.items => (items, opErr)
  | RespKind.entity => (entity, opErr)
  | RespKind.mapping => (mapping, opErr)

/-- Test double of the controller client: every operation answers from a fixed
script, and the state counts the calls received. -/
def scriptedClient (auth : Option GoError) (sites : List Site × Option GoError)
    (items : List Value) (entity : Value) (mapping : Option GoMap) (opErr : Option GoError) :
    NetworkClient Nat :=
  ⟨fun op n => (scriptedResp auth sites items entity mapping opErr op.kind, n + 1)⟩

/-- Test double whose operations all succeed against the given site list. -/
def siteClient (sites : List Site) : NetworkClient Nat :=
  scriptedClient none (sites, none) [] Value.null (some []) none

/-- Fresh world: no call made yet. -/
def World.fresh : World Nat := ⟨0, []⟩

/-- Site of the spec's scenarios. -/
def homeSite : Site := ⟨"s1", "ext-1", "Home"⟩

/-- Second site whose display name is the default marker. -/
def namedDefaultSite : Site := ⟨"s2", "ext-2", "default"⟩

/-- Second site whose internal ID is the default marker. -/
def idDefaultSite : Site := ⟨"default", "ext-2", "Main"⟩

/-- Test double whose session is rejected: Authenticate fails. -/
def failingAuthClient : NetworkClient Nat :=
  scriptedClient (some ⟨"401 unauthorized"⟩) ([homeSite], none) [] Value.null (some []) none

/-- Test double whose entity reads answer with a payload that has no site field. -/
def payloadClient : NetworkClient Nat :=
  scriptedClient none ([homeSite], none) [] (Value.obj [("ssid", Value.str "lan")])
    (some []) none

/-- Request without any argument. -/
def emptyRequest : CallToolRequest := ⟨Value.obj []⟩

/-- Request whose sub-identifier arguments are all present and empty. -/
def blankIDRequest : CallToolRequest :=
  ⟨Value.obj [
    ("network_id", Value.str ""),
    ("firewall_zone_id", Value.str ""),
    ("acl_rule_id", Value.str ""),
    ("voucher_id", Value.str ""),
    ("traffic_matching_list_id", Value.str "")]⟩

/-- Request naming a WiFi network and no site. -/
def networkRequest : CallToolRequest := ⟨Value.obj [("network_id", Value.str "n1")]⟩

/-- Request for a page of clients. -/
def pageRequest : CallToolRequest :=
  ⟨Value.obj [("limit", Value.int 10), ("offset", Value.int 20)]⟩

/-- The registered tool `get_network_devices`, over the one-site test double. -/
def devicesTool : ServerTool Nat :=
  ⟨"get_network_devices", "Get all devices from Unifi Network", [
      ("site_id", "string", "Site ID (optional, defaults to first site)")],
    getNetworkDevices (siteClient [homeSite])⟩

/-! ## Vocabulary of the handler proofs -/

/-- Site identifier handed to an operation, when it takes one. -/
def Op.siteID? : Op → Option String
  | Op.Authenticate => none
  | Op.GetSites => none
  | Op.GetDevices siteID => some siteID
  | Op.GetDeviceDetailed siteID _ => some siteID
  | Op.GetDeviceStats siteID _ => some siteID
  | Op.GetInfo => none
  | Op.GetPendingDevices => none
  | Op.GetWiFiNetworks siteID => some siteID
  | Op.GetWiFiNetworkDetailed siteID _ => some siteID
  | Op.GetWiFiBroadcasts siteID => some siteID
  | Op.GetClients siteID _ _ => some siteID
  | Op.GetClientDetailed siteID _ => some siteID
  | Op.GetClientStats siteID => some siteID
  | Op.GetHealth siteID => some siteID
  | Op.CheckEndpointHealth => none
  | Op.GetFirewallZones siteID => some siteID
  | Op.GetFirewallZoneDetailed siteID _ => some siteID
  | Op.GetACLRules siteID => some siteID
  | Op.GetACLRuleDetailed siteID _ => some siteID
  | Op.GetHotspotVouchers siteID => some siteID
  | Op.GetHotspotVoucherDetailed siteID _ => some siteID
  | Op.GetTrafficRules siteID => some siteID
  | Op.GetTrafficRuleDetailed siteID _ => some siteID
  | Op.GetVPNServers siteID => some siteID
  | Op.GetDeviceTags siteID => some siteID
  | Op.GetWANConfig siteID => some siteID
  | Op.GetRADIUSProfiles siteID => some siteID
  | Op.GetDPICategories => none
  | Op.GetDPIApplications => none
  | Op.PatchWiFiNetwork siteID _ _ => some siteID
  | Op.PatchFirewallZone siteID _ _ => some siteID
  | Op.PatchACLRule siteID _ _ => some siteID
  | Op.PatchHotspotVoucher siteID _ _ => some siteID
  | Op.PatchTrafficRule siteID _ _ => some siteID
  | Op.CreateWiFiNetwork siteID _ => some siteID
  | Op.CreateFirewallZone siteID _ => some siteID
  | Op.CreateACLRule siteID _ => some siteID
  | Op.CreateHotspotVoucher siteID _ => some siteID
  | Op.CreateTrafficRule siteID _ => some siteID
  | Op.CreateVPNTunnel siteID _ => some siteID

/-- World a handler is in once its Authenticate call has returned. -/
def afterAuthenticate {σ : Type} (nc : NetworkClient σ) (w : World σ) : World σ :=
  (nc.invoke Op.Authenticate w).2

/-- What `resolveSiteID` returns to a handler for the request's `site_id`
argument: it runs right after Authenticate. -/
def resolved {σ : Type} (nc : NetworkClient σ) (request : CallToolRequest) (w : World σ) :
    String × Option GoError :=
  (resolveSiteID nc (request.GetString "site_id" "") (afterAuthenticate nc w)).1

/-- World a handler is in once site resolution has returned. -/
def afterResolve {σ : Type} (nc : NetworkClient σ) (request : CallToolRequest) (w : World σ) :
    World σ :=
  (resolveSiteID nc (request.GetString "site_id" "") (afterAuthenticate nc w)).2

/-- The step shared by all handlers: authenticate, give up on failure. -/
def authThen {σ : Type} (nc : NetworkClient σ) (k : Exec σ Outcome) : Exec σ Outcome := do
  if let some err ← nc.invoke Op.Authenticate then
    return Outcome.returned (NewToolResultErrorFromErr "Authentication failed" (some err)) none
  k

/-- The step shared by the site-scoped handlers: resolve the token, give up on
failure. -/
def resolveThen {σ : Type} (nc : NetworkClient σ) (tok : String)
    (k : String → Exec σ Outcome) : Exec σ Outcome := do
  let (resolvedSiteID, err) ← resolveSiteID nc tok
  if let some err := err then
    return Outcome.returned (NewToolResultErrorFromErr "Failed to resolve site ID" (some err)) none
  k resolvedSiteID

/-- The last step of a handler: one collaborator operation, its failure text,
and the wrapping of its payload. -/
def opThen {σ α : Type} (run : Exec σ (α × Option GoError)) (failText : String)
    (ok : α → Exec σ Outcome) : Exec σ Outcome := do
  let (v, err) ← run
  if let some err := err then
    return Outcome.returned (NewToolResultErrorFromErr failText (some err)) none
  ok v

/-- The three ways a site-scoped handler runs on a request: rejected by
validation before any call, rejected by validation right after Authenticate, or
forwarded through authentication and site resolution to one operation that is
handed the resolved site identifier.  `Q rid out` is what is recorded about the
outcome `out` of wrapping a payload under the resolved identifier `rid`. -/
inductive SiteScopedRun {σ : Type} (nc : NetworkClient σ) (tok : String)
    (Q : String → Outcome → Prop) : Exec σ Outcome → Prop where
  | rejected (text : String) :
      SiteScopedRun nc tok Q (pure (Outcome.returned (CallToolResult.toolError text) none))
  | rejectedAfterAuth (text : String) :
      SiteScopedRun nc tok Q
        (authThen nc (pure (Outcome.returned (CallToolResult.toolError text) none)))
  | forwarded {α : Type} (run : String → Exec σ (α × Option GoError)) (opOf : String → Op)
      (failText : String) (ok : String → α → Exec σ Outcome)
      (hrun : ∀ rid w, (run rid w).2.calls = w.calls ++ [opOf rid])
      (hop : ∀ rid, (opOf rid).siteID? = some rid)
      (hok : ∀ rid v w, (ok rid v w).2 = w)
      (henv : ∀ rid v w, Q rid (ok rid v w).1) :
      SiteScopedRun nc tok Q
        (authThen nc (resolveThen nc tok (fun rid => opThen (run rid) failText (ok rid))))

/-- The five detail handlers that hand the collaborator's payload back as it
is, with no envelope around it. -/
def passthroughTools : List String := [
  "get_wifi_network_detailed",
  "get_firewall_zone_detailed",
  "get_acl_rule_detailed",
  "get_hotspot_voucher_detailed",
  "get_traffic_rule_detailed"]

/-- The success envelope of the tool `name` is an object whose `site_id` field
is `rid`, unless the tool is one of the pass-through handlers. -/
def carriesSiteID (name : String) (rid : String) (out : Outcome) : Prop :=
  ∀ data, out = Outcome.returned (CallToolResult.toolJSON data) none →
    name ∉ passthroughTools →
    ∃ m, data = Value.obj m ∧ m.lookup "site_id" = some (Value.str rid)

/-! ## Vocabulary of the failure paths -/

/-- Error slot of the return values of each shape. -/
def RespKind.err : (k : RespKind) → k.Resp → Option GoError
  | RespKind.session, r => r
  | RespKind.sites, r => r.2
  | RespKind.items, r => r.2
  | RespKind.entity, r => r.2
  | RespKind.mapping, r => r.2

/-- Error slot of the return values of an operation. -/
def Op.err (op : Op) (r : op.Resp) : Option GoError := op.kind.err r

/-- Whether a registered tool declares a `site_id` argument. -/
def ServerTool.siteScoped {σ : Type} (tool : ServerTool σ) : Bool :=
  tool.Properties.any (fun p => p.1 == "site_id")

/-- Text with which each tool's handler reports the failure of its own
collaborator operation (the stub `check_protect_endpoint_health` has none). -/
def failureText : String → String
  | "get_network_sites" => "Failed to get sites"
  | "get_network_devices" => "Failed to get devices"
  | "get_device_detailed" => "Failed to get device details"
  | "get_device_stats" => "Failed to get device stats"
  | "get_network_info" => "Failed to get network info"
  | "get_pending_devices" => "Failed to get pending devices"
  | "get_wifi_networks" => "Failed to get wifi networks"
  | "get_wifi_network_detailed" => "Failed to get network details"
  | "get_wifi_broadcasts" => "Failed to get wifi broadcasts"
  | "get_network_clients" => "Failed to get network clients"
  | "get_client_detailed" => "Failed to get client details"
  | "get_client_stats" => "Failed to get client stats"
  | "get_site_health" => "Failed to get health"
  | "check_network_endpoint_health" => "Failed to check endpoint health"
  | "get_firewall_zones" => "Failed to get firewall zones"
  | "get_firewall_zone_detailed" => "Failed to get firewall zone details"
  | "get_acl_rules" => "Failed to get acl rules"
  | "get_acl_rule_detailed" => "Failed to get ACL rule details"
  | "get_hotspot_vouchers" => "Failed to get hotspot vouchers"
  | "get_hotspot_voucher_detailed" => "Failed to get voucher details"
  | "get_traffic_rules" => "Failed to get traffic rules"
  | "get_traffic_rule_detailed" => "Failed to get traffic rule details"
  | "get_vpn_servers" => "Failed to get vpn servers"
  | "get_device_tags" => "Failed to get device tags"
  | "get_wan_config" => "Failed to get WAN config"
  | "get_radius_profiles" => "Failed to get RADIUS profiles"
  | "get_dpi_categories" => "Failed to get dpi categories"
  | "get_dpi_apps" => "Failed to get dpi apps"
  | "get_dpi_applications" => "Failed to get DPI applications"
  | "patch_wifi_network" => "Failed to update wifi network"
  | "patch_firewall_zone" => "Failed to update firewall zone"
  | "patch_acl_rule" => "Failed to update acl rule"
  | "patch_hotspot_voucher" => "Failed to update hotspot voucher"
  | "patch_traffic_rule" => "Failed to update traffic rule"
  | "create_wifi_network" => "Failed to create wifi network"
  | "create_firewall_zone" => "Failed to create firewall zone"
  | "create_acl_rule" => "Failed to create acl rule"
  | "create_hotspot_voucher" => "Failed to create hotspot voucher"
  | "create_traffic_rule" => "Failed to create traffic rule"
  | "create_vpn_tunnel" => "Failed to create vpn tunnel"
  | _ => ""

/-- The calls a handler run added to the log. -/
def newCalls {σ : Type} (w : World σ) (out : Outcome × World σ) : List Op :=
  out.2.calls.drop w.calls.length

/-- Shapes of the handlers of all registered tools, in step form, with the
failure text of the operation and whether the tool is site-scoped. -/
inductive ToolRun {σ : Type} (nc : NetworkClient σ) (tok : String) (failText : String) :
    Bool → Exec σ Outcome → Prop where
  | rejected (text : String) :
      ToolRun nc tok failText true
        (pure (Outcome.returned (CallToolResult.toolError text) none))
  | rejectedAfterAuth (text : String) :
      ToolRun nc tok failText true
        (authThen nc (pure (Outcome.returned (CallToolResult.toolError text) none)))
  | stub (data : Value) :
      ToolRun nc tok failText false (authThen nc (pure (NewToolResultJSON data)))
  | direct {α : Type} (run : Exec σ (α × Option GoError)) (op : Op) (ok : α → Exec σ Outcome)
      (hrun : ∀ w, (run w).2 = (nc.invoke op w).2)
      (herr : ∀ w, (run w).1.2 = op.err (nc.call op w.state).1)
      (hop : op.siteID? = none)
      (hok : ∀ v w, ∃ data,
        ok v w = (Outcome.returned (CallToolResult.toolJSON data) none, w)) :
      ToolRun nc tok failText false (authThen nc (opThen run failText ok))
  | forwarded {α : Type} (run : String → Exec σ (α × Option GoError)) (opOf : String → Op)
      (ok : String → α → Exec σ Outcome)
      (hrun : ∀ rid w, (run rid w).2 = (nc.invoke (opOf rid) w).2)
      (herr : ∀ rid w, (run rid w).1.2 = (opOf rid).err (nc.call (opOf rid) w.state).1)
      (hop : ∀ rid, (opOf rid).siteID? = some rid)
      (hok : ∀ rid v w,
        (∃ data, ok rid v w = (Outcome.returned (CallToolResult.toolJSON data) none, w)) ∨
        (∃ reason, ok rid v w = (Outcome.panicked reason, w))) :
      ToolRun nc tok failText true
        (authThen nc (resolveThen nc tok (fun rid => opThen (run rid) failText (ok rid))))

/-- The world in which a handler invokes its own operation `op`: after
Authenticate, and for a site-scoped tool after a site resolution that returned
`rid` without error, `rid` being the site handed to `op`. -/
def AtOperation {σ : Type} (nc : NetworkClient σ) (tok : String) (forSite : Bool)
    (w : World σ) (op : Op) (wB : World σ) : Prop :=
  (forSite = true ∧ ∃ rid, (resolveSiteID nc tok (afterAuthenticate nc w)).1 = (rid, none) ∧
    wB = (resolveSiteID nc tok (afterAuthenticate nc w)).2 ∧ op.siteID? = some rid) ∨
  (forSite = false ∧ wB = afterAuthenticate nc w ∧ op.siteID? = none)

/-- The ways a handler run from the world `w` can end, with the result and the
world it leaves: rejected by validation before any call, authentication failed,
rejected by validation after authentication, the stub's fixed answer, site
resolution failed, the operation failed, the operation returned without error. -/
inductive RunCase {σ : Type} (nc : NetworkClient σ) (tok : String) (failText : String)
    (forSite : Bool) (w : World σ) : Outcome × World σ → Prop where
  | rejected (text : String) (hs : forSite = true) :
      RunCase nc tok failText forSite w
        (Outcome.returned (CallToolResult.toolError text) none, w)
  | authFailed (e : GoError) (ha : (nc.call Op.Authenticate w.state).1 = some e) :
      RunCase nc tok failText forSite w
        (Outcome.returned (NewToolResultErrorFromErr "Authentication failed" (some e)) none,
          afterAuthenticate nc w)
  | rejectedAfterAuth (text : String) (hs : forSite = true)
      (ha : (nc.call Op.Authenticate w.state).1 = none) :
      RunCase nc tok failText forSite w
        (Outcome.returned (CallToolResult.toolError text) none, afterAuthenticate nc w)
  | stub (data : Value) (hs : forSite = false)
      (ha : (nc.call Op.Authenticate w.state).1 = none) :
      RunCase nc tok failText forSite w
        (Outcome.returned (CallToolResult.toolJSON data) none, afterAuthenticate nc w)
  | resolveFailed (rid : String) (e : GoError) (hs : forSite = true)
      (ha : (nc.call Op.Authenticate w.state).1 = none)
      (hr : (resolveSiteID nc tok (afterAuthenticate nc w)).1 = (rid, some e)) :
      RunCase nc tok failText forSite w
        (Outcome.returned
            (NewToolResultErrorFromErr "Failed to resolve site ID" (some e)) none,
          (resolveSiteID nc tok (afterAuthenticate nc w)).2)
  | opFailed (op : Op) (e : GoError) (wB : World σ)
      (ha : (nc.call Op.Authenticate w.state).1 = none)
      (hat : AtOperation nc tok forSite w op wB)
      (he : op.err (nc.call op wB.state).1 = some e) :
      RunCase nc tok failText forSite w
        (Outcome.returned (NewToolResultErrorFromErr failText (some e)) none,
          (nc.invoke op wB).2)
  | opDone (op : Op) (wB : World σ) (out : Outcome)
      (ha : (nc.call Op.Authenticate w.state).1 = none)
      (hat : AtOperation nc tok forSite w op wB)
      (he : op.err (nc.call op wB.state).1 = none)
      (hout : (∃ data, out = Outcome.returned (CallToolResult.toolJSON data) none) ∨
        (∃ reason, out = Outcome.panicked reason)) :
      RunCase nc tok failText forSite w (out, (nc.invoke op wB).2)

/-- The calls that precede a tool's own operation: Authenticate, and for a
site-scoped tool the GetSites of site resolution. -/
def stageCalls {σ : Type} (tool : ServerTool σ) : List Op :=
  if tool.siteScoped then [Op.Authenticate, Op.GetSites] else [Op.Authenticate]

/-- The world in which a tool's handler invokes its own operation. -/
def operationWorld {σ : Type} (nc : NetworkClient σ) (tool : ServerTool σ)
    (request : CallToolRequest) (w : World σ) : World σ :=
  if tool.siteScoped then afterResolve nc request w else afterAuthenticate nc w

/-- Test double whose own operations all fail, after a successful session and
site fetch. -/
def failingOpClient : NetworkClient Nat :=
  scriptedClient none ([homeSite], none) [] Value.null none (some ⟨"500 internal error"⟩)

/-- Test double whose site fetch fails. -/
def failingSitesClient : NetworkClient Nat :=
  scriptedClient none ([], some ⟨"503 unavailable"⟩) [] Value.null (some []) none

/-- The registered tool `get_network_devices` over a given client. -/
def devicesToolOver (nc : NetworkClient Nat) : ServerTool Nat :=
  ⟨"get_network_devices", "Get all devices from Unifi Network", [
      ("site_id", "string", "Site ID (optional, defaults to first site)")],
    getNetworkDevices nc⟩

/-- The registered tool `get_network_sites` over a given client. -/
def sitesToolOver (nc : NetworkClient Nat) : ServerTool Nat :=
  ⟨"get_network_sites", "Get all sites from Unifi Network", [], getNetworkSites nc⟩

/-- The mapping `merged` is the mapping `m` with exactly three keys set:
`success` to true, `idKey` to `id` and `site_id` to `rid`; every other key reads
as in `m`. -/
def IsMerge (m merged : GoMap) (idKey id rid : String) : Prop :=
  merged.lookup "success" = some (Value.bool true) ∧
  merged.lookup idKey = some (Value.str id) ∧
  merged.lookup "site_id" = some (Value.str rid) ∧
  ∀ k, k ≠ "success" → k ≠ idKey → k ≠ "site_id" → merged.lookup k = m.lookup k

/-- Test double whose mutations answer with a mapping that already has a
`site_id` and a `success` entry. -/
def mappingClient : NetworkClient Nat :=
  scriptedClient none ([homeSite], none) [] (Value.str "created")
    (some [("name", Value.str "lan"), ("site_id", Value.str "stale"),
      ("success", Value.bool false)]) none

/-- Test double whose list reads answer with two items. -/
def itemsClient : NetworkClient Nat :=
  scriptedClient none ([homeSite], none) [Value.str "a", Value.str "b"] Value.null
    (some []) none

/-- Request of a mutation: a target identifier under every identifier key, a
settings object and a config object. -/
def mutationRequest : CallToolRequest :=
  ⟨Value.obj [
    ("network_id", Value.str "n1"),
    ("zone_id", Value.str "z1"),
    ("rule_id", Value.str "r1"),
    ("voucher_id", Value.str "v1"),
    ("settings", Value.obj [("enabled", Value.bool true)]),
    ("config", Value.obj [("name", Value.str "guest")])]⟩

/-- Request of a mutation with a settings object and no target identifier. -/
def settingsOnlyRequest : CallToolRequest :=
  ⟨Value.obj [("settings", Value.obj [("enabled", Value.bool true)])]⟩

/-- Request naming a site. -/
def siteRequest : CallToolRequest := ⟨Value.obj [("site_id", Value.str "Home")]⟩

/-- Test double whose Patch operations answer with a nil mapping and a nil
error, after a successful session and site fetch. -/
def nilMappingClient : NetworkClient Nat :=
  scriptedClient none ([homeSite], none) [] Value.null none none

/-- A run that validates right after Authenticate and rejects the request with
`text`: Authenticate is the one call made, so the site list is not fetched; the
answer is the rejection when Authenticate succeeded and the authentication error
when it failed. -/
def RejectsAfterAuthenticate {σ : Type} (nc : NetworkClient σ) (w : World σ) (text : String)
    (out : Outcome × World σ) : Prop :=
  out.2.calls = w.calls ++ [Op.Authenticate] ∧
  Op.GetSites ∉ newCalls w out ∧
  ((nc.call Op.Authenticate w.state).1 = none →
    out.1 = Outcome.returned (CallToolResult.toolError text) none) ∧
  (∀ e, (nc.call Op.Authenticate w.state).1 = some e →
    out.1 = Outcome.returned
      (CallToolResult.toolError ("Authentication failed" ++ ": " ++ e.msg)) none)

/-- A run that validates before any call and rejects the request with `text`:
the world is left as it was. -/
def RejectsBeforeAuthenticate {σ : Type} (w : World σ) (text : String)
    (out : Outcome × World σ) : Prop :=
  out = (Outcome.returned (CallToolResult.toolError text) none, w)

/-- The identifier `e` is canonical in a site list: it is neither empty nor the
default marker, and every site whose display name or internal ID equals `e` has
`e` as its ExternalID. -/
def Canonical (sites : List Site) (e : String) : Prop :=
  e ≠ "" ∧ e ≠ "default" ∧
  ∀ t ∈ sites, (t.Name = e ∨ t.ID = e) → t.ExternalID = e

/-- Exact-name lookup in the list of registered tools: the first tool that
carries the name. -/
def lookupTool {σ : Type} (tools : List (ServerTool σ)) (name : String) :
    Option (ServerTool σ) :=
  tools.find? (fun t => t.Name == name)

/-- Second site of the fixed-point scenario. -/
def officeSite : Site := ⟨"s2", "ext-2", "Office"⟩

/-- Range of the 64-bit Go `int`. -/
def inIntRange (n : Int) : Prop := -(2 : Int) ^ 63 ≤ n ∧ n < (2 : Int) ^ 63

/-- The float64 `m * 2 ^ e` is the integer `n`: it has no fraction. -/
def floatIs (m e n : Int) : Prop :=
  if 0 ≤ e then n = m * 2 ^ e.toNat else m = n * 2 ^ (-e).toNat

/-- The argument value `v` supplies the integer `n`: as a Go `int`, as a
float64 whose value is `n`, or as a string that `Atoi` reads as `n`. -/
def Value.suppliesInt (v : Value) (n : Int) : Prop :=
  v = Value.int n ∨
  (∃ m e, v = Value.float m e ∧ floatIs m e n) ∨
  (∃ s, v = Value.str s ∧ atoi s = some n)

/-- Request for a page of clients as decoded from JSON: limit 10 and offset 20
as float64 values. -/
def decodedPageRequest : CallToolRequest :=
  ⟨Value.obj [("limit", Value.float 5 1), ("offset", Value.float 5 2)]⟩

/-- Request whose limit is the number 10.5. -/
def fractionalPageRequest : CallToolRequest :=
  ⟨Value.obj [("limit", Value.float 21 (-1))]⟩

/-- Request whose limit is the number 1e19, beyond the range of `int`. -/
def hugePageRequest : CallToolRequest :=
  ⟨Value.obj [("limit", Value.float 19073486328125 19)]⟩

/-! ## Site resolver: auxiliary facts -/

theorem find?_first_match {α : Type} (p : α → Bool) (pre post : List α) (x : α)
    (hpre : ∀ s ∈ pre, p s = false) (hx : p x = true) :
    (pre ++ x :: post).find? p = some x := by
  induction pre with
  | nil => simp [List.find?, hx]
  | cons a l ih =>
    have ha : p a = false := hpre a (List.mem_cons_self a l)
    have hl : ∀ s ∈ l, p s = false := fun s hs => hpre s (List.mem_cons_of_mem a hs)
    simp [List.find?, ha, ih hl]

theorem resolveSiteID_world {σ : Type} (nc : NetworkClient σ) (tok : String) (w : World σ) :
    (resolveSiteID nc tok w).2 = ⟨(nc.call Op.GetSites w.state).2, w.calls ++ [Op.GetSites]⟩ := by
  unfold resolveSiteID
  simp only [bind, pure, NetworkClient.invoke]
  rcases (nc.call Op.GetSites w.state).1 with ⟨sites, _ | e⟩
  · cases sites with
    | nil => rfl
    | cons first rest =>
      dsimp only
      by_cases ht : tok = "" ∨ tok = "default"
      · simp only [ht, if_true]
      · simp only [ht, if_false]
        cases List.find? (fun site => decide (site.Name = tok)) (first :: rest) with
        | some s => rfl
        | none =>
          cases List.find? (fun site => decide (site.ID = tok ∨ site.ExternalID = tok))
            (first :: rest) with
          | some s => rfl
          | none => rfl
  · rfl

theorem resolveSiteID_fetch_failed {σ : Type} (nc : NetworkClient σ) (tok : String)
    (w : World σ) (sites : List Site) (e : GoError)
    (hget : (nc.call Op.GetSites w.state).1 = (sites, some e)) :
    (resolveSiteID nc tok w).1 = ("", some e) := by
  unfold resolveSiteID
  simp only [bind, pure, NetworkClient.invoke, hget]

theorem resolveSiteID_empty {σ : Type} (nc : NetworkClient σ) (tok : String) (w : World σ)
    (hget : (nc.call Op.GetSites w.state).1 = ([], none)) :
    (resolveSiteID nc tok w).1 = ("", some (fmtErrorf "no sites available")) := by
  unfold resolveSiteID
  simp only [bind, pure, NetworkClient.invoke, hget]

theorem resolveSiteID_value {σ : Type} (nc : NetworkClient σ) (tok : String) (w : World σ)
    (first : Site) (rest : List Site)
    (hget : (nc.call Op.GetSites w.state).1 = (first :: rest, none)) :
    (resolveSiteID nc tok w).1 =
      if tok = "" ∨ tok = "default" then (first.ExternalID, none)
      else match (first :: rest).find? (fun site => site.Name = tok) with
        | some site => (site.ExternalID, none)
        | none =>
          match (first :: rest).find? (fun site => site.ID = tok ∨ site.ExternalID = tok) with
          | some site => (site.ExternalID, none)
          | none => (tok, none) := by
  unfold resolveSiteID
  simp only [bind, pure, NetworkClient.invoke, hget]
  by_cases ht : tok = "" ∨ tok = "default"
  · simp only [ht, if_true]
  · simp only [ht, if_false]
    cases List.find? (fun site => decide (site.Name = tok)) (first :: rest) with
    | some s => rfl
    | none =>
      cases List.find? (fun site => decide (site.ID = tok ∨ site.ExternalID = tok))
        (first :: rest) with
      | some s => rfl
      | none => rfl

/-! ## Handlers in step form -/

theorem getNetworkSites_steps {σ : Type} (nc : NetworkClient σ) (request : CallToolRequest) :
    getNetworkSites nc request =
      authThen nc (opThen (nc.invoke Op.GetSites) "Failed to get sites" (fun sites =>
        pure (NewToolResultJSON (Value.obj [
          ("sites", Value.list (sites.map Value.site)),
          ("count", Value.int sites.length)])))) := rfl

theorem getNetworkDevices_steps {σ : Type} (nc : NetworkClient σ) (request : CallToolRequest) :
    getNetworkDevices nc request =
      authThen nc (resolveThen nc (request.GetString "site_id" "") (fun rid =>
        opThen (nc.invoke (Op.GetDevices rid)) "Failed to get devices" (fun devices =>
          pure (NewToolResultJSON (Value.obj [
            ("devices", Value.list devices),
            ("count", Value.int devices.length),
            ("site_id", Value.str rid)]))))) := rfl

theorem getDeviceDetailed_steps {σ : Type} (nc : NetworkClient σ) (request : CallToolRequest) :
    getDeviceDetailed nc request =
      if (request.GetString "device_id" "") = "" then
        pure (Outcome.returned (NewToolResultError "device_id is required") none)
      else
        authThen nc (resolveThen nc (request.GetString "site_id" "") (fun rid =>
          opThen (nc.invoke (Op.GetDeviceDetailed rid (request.GetString "device_id" ""))) "Failed to get device details" (fun device =>
            pure (NewToolResultJSON (Value.obj [
              ("device", device),
              ("site_id", Value.str rid),
              ("device_id", Value.str (request.GetString "device_id" ""))]))))) := rfl

theorem getDeviceStats_steps {σ : Type} (nc : NetworkClient σ) (request : CallToolRequest) :
    getDeviceStats nc request =
      if (request.GetString "device_id" "") = "" then
        pure (Outcome.returned (NewToolResultError "device_id is required") none)
      else
        authThen nc (resolveThen nc (request.GetString "site_id" "") (fun rid =>
          opThen (nc.invoke (Op.GetDeviceStats rid (request.GetString "device_id" ""))) "Failed to get device stats" (fun stats =>
            pure (NewToolResultJSON (Value.obj [
              ("stats", stats),
              ("site_id", Value.str rid),
              ("device_id", Value.str (request.GetString "device_id" ""))]))))) := rfl

theorem getNetworkInfo_steps {σ : Type} (nc : NetworkClient σ) (request : CallToolRequest) :
    getNetworkInfo nc request =
      authThen nc (opThen (nc.invoke Op.GetInfo) "Failed to get network info" (fun info =>
        pure (NewToolResultJSON info))) := rfl

theorem getPendingDevices_steps {σ : Type} (nc : NetworkClient σ) (request : CallToolRequest) :
    getPendingDevices nc request =
      authThen nc (opThen (nc.invoke Op.GetPendingDevices) "Failed to get pending devices" (fun devices =>
        pure (NewToolResultJSON (Value.obj [
          ("devices", Value.list devices),
          ("count", Value.int devices.length)])))) := rfl

theorem getWiFiNetworks_steps {σ : Type} (nc : NetworkClient σ) (request : CallToolRequest) :
    getWiFiNetworks nc request =
      authThen nc (resolveThen nc (request.GetString "site_id" "") (fun rid =>
        opThen (nc.invoke (Op.GetWiFiNetworks rid)) "Failed to get wifi networks" (fun networks =>
          pure (NewToolResultJSON (Value.obj [
            ("networks", Value.list networks),
            ("count", Value.int networks.length),
            ("site_id", Value.str rid)]))))) := rfl

theorem getWiFiBroadcasts_steps {σ : Type} (nc : NetworkClient σ) (request : CallToolRequest) :
    getWiFiBroadcasts nc request =
      authThen nc (resolveThen nc (request.GetString "site_id" "") (fun rid =>
        opThen (nc.invoke (Op.GetWiFiBroadcasts rid)) "Failed to get wifi broadcasts" (fun broadcasts =>
          pure (NewToolResultJSON (Value.obj [
            ("broadcasts", Value.list broadcasts),
            ("count", Value.int broadcasts.length),
            ("site_id", Value.str rid)]))))) := rfl

theorem getNetworkClients_steps {σ : Type} (nc : NetworkClient σ) (request : CallToolRequest) :
    getNetworkClients nc request =
      authThen nc (resolveThen nc (request.GetString "site_id" "") (fun rid =>
        opThen (nc.invoke (Op.GetClients rid (request.GetInt "limit" 25)
            (request.GetInt "offset" 0))) "Failed to get network clients" (fun clients =>
          pure (NewToolResultJSON (Value.obj [
            ("clients", Value.list clients),
            ("count", Value.int clients.length),
            ("site_id", Value.str rid),
            ("limit", Value.int (request.GetInt "limit" 25)),
            ("offset", Value.int (request.GetInt "offset" 0))]))))) := rfl

theorem getClientDetailed_steps {σ : Type} (nc : NetworkClient σ) (request : CallToolRequest) :
    getClientDetailed nc request =
      if (request.GetString "mac" "") = "" then
        pure (Outcome.returned (NewToolResultError "mac is required") none)
      else
        authThen nc (resolveThen nc (request.GetString "site_id" "") (fun rid =>
          opThen (nc.invoke (Op.GetClientDetailed rid (request.GetString "mac" ""))) "Failed to get client details" (fun client =>
            pure (NewToolResultJSON (Value.obj [
              ("client", client),
              ("site_id", Value.str rid),
              ("mac", Value.str (request.GetString "mac" ""))]))))) := rfl

theorem getClientStats_steps {σ : Type} (nc : NetworkClient σ) (request : CallToolRequest) :
    getClientStats nc request =
      authThen nc (resolveThen nc (request.GetString "site_id" "") (fun rid =>
        opThen (nc.invoke (Op.GetClientStats rid)) "Failed to get client stats" (fun stats =>
          pure (NewToolResultJSON (Value.obj [
            ("stats", stats),
            ("site_id", Value.str rid)]))))) := rfl

theorem getFirewallZones_steps {σ : Type} (nc : NetworkClient σ) (request : CallToolRequest) :
    getFirewallZones nc request =
      authThen nc (resolveThen nc (request.GetString "site_id" "") (fun rid =>
        opThen (nc.invoke (Op.GetFirewallZones rid)) "Failed to get firewall zones" (fun zones =>
          pure (NewToolResultJSON (Value.obj [
            ("zones", Value.list zones),
            ("count", Value.int zones.length),
            ("site_id", Value.str rid)]))))) := rfl

theorem getACLRules_steps {σ : Type} (nc : NetworkClient σ) (request : CallToolRequest) :
    getACLRules nc request =
      authThen nc (resolveThen nc (request.GetString "site_id" "") (fun rid =>
        opThen (nc.invoke (Op.GetACLRules rid)) "Failed to get acl rules" (fun rules =>
          pure (NewToolResultJSON (Value.obj [
            ("rules", Value.list rules),
            ("count", Value.int rules.length),
            ("site_id", Value.str rid)]))))) := rfl

theorem getHotspotVouchers_steps {σ : Type} (nc : NetworkClient σ) (request : CallToolRequest) :
    getHotspotVouchers nc request =
      authThen nc (resolveThen nc (request.GetString "site_id" "") (fun rid =>
        opThen (nc.invoke (Op.GetHotspotVouchers rid)) "Failed to get hotspot vouchers" (fun vouchers =>
          pure (NewToolResultJSON (Value.obj [
            ("vouchers", Value.list vouchers),
            ("count", Value.int vouchers.length),
            ("site_id", Value.str rid)]))))) := rfl

theorem getTrafficRules_steps {σ : Type} (nc : NetworkClient σ) (request : CallToolRequest) :
    getTrafficRules nc request =
      authThen nc (resolveThen nc (request.GetString "site_id" "") (fun rid =>
        opThen (nc.invoke (Op.GetTrafficRules rid)) "Failed to get traffic rules" (fun rules =>
          pure (NewToolResultJSON (Value.obj [
            ("rules", Value.list rules),
            ("count", Value.int rules.length),
            ("site_id", Value.str rid)]))))) := rfl

theorem getVPNServers_steps {σ : Type} (nc : NetworkClient σ) (request : CallToolRequest) :
    getVPNServers nc request =
      authThen nc (resolveThen nc (request.GetString "site_id" "") (fun rid =>
        opThen (nc.invoke (Op.GetVPNServers rid)) "Failed to get vpn servers" (fun servers =>
          pure (NewToolResultJSON (Value.obj [
            ("servers", Value.list servers),
            ("count", Value.int servers.length),
            ("site_id", Value.str rid)]))))) := rfl

theorem getDPICategories_steps {σ : Type} (nc : NetworkClient σ) (request : CallToolRequest) :
    getDPICategories nc request =
      authThen nc (opThen (nc.invoke Op.GetDPICategories) "Failed to get dpi categories" (fun categories =>
        pure (NewToolResultJSON (Value.obj [
          ("categories", Value.list categories),
          ("count", Value.int categories.length)])))) := rfl

theorem getDPIApps_steps {σ : Type} (nc : NetworkClient σ) (request : CallToolRequest) :
    getDPIApps nc request =
      authThen nc (opThen (nc.invoke Op.GetDPIApplications) "Failed to get dpi apps" (fun apps =>
        pure (NewToolResultJSON (Value.obj [
          ("apps", Value.list apps),
          ("count", Value.int apps.length)])))) := rfl

theorem patchWiFiNetwork_steps {σ : Type} (nc : NetworkClient σ) (request : CallToolRequest) :
    patchWiFiNetwork nc request =
      match (request.GetArguments.index "settings").asMap with
      | some settings =>
        if (request.GetString "network_id" "") = "" then
          pure (Outcome.returned (NewToolResultError "network_id is required") none)
        else
          authThen nc (resolveThen nc (request.GetString "site_id" "") (fun rid =>
            opThen (nc.invoke (Op.PatchWiFiNetwork rid (request.GetString "network_id" "") settings)) "Failed to update wifi network" (fun result =>
              match result with
              | some result =>
                pure (NewToolResultJSON (Value.obj
                  (((result.set "success" (Value.bool true)).set "network_id"
                    (Value.str (request.GetString "network_id" ""))).set "site_id" (Value.str rid))))
              | _ => pure (Outcome.panicked "assignment to entry in nil map"))))
      | _ => pure (Outcome.returned (NewToolResultError "settings must be an object") none) := rfl

theorem patchFirewallZone_steps {σ : Type} (nc : NetworkClient σ) (request : CallToolRequest) :
    patchFirewallZone nc request =
      match (request.GetArguments.index "settings").asMap with
      | some settings =>
        if (request.GetString "zone_id" "") = "" then
          pure (Outcome.returned (NewToolResultError "zone_id is required") none)
        else
          authThen nc (resolveThen nc (request.GetString "site_id" "") (fun rid =>
            opThen (nc.invoke (Op.PatchFirewallZone rid (request.GetString "zone_id" "") settings)) "Failed to update firewall zone" (fun result =>
              match result with
              | some result =>
                pure (NewToolResultJSON (Value.obj
                  (((result.set "success" (Value.bool true)).set "zone_id"
                    (Value.str (request.GetString "zone_id" ""))).set "site_id" (Value.str rid))))
              | _ => pure (Outcome.panicked "assignment to entry in nil map"))))
      | _ => pure (Outcome.returned (NewToolResultError "settings must be an object") none) := rfl

theorem patchACLRule_steps {σ : Type} (nc : NetworkClient σ) (request : CallToolRequest) :
    patchACLRule nc request =
      match (request.GetArguments.index "settings").asMap with
      | some settings =>
        if (request.GetString "rule_id" "") = "" then
          pure (Outcome.returned (NewToolResultError "rule_id is required") none)
        else
          authThen nc (resolveThen nc (request.GetString "site_id" "") (fun rid =>
            opThen (nc.invoke (Op.PatchACLRule rid (request.GetString "rule_id" "") settings)) "Failed to update acl rule" (fun result =>
              match result with
              | some result =>
                pure (NewToolResultJSON (Value.obj
                  (((result.set "success" (Value.bool true)).set "rule_id"
                    (Value.str (request.GetString "rule_id" ""))).set "site_id" (Value.str rid))))
              | _ => pure (Outcome.panicked "assignment to entry in nil map"))))
      | _ => pure (Outcome.returned (NewToolResultError "settings must be an object") none) := rfl

theorem patchHotspotVoucher_steps {σ : Type} (nc : NetworkClient σ) (request : CallToolRequest) :
    patchHotspotVoucher nc request =
      match (request.GetArguments.index "settings").asMap with
      | some settings =>
        if (request.GetString "voucher_id" "") = "" then
          pure (Outcome.returned (NewToolResultError "voucher_id is required") none)
        else
          authThen nc (resolveThen nc (request.GetString "site_id" "") (fun rid =>
            opThen (nc.invoke (Op.PatchHotspotVoucher rid (request.GetString "voucher_id" "") settings)) "Failed to update hotspot voucher" (fun result =>
              match result with
              | some result =>
                pure (NewToolResultJSON (Value.obj
                  (((result.set "success" (Value.bool true)).set "voucher_id"
                    (Value.str (request.GetString "voucher_id" ""))).set "site_id" (Value.str rid))))
              | _ => pure (Outcome.panicked "assignment to entry in nil map"))))
      | _ => pure (Outcome.returned (NewToolResultError "settings must be an object") none) := rfl

theorem patchTrafficRule_steps {σ : Type} (nc : NetworkClient σ) (request : CallToolRequest) :
    patchTrafficRule nc request =
      match (request.GetArguments.index "settings").asMap with
      | some settings =>
        if (request.GetString "rule_id" "") = "" then
          pure (Outcome.returned (NewToolResultError "rule_id is required") none)
        else
          authThen nc (resolveThen nc (request.GetString "site_id" "") (fun rid =>
            opThen (nc.invoke (Op.PatchTrafficRule rid (request.GetString "rule_id" "") settings)) "Failed to update traffic rule" (fun result =>
              match result with
              | some result =>
                pure (NewToolResultJSON (Value.obj
                  (((result.set "success" (Value.bool true)).set "rule_id"
                    (Value.str (request.GetString "rule_id" ""))).set "site_id" (Value.str rid))))
              | _ => pure (Outcome.panicked "assignment to entry in nil map"))))
      | _ => pure (Outcome.returned (NewToolResultError "settings must be an object") none) := rfl

theorem createWiFiNetwork_steps {σ : Type} (nc : NetworkClient σ) (request : CallToolRequest) :
    createWiFiNetwork nc request =
      match (request.GetArguments.index "config").asMap with
      | some config =>
        authThen nc (resolveThen nc (request.GetString "site_id" "") (fun rid =>
          opThen (nc.invoke (Op.CreateWiFiNetwork rid config)) "Failed to create wifi network" (fun result =>
            pure (NewToolResultJSON (Value.obj [
              ("success", Value.bool true),
              ("network", result),
              ("site_id", Value.str rid)])))))
      | _ => pure (Outcome.returned (NewToolResultError "config must be an object") none) := rfl

theorem createFirewallZone_steps {σ : Type} (nc : NetworkClient σ) (request : CallToolRequest) :
    createFirewallZone nc request =
      match (request.GetArguments.index "config").asMap with
      | some config =>
        authThen nc (resolveThen nc (request.GetString "site_id" "") (fun rid =>
          opThen (nc.invoke (Op.CreateFirewallZone rid config)) "Failed to create firewall zone" (fun result =>
            pure (NewToolResultJSON (Value.obj [
              ("success", Value.bool true),
              ("zone", result),
              ("site_id", Value.str rid)])))))
      | _ => pure (Outcome.returned (NewToolResultError "config must be an object") none) := rfl

theorem createACLRule_steps {σ : Type} (nc : NetworkClient σ) (request : CallToolRequest) :
    createACLRule nc request =
      match (request.GetArguments.index "config").asMap with
      | some config =>
        authThen nc (resolveThen nc (request.GetString "site_id" "") (fun rid =>
          opThen (nc.invoke (Op.CreateACLRule rid config)) "Failed to create acl rule" (fun result =>
            pure (NewToolResultJSON (Value.obj [
              ("success", Value.bool true),
              ("rule", result),
              ("site_id", Value.str rid)])))))
      | _ => pure (Outcome.returned (NewToolResultError "config must be an object") none) := rfl

theorem createHotspotVoucher_steps {σ : Type} (nc : NetworkClient σ) (request : CallToolRequest) :
    createHotspotVoucher nc request =
      match (request.GetArguments.index "config").asMap with
      | some config =>
        authThen nc (resolveThen nc (request.GetString "site_id" "") (fun rid =>
          opThen (nc.invoke (Op.CreateHotspotVoucher rid config)) "Failed to create hotspot voucher" (fun result =>
            pure (NewToolResultJSON (Value.obj [
              ("success", Value.bool true),
              ("voucher", result),
              ("site_id", Value.str rid)])))))
      | _ => pure (Outcome.returned (NewToolResultError "config must be an object") none) := rfl

theorem createTrafficRule_steps {σ : Type} (nc : NetworkClient σ) (request : CallToolRequest) :
    createTrafficRule nc request =
      match (request.GetArguments.index "config").asMap with
      | some config =>
        authThen nc (resolveThen nc (request.GetString "site_id" "") (fun rid =>
          opThen (nc.invoke (Op.CreateTrafficRule rid config)) "Failed to create traffic rule" (fun result =>
            pure (NewToolResultJSON (Value.obj [
              ("success", Value.bool true),
              ("rule", result),
              ("site_id", Value.str rid)])))))
      | _ => pure (Outcome.returned (NewToolResultError "config must be an object") none) := rfl

theorem createVPNTunnel_steps {σ : Type} (nc : NetworkClient σ) (request : CallToolRequest) :
    createVPNTunnel nc request =
      match (request.GetArguments.index "config").asMap with
      | some config =>
        authThen nc (resolveThen nc (request.GetString "site_id" "") (fun rid =>
          opThen (nc.invoke (Op.CreateVPNTunnel rid config)) "Failed to create vpn tunnel" (fun result =>
            pure (NewToolResultJSON (Value.obj [
              ("success", Value.bool true),
              ("tunnel", result),
              ("site_id", Value.str rid)])))))
      | _ => pure (Outcome.returned (NewToolResultError "config must be an object") none) := rfl

theorem getWiFiNetworkDetailed_steps {σ : Type} (nc : NetworkClient σ) (request : CallToolRequest) :
    getWiFiNetworkDetailed nc request =
      authThen nc (
        if (request.GetString "network_id" "") = "" then
          pure (Outcome.returned
            (NewToolResultErrorFromErr "Missing required parameter: network_id" none) none)
        else
          resolveThen nc (request.GetString "site_id" "") (fun rid =>
            opThen (nc.invoke (Op.GetWiFiNetworkDetailed rid (request.GetString "network_id" ""))) "Failed to get network details" (fun network =>
              pure (NewToolResultJSON network)))) := rfl

theorem getSiteHealth_steps {σ : Type} (nc : NetworkClient σ) (request : CallToolRequest) :
    getSiteHealth nc request =
      authThen nc (resolveThen nc (request.GetString "site_id" "") (fun rid =>
        opThen (nc.invoke (Op.GetHealth rid)) "Failed to get health" (fun health =>
          pure (NewToolResultJSON (Value.obj [
            ("health", health),
            ("site_id", Value.str rid)]))))) := rfl

theorem checkNetworkEndpointHealth_steps {σ : Type} (nc : NetworkClient σ) (request : CallToolRequest) :
    checkNetworkEndpointHealth nc request =
      authThen nc (opThen (nc.invoke Op.CheckEndpointHealth)
        "Failed to check endpoint health" (fun health =>
        pure (NewToolResultJSON (Value.obj [
          ("endpoint", Value.str "Unifi Network"),
          ("health", health)])))) := rfl

theorem checkProtectEndpointHealth_steps {σ : Type} (nc : NetworkClient σ) (request : CallToolRequest) :
    checkProtectEndpointHealth nc request =
      authThen nc (pure (NewToolResultJSON (Value.obj [
        ("endpoint", Value.str "Unifi Protect"),
        ("message", Value.str "Protect endpoint health check is not available in network-mcp. Use unifi-mcp for combined access."),
        ("status", Value.str "skipped")]))) := rfl

theorem getFirewallZoneDetailed_steps {σ : Type} (nc : NetworkClient σ) (request : CallToolRequest) :
    getFirewallZoneDetailed nc request =
      authThen nc (
        if (request.GetString "firewall_zone_id" "") = "" then
          pure (Outcome.returned
            (NewToolResultErrorFromErr "Missing required parameter: firewall_zone_id" none) none)
        else
          resolveThen nc (request.GetString "site_id" "") (fun rid =>
            opThen (nc.invoke (Op.GetFirewallZoneDetailed rid (request.GetString "firewall_zone_id" ""))) "Failed to get firewall zone details" (fun zone =>
              pure (NewToolResultJSON zone)))) := rfl

theorem getACLRuleDetailed_steps {σ : Type} (nc : NetworkClient σ) (request : CallToolRequest) :
    getACLRuleDetailed nc request =
      authThen nc (
        if (request.GetString "acl_rule_id" "") = "" then
          pure (Outcome.returned
            (NewToolResultErrorFromErr "Missing required parameter: acl_rule_id" none) none)
        else
          resolveThen nc (request.GetString "site_id" "") (fun rid =>
            opThen (nc.invoke (Op.GetACLRuleDetailed rid (request.GetString "acl_rule_id" ""))) "Failed to get ACL rule details" (fun rule =>
              pure (NewToolResultJSON rule)))) := rfl

theorem getHotspotVoucherDetailed_steps {σ : Type} (nc : NetworkClient σ) (request : CallToolRequest) :
    getHotspotVoucherDetailed nc request =
      authThen nc (
        if (request.GetString "voucher_id" "") = "" then
          pure (Outcome.returned
            (NewToolResultErrorFromErr "Missing required parameter: voucher_id" none) none)
        else
          resolveThen nc (request.GetString "site_id" "") (fun rid =>
            opThen (nc.invoke (Op.GetHotspotVoucherDetailed rid (request.GetString "voucher_id" ""))) "Failed to get voucher details" (fun voucher =>
              pure (NewToolResultJSON voucher)))) := rfl

theorem getTrafficRuleDetailed_steps {σ : Type} (nc : NetworkClient σ) (request : CallToolRequest) :
    getTrafficRuleDetailed nc request =
      authThen nc (
        if (request.GetString "traffic_matching_list_id" "") = "" then
          pure (Outcome.returned
            (NewToolResultErrorFromErr "Missing required parameter: traffic_matching_list_id" none) none)
        else
          resolveThen nc (request.GetString "site_id" "") (fun rid =>
            opThen (nc.invoke (Op.GetTrafficRuleDetailed rid (request.GetString "traffic_matching_list_id" ""))) "Failed to get traffic rule details" (fun rule =>
              pure (NewToolResultJSON rule)))) := rfl

theorem getDeviceTags_steps {σ : Type} (nc : NetworkClient σ) (request : CallToolRequest) :
    getDeviceTags nc request =
      authThen nc (resolveThen nc (request.GetString "site_id" "") (fun rid =>
        opThen (nc.invoke (Op.GetDeviceTags rid)) "Failed to get device tags" (fun tags =>
          pure (NewToolResultJSON (Value.obj [
            ("tags", Value.list tags),
            ("count", Value.int tags.length),
            ("site_id", Value.str rid)]))))) := rfl

theorem getWANConfig_steps {σ : Type} (nc : NetworkClient σ) (request : CallToolRequest) :
    getWANConfig nc request =
      authThen nc (resolveThen nc (request.GetString "site_id" "") (fun rid =>
        opThen (nc.invoke (Op.GetWANConfig rid)) "Failed to get WAN config" (fun wanConfig =>
          pure (NewToolResultJSON (Value.obj [
            ("wans", Value.list wanConfig),
            ("count", Value.int wanConfig.length),
            ("site_id", Value.str rid)]))))) := rfl

theorem getRADIUSProfiles_steps {σ : Type} (nc : NetworkClient σ) (request : CallToolRequest) :
    getRADIUSProfiles nc request =
      authThen nc (resolveThen nc (request.GetString "site_id" "") (fun rid =>
        opThen (nc.invoke (Op.GetRADIUSProfiles rid)) "Failed to get RADIUS profiles" (fun profiles =>
          pure (NewToolResultJSON (Value.obj [
            ("profiles", Value.list profiles),
            ("count", Value.int profiles.length),
            ("site_id", Value.str rid)]))))) := rfl

theorem getDPIApplications_steps {σ : Type} (nc : NetworkClient σ) (request : CallToolRequest) :
    getDPIApplications nc request =
      authThen nc (opThen (nc.invoke Op.GetDPIApplications) "Failed to get DPI applications" (fun applications =>
        pure (NewToolResultJSON (Value.obj [
          ("applications", Value.list applications),
          ("count", Value.int applications.length)])))) := rfl

/-! ## Running the steps -/

theorem authThen_failed {σ : Type} (nc : NetworkClient σ) (k : Exec σ Outcome) (w : World σ)
    (e : GoError) (h : (nc.call Op.Authenticate w.state).1 = some e) :
    authThen nc k w =
      (Outcome.returned (NewToolResultErrorFromErr "Authentication failed" (some e)) none,
        afterAuthenticate nc w) := by
  simp only [authThen, bind, pure, NetworkClient.invoke, afterAuthenticate, h]

theorem authThen_passed {σ : Type} (nc : NetworkClient σ) (k : Exec σ Outcome) (w : World σ)
    (h : (nc.call Op.Authenticate w.state).1 = none) :
    authThen nc k w = k (afterAuthenticate nc w) := by
  simp only [authThen, bind, pure, NetworkClient.invoke, afterAuthenticate, h]

theorem resolveThen_failed {σ : Type} (nc : NetworkClient σ) (tok : String)
    (k : String → Exec σ Outcome) (w : World σ) (rid : String) (e : GoError)
    (h : (resolveSiteID nc tok w).1 = (rid, some e)) :
    resolveThen nc tok k w =
      (Outcome.returned (NewToolResultErrorFromErr "Failed to resolve site ID" (some e)) none,
        (resolveSiteID nc tok w).2) := by
  simp only [resolveThen, bind, pure, h]

theorem resolveThen_passed {σ : Type} (nc : NetworkClient σ) (tok : String)
    (k : String → Exec σ Outcome) (w : World σ) (rid : String)
    (h : (resolveSiteID nc tok w).1 = (rid, none)) :
    resolveThen nc tok k w = k rid (resolveSiteID nc tok w).2 := by
  simp only [resolveThen, bind, pure, h]

theorem opThen_failed {σ α : Type} (run : Exec σ (α × Option GoError)) (failText : String)
    (ok : α → Exec σ Outcome) (w : World σ) (v : α) (e : GoError)
    (h : (run w).1 = (v, some e)) :
    opThen run failText ok w =
      (Outcome.returned (NewToolResultErrorFromErr failText (some e)) none, (run w).2) := by
  simp only [opThen, bind, pure, h]

theorem opThen_passed {σ α : Type} (run : Exec σ (α × Option GoError)) (failText : String)
    (ok : α → Exec σ Outcome) (w : World σ) (v : α)
    (h : (run w).1 = (v, none)) :
    opThen run failText ok w = ok v (run w).2 := by
  simp only [opThen, bind, pure, h]

theorem afterAuthenticate_calls {σ : Type} (nc : NetworkClient σ) (w : World σ) :
    (afterAuthenticate nc w).calls = w.calls ++ [Op.Authenticate] := rfl

theorem resolveSiteID_calls {σ : Type} (nc : NetworkClient σ) (tok : String) (w : World σ) :
    (resolveSiteID nc tok w).2.calls = w.calls ++ [Op.GetSites] := by
  rw [resolveSiteID_world]

theorem toolErrorFromErr_ne_json (text : String) (err : Option GoError) (data : Value)
    (oe : Option GoError) :
    Outcome.returned (NewToolResultErrorFromErr text err) none
      ≠ Outcome.returned (CallToolResult.toolJSON data) oe := by
  cases err <;> simp [NewToolResultErrorFromErr]

theorem SiteScopedRun.sound {σ : Type} {nc : NetworkClient σ} {tok : String}
    {Q : String → Outcome → Prop} {h : Exec σ Outcome} (hs : SiteScopedRun nc tok Q h)
    (w : World σ) :
    (∀ op ∈ (h w).2.calls.drop w.calls.length, ∀ s, op.siteID? = some s →
      s = (resolveSiteID nc tok (afterAuthenticate nc w)).1.1) ∧
    (∀ data, (h w).1 = Outcome.returned (CallToolResult.toolJSON data) none →
      (resolveSiteID nc tok (afterAuthenticate nc w)).1.2 = none ∧
      Q (resolveSiteID nc tok (afterAuthenticate nc w)).1.1 (h w).1 ∧
      ∃ op, (h w).2.calls = w.calls ++ [Op.Authenticate, Op.GetSites, op] ∧
        op.siteID? = some (resolveSiteID nc tok (afterAuthenticate nc w)).1.1) := by
  cases hs with
  | rejected text =>
    refine ⟨?_, ?_⟩
    · intro op hop
      simp [pure] at hop
    · intro data hd
      simp [pure] at hd
  | rejectedAfterAuth text =>
    cases ha : (nc.call Op.Authenticate w.state).1 with
    | some e =>
      rw [authThen_failed nc _ w e ha]
      refine ⟨?_, ?_⟩
      · intro op hop s hs
        simp [afterAuthenticate_calls] at hop
        subst hop
        simp [Op.siteID?] at hs
      · intro data hd
        exact absurd hd (toolErrorFromErr_ne_json _ _ _ _)
    | none =>
      rw [authThen_passed nc _ w ha]
      refine ⟨?_, ?_⟩
      · intro op hop s hs
        simp [pure, afterAuthenticate_calls] at hop
        subst hop
        simp [Op.siteID?] at hs
      · intro data hd
        simp [pure] at hd
  | forwarded run opOf failText ok hrun hop hok henv =>
    cases ha : (nc.call Op.Authenticate w.state).1 with
    | some e =>
      rw [authThen_failed nc _ w e ha]
      refine ⟨?_, ?_⟩
      · intro op hop s hs
        simp [afterAuthenticate_calls] at hop
        subst hop
        simp [Op.siteID?] at hs
      · intro data hd
        exact absurd hd (toolErrorFromErr_ne_json _ _ _ _)
    | none =>
      rw [authThen_passed nc _ w ha]
      rcases hr : (resolveSiteID nc tok (afterAuthenticate nc w)).1 with ⟨rid, _ | e⟩
      · rw [resolveThen_passed nc tok _ _ rid hr]
        have hc2 : (resolveSiteID nc tok (afterAuthenticate nc w)).2.calls
            = w.calls ++ [Op.Authenticate, Op.GetSites] := by
          rw [resolveSiteID_calls, afterAuthenticate_calls]
          simp
        have hc3 := hrun rid (resolveSiteID nc tok (afterAuthenticate nc w)).2
        rw [hc2] at hc3
        rcases ho : (run rid (resolveSiteID nc tok (afterAuthenticate nc w)).2).1
          with ⟨v, _ | e⟩
        · rw [opThen_passed _ _ _ _ v ho, hok, hc3]
          refine ⟨?_, ?_⟩
          · intro op hop' s hs
            simp at hop'
            rcases hop' with rfl | rfl | rfl
            · simp [Op.siteID?] at hs
            · simp [Op.siteID?] at hs
            · rw [hop] at hs
              exact (Option.some.inj hs).symm
          · intro data hd
            exact ⟨rfl, henv rid v _, opOf rid, by simp, hop rid⟩
        · rw [opThen_failed _ _ _ _ v e ho, hc3]
          refine ⟨?_, ?_⟩
          · intro op hop' s hs
            simp at hop'
            rcases hop' with rfl | rfl | rfl
            · simp [Op.siteID?] at hs
            · simp [Op.siteID?] at hs
            · rw [hop] at hs
              exact (Option.some.inj hs).symm
          · intro data hd
            exact absurd hd (toolErrorFromErr_ne_json _ _ _ _)
      · rw [resolveThen_failed nc tok _ _ rid e hr]
        refine ⟨?_, ?_⟩
        · intro op hop s hs
          simp [resolveSiteID_calls, afterAuthenticate_calls] at hop
          rcases hop with rfl | rfl
          · simp [Op.siteID?] at hs
          · simp [Op.siteID?] at hs
        · intro data hd
          exact absurd hd (toolErrorFromErr_ne_json _ _ _ _)

/-! ## Site-scoped tools of the registry -/

theorem registerTools_siteScoped {σ : Type} (nc : NetworkClient σ) (tool : ServerTool σ)
    (htool : tool ∈ registerTools nc)
    (hsite : "site_id" ∈ tool.Properties.map (fun p => p.1)) (request : CallToolRequest) :
    SiteScopedRun nc (request.GetString "site_id" "") (carriesSiteID tool.Name)
      (tool.Handler request) := by
  simp only [registerTools, List.mem_cons, List.mem_singleton, List.not_mem_nil, or_false]
    at htool
  rcases htool with rfl | rfl | rfl | rfl | rfl | rfl | rfl | rfl | rfl | rfl | rfl | rfl | rfl | rfl | rfl | rfl | rfl | rfl | rfl | rfl | rfl | rfl | rfl | rfl | rfl | rfl | rfl | rfl | rfl | rfl | rfl | rfl | rfl | rfl | rfl | rfl | rfl | rfl | rfl | rfl | rfl
  · -- get_network_sites
    simp at hsite
  · -- get_network_devices
    show SiteScopedRun nc _ _ (getNetworkDevices nc request)
    rw [getNetworkDevices_steps]
    refine SiteScopedRun.forwarded _ _ _ _ (fun _ _ => rfl) (fun _ => rfl) (fun _ _ _ => rfl) ?_
    intro rid v w data hd _
    simp only [pure, NewToolResultJSON, Outcome.returned.injEq, CallToolResult.toolJSON.injEq,
      and_true] at hd
    subst hd
    exact ⟨_, rfl, by simp [List.lookup]⟩
  · -- get_device_detailed
    show SiteScopedRun nc _ _ (getDeviceDetailed nc request)
    rw [getDeviceDetailed_steps]
    split
    · exact SiteScopedRun.rejected _
    · refine SiteScopedRun.forwarded _ _ _ _ (fun _ _ => rfl) (fun _ => rfl) (fun _ _ _ => rfl) ?_
      intro rid v w data hd _
      simp only [pure, NewToolResultJSON, Outcome.returned.injEq, CallToolResult.toolJSON.injEq,
        and_true] at hd
      subst hd
      exact ⟨_, rfl, by simp [List.lookup]⟩
  · -- get_device_stats
    show SiteScopedRun nc _ _ (getDeviceStats nc request)
    rw [getDeviceStats_steps]
    split
    · exact SiteScopedRun.rejected _
    · refine SiteScopedRun.forwarded _ _ _ _ (fun _ _ => rfl) (fun _ => rfl) (fun _ _ _ => rfl) ?_
      intro rid v w data hd _
      simp only [pure, NewToolResultJSON, Outcome.returned.injEq, CallToolResult.toolJSON.injEq,
        and_true] at hd
      subst hd
      exact ⟨_, rfl, by simp [List.lookup]⟩
  · -- get_network_info
    simp at hsite
  · -- get_pending_devices
    simp at hsite
  · -- get_wifi_networks
    show SiteScopedRun nc _ _ (getWiFiNetworks nc request)
    rw [getWiFiNetworks_steps]
    refine SiteScopedRun.forwarded _ _ _ _ (fun _ _ => rfl) (fun _ => rfl) (fun _ _ _ => rfl) ?_
    intro rid v w data hd _
    simp only [pure, NewToolResultJSON, Outcome.returned.injEq, CallToolResult.toolJSON.injEq,
      and_true] at hd
    subst hd
    exact ⟨_, rfl, by simp [List.lookup]⟩
  · -- get_wifi_network_detailed
    show SiteScopedRun nc _ _ (getWiFiNetworkDetailed nc request)
    rw [getWiFiNetworkDetailed_steps]
    split
    · exact SiteScopedRun.rejectedAfterAuth _
    · refine SiteScopedRun.forwarded _ _ _ _ (fun _ _ => rfl) (fun _ => rfl) (fun _ _ _ => rfl) ?_
      intro rid v w data _ hn
      exact absurd (by simp [passthroughTools]) hn
  · -- get_wifi_broadcasts
    show SiteScopedRun nc _ _ (getWiFiBroadcasts nc request)
    rw [getWiFiBroadcasts_steps]
    refine SiteScopedRun.forwarded _ _ _ _ (fun _ _ => rfl) (fun _ => rfl) (fun _ _ _ => rfl) ?_
    intro rid v w data hd _
    simp only [pure, NewToolResultJSON, Outcome.returned.injEq, CallToolResult.toolJSON.injEq,
      and_true] at hd
    subst hd
    exact ⟨_, rfl, by simp [List.lookup]⟩
  · -- get_network_clients
    show SiteScopedRun nc _ _ (getNetworkClients nc request)
    rw [getNetworkClients_steps]
    refine SiteScopedRun.forwarded _ _ _ _ (fun _ _ => rfl) (fun _ => rfl) (fun _ _ _ => rfl) ?_
    intro rid v w data hd _
    simp only [pure, NewToolResultJSON, Outcome.returned.injEq, CallToolResult.toolJSON.injEq,
      and_true] at hd
    subst hd
    exact ⟨_, rfl, by simp [List.lookup]⟩
  · -- get_client_detailed
    show SiteScopedRun nc _ _ (getClientDetailed nc request)
    rw [getClientDetailed_steps]
    split
    · exact SiteScopedRun.rejected _
    · refine SiteScopedRun.forwarded _ _ _ _ (fun _ _ => rfl) (fun _ => rfl) (fun _ _ _ => rfl) ?_
      intro rid v w data hd _
      simp only [pure, NewToolResultJSON, Outcome.returned.injEq, CallToolResult.toolJSON.injEq,
        and_true] at hd
      subst hd
      exact ⟨_, rfl, by simp [List.lookup]⟩
  · -- get_client_stats
    show SiteScopedRun nc _ _ (getClientStats nc request)
    rw [getClientStats_steps]
    refine SiteScopedRun.forwarded _ _ _ _ (fun _ _ => rfl) (fun _ => rfl) (fun _ _ _ => rfl) ?_
    intro rid v w data hd _
    simp only [pure, NewToolResultJSON, Outcome.returned.injEq, CallToolResult.toolJSON.injEq,
      and_true] at hd
    subst hd
    exact ⟨_, rfl, by simp [List.lookup]⟩
  · -- get_site_health
    show SiteScopedRun nc _ _ (getSiteHealth nc request)
    rw [getSiteHealth_steps]
    refine SiteScopedRun.forwarded _ _ _ _ (fun _ _ => rfl) (fun _ => rfl) (fun _ _ _ => rfl) ?_
    intro rid v w data hd _
    simp only [pure, NewToolResultJSON, Outcome.returned.injEq, CallToolResult.toolJSON.injEq,
      and_true] at hd
    subst hd
    exact ⟨_, rfl, by simp [List.lookup]⟩
  · -- check_network_endpoint_health
    simp at hsite
  · -- check_protect_endpoint_health
    simp at hsite
  · -- get_firewall_zones
    show SiteScopedRun nc _ _ (getFirewallZones nc request)
    rw [getFirewallZones_steps]
    refine SiteScopedRun.forwarded _ _ _ _ (fun _ _ => rfl) (fun _ => rfl) (fun _ _ _ => rfl) ?_
    intro rid v w data hd _
    simp only [pure, NewToolResultJSON, Outcome.returned.injEq, CallToolResult.toolJSON.injEq,
      and_true] at hd
    subst hd
    exact ⟨_, rfl, by simp [List.lookup]⟩
  · -- get_firewall_zone_detailed
    show SiteScopedRun nc _ _ (getFirewallZoneDetailed nc request)
    rw [getFirewallZoneDetailed_steps]
    split
    · exact SiteScopedRun.rejectedAfterAuth _
    · refine SiteScopedRun.forwarded _ _ _ _ (fun _ _ => rfl) (fun _ => rfl) (fun _ _ _ => rfl) ?_
      intro rid v w data _ hn
      exact absurd (by simp [passthroughTools]) hn
  · -- get_acl_rules
    show SiteScopedRun nc _ _ (getACLRules nc request)
    rw [getACLRules_steps]
    refine SiteScopedRun.forwarded _ _ _ _ (fun _ _ => rfl) (fun _ => rfl) (fun _ _ _ => rfl) ?_
    intro rid v w data hd _
    simp only [pure, NewToolResultJSON, Outcome.returned.injEq, CallToolResult.toolJSON.injEq,
      and_true] at hd
    subst hd
    exact ⟨_, rfl, by simp [List.lookup]⟩
  · -- get_acl_rule_detailed
    show SiteScopedRun nc _ _ (getACLRuleDetailed nc request)
    rw [getACLRuleDetailed_steps]
    split
    · exact SiteScopedRun.rejectedAfterAuth _
    · refine SiteScopedRun.forwarded _ _ _ _ (fun _ _ => rfl) (fun _ => rfl) (fun _ _ _ => rfl) ?_
      intro rid v w data _ hn
      exact absurd (by simp [passthroughTools]) hn
  · -- get_hotspot_vouchers
    show SiteScopedRun nc _ _ (getHotspotVouchers nc request)
    rw [getHotspotVouchers_steps]
    refine SiteScopedRun.forwarded _ _ _ _ (fun _ _ => rfl) (fun _ => rfl) (fun _ _ _ => rfl) ?_
    intro rid v w data hd _
    simp only [pure, NewToolResultJSON, Outcome.returned.injEq, CallToolResult.toolJSON.injEq,
      and_true] at hd
    subst hd
    exact ⟨_, rfl, by simp [List.lookup]⟩
  · -- get_hotspot_voucher_detailed
    show SiteScopedRun nc _ _ (getHotspotVoucherDetailed nc request)
    rw [getHotspotVoucherDetailed_steps]
    split
    · exact SiteScopedRun.rejectedAfterAuth _
    · refine SiteScopedRun.forwarded _ _ _ _ (fun _ _ => rfl) (fun _ => rfl) (fun _ _ _ => rfl) ?_
      intro rid v w data _ hn
      exact absurd (by simp [passthroughTools]) hn
  · -- get_traffic_rules
    show SiteScopedRun nc _ _ (getTrafficRules nc request)
    rw [getTrafficRules_steps]
    refine SiteScopedRun.forwarded _ _ _ _ (fun _ _ => rfl) (fun _ => rfl) (fun _ _ _ => rfl) ?_
    intro rid v w data hd _
    simp only [pure, NewToolResultJSON, Outcome.returned.injEq, CallToolResult.toolJSON.injEq,
      and_true] at hd
    subst hd
    exact ⟨_, rfl, by simp [List.lookup]⟩
  · -- get_traffic_rule_detailed
    show SiteScopedRun nc _ _ (getTrafficRuleDetailed nc request)
    rw [getTrafficRuleDetailed_steps]
    split
    · exact SiteScopedRun.rejectedAfterAuth _
    · refine SiteScopedRun.forwarded _ _ _ _ (fun _ _ => rfl) (fun _ => rfl) (fun _ _ _ => rfl) ?_
      intro rid v w data _ hn
      exact absurd (by simp [passthroughTools]) hn
  · -- get_vpn_servers
    show SiteScopedRun nc _ _ (getVPNServers nc request)
    rw [getVPNServers_steps]
    refine SiteScopedRun.forwarded _ _ _ _ (fun _ _ => rfl) (fun _ => rfl) (fun _ _ _ => rfl) ?_
    intro rid v w data hd _
    simp only [pure, NewToolResultJSON, Outcome.returned.injEq, CallToolResult.toolJSON.injEq,
      and_true] at hd
    subst hd
    exact ⟨_, rfl, by simp [List.lookup]⟩
  · -- get_device_tags
    show SiteScopedRun nc _ _ (getDeviceTags nc request)
    rw [getDeviceTags_steps]
    refine SiteScopedRun.forwarded _ _ _ _ (fun _ _ => rfl) (fun _ => rfl) (fun _ _ _ => rfl) ?_
    intro rid v w data hd _
    simp only [pure, NewToolResultJSON, Outcome.returned.injEq, CallToolResult.toolJSON.injEq,
      and_true] at hd
    subst hd
    exact ⟨_, rfl, by simp [List.lookup]⟩
  · -- get_wan_config
    show SiteScopedRun nc _ _ (getWANConfig nc request)
    rw [getWANConfig_steps]
    refine SiteScopedRun.forwarded _ _ _ _ (fun _ _ => rfl) (fun _ => rfl) (fun _ _ _ => rfl) ?_
    intro rid v w data hd _
    simp only [pure, NewToolResultJSON, Outcome.returned.injEq, CallToolResult.toolJSON.injEq,
      and_true] at hd
    subst hd
    exact ⟨_, rfl, by simp [List.lookup]⟩
  · -- get_radius_profiles
    show SiteScopedRun nc _ _ (getRADIUSProfiles nc request)
    rw [getRADIUSProfiles_steps]
    refine SiteScopedRun.forwarded _ _ _ _ (fun _ _ => rfl) (fun _ => rfl) (fun _ _ _ => rfl) ?_
    intro rid v w data hd _
    simp only [pure, NewToolResultJSON, Outcome.returned.injEq, CallToolResult.toolJSON.injEq,
      and_true] at hd
    subst hd
    exact ⟨_, rfl, by simp [List.lookup]⟩
  · -- get_dpi_categories
    simp at hsite
  · -- get_dpi_apps
    simp at hsite
  · -- get_dpi_applications
    simp at hsite
  · -- patch_wifi_network
    show SiteScopedRun nc _ _ (patchWiFiNetwork nc request)
    rw [patchWiFiNetwork_steps]
    split
    · split
      · exact SiteScopedRun.rejected _
      · refine SiteScopedRun.forwarded _ _ _ _ (fun _ _ => rfl) (fun _ => rfl) ?_ ?_
        · intro rid v w
          cases v <;> rfl
        · intro rid v w data hd _
          cases v with
          | none => simp [pure] at hd
          | some m =>
            simp only [pure, NewToolResultJSON, Outcome.returned.injEq,
              CallToolResult.toolJSON.injEq, and_true] at hd
            subst hd
            exact ⟨_, rfl, by simp [GoMap.set, List.lookup]⟩
    · exact SiteScopedRun.rejected _
  · -- patch_firewall_zone
    show SiteScopedRun nc _ _ (patchFirewallZone nc request)
    rw [patchFirewallZone_steps]
    split
    · split
      · exact SiteScopedRun.rejected _
      · refine SiteScopedRun.forwarded _ _ _ _ (fun _ _ => rfl) (fun _ => rfl) ?_ ?_
        · intro rid v w
          cases v <;> rfl
        · intro rid v w data hd _
          cases v with
          | none => simp [pure] at hd
          | some m =>
            simp only [pure, NewToolResultJSON, Outcome.returned.injEq,
              CallToolResult.toolJSON.injEq, and_true] at hd
            subst hd
            exact ⟨_, rfl, by simp [GoMap.set, List.lookup]⟩
    · exact SiteScopedRun.rejected _
  · -- patch_acl_rule
    show SiteScopedRun nc _ _ (patchACLRule nc request)
    rw [patchACLRule_steps]
    split
    · split
      · exact SiteScopedRun.rejected _
      · refine SiteScopedRun.forwarded _ _ _ _ (fun _ _ => rfl) (fun _ => rfl) ?_ ?_
        · intro rid v w
          cases v <;> rfl
        · intro rid v w data hd _
          cases v with
          | none => simp [pure] at hd
          | some m =>
            simp only [pure, NewToolResultJSON, Outcome.returned.injEq,
              CallToolResult.toolJSON.injEq, and_true] at hd
            subst hd
            exact ⟨_, rfl, by simp [GoMap.set, List.lookup]⟩
    · exact SiteScopedRun.rejected _
  · -- patch_hotspot_voucher
    show SiteScopedRun nc _ _ (patchHotspotVoucher nc request)
    rw [patchHotspotVoucher_steps]
    split
    · split
      · exact SiteScopedRun.rejected _
      · refine SiteScopedRun.forwarded _ _ _ _ (fun _ _ => rfl) (fun _ => rfl) ?_ ?_
        · intro rid v w
          cases v <;> rfl
        · intro rid v w data hd _
          cases v with
          | none => simp [pure] at hd
          | some m =>
            simp only [pure, NewToolResultJSON, Outcome.returned.injEq,
              CallToolResult.toolJSON.injEq, and_true] at hd
            subst hd
            exact ⟨_, rfl, by simp [GoMap.set, List.lookup]⟩
    · exact SiteScopedRun.rejected _
  · -- patch_traffic_rule
    show SiteScopedRun nc _ _ (patchTrafficRule nc request)
    rw [patchTrafficRule_steps]
    split
    · split
      · exact SiteScopedRun.rejected _
      · refine SiteScopedRun.forwarded _ _ _ _ (fun _ _ => rfl) (fun _ => rfl) ?_ ?_
        · intro rid v w
          cases v <;> rfl
        · intro rid v w data hd _
          cases v with
          | none => simp [pure] at hd
          | some m =>
            simp only [pure, NewToolResultJSON, Outcome.returned.injEq,
              CallToolResult.toolJSON.injEq, and_true] at hd
            subst hd
            exact ⟨_, rfl, by simp [GoMap.set, List.lookup]⟩
    · exact SiteScopedRun.rejected _
  · -- create_wifi_network
    show SiteScopedRun nc _ _ (createWiFiNetwork nc request)
    rw [createWiFiNetwork_steps]
    split
    · refine SiteScopedRun.forwarded _ _ _ _ (fun _ _ => rfl) (fun _ => rfl) (fun _ _ _ => rfl) ?_
      intro rid v w data hd _
      simp only [pure, NewToolResultJSON, Outcome.returned.injEq, CallToolResult.toolJSON.injEq,
        and_true] at hd
      subst hd
      exact ⟨_, rfl, by simp [List.lookup]⟩
    · exact SiteScopedRun.rejected _
  · -- create_firewall_zone
    show SiteScopedRun nc _ _ (createFirewallZone nc request)
    rw [createFirewallZone_steps]
    split
    · refine SiteScopedRun.forwarded _ _ _ _ (fun _ _ => rfl) (fun _ => rfl) (fun _ _ _ => rfl) ?_
      intro rid v w data hd _
      simp only [pure, NewToolResultJSON, Outcome.returned.injEq, CallToolResult.toolJSON.injEq,
        and_true] at hd
      subst hd
      exact ⟨_, rfl, by simp [List.lookup]⟩
    · exact SiteScopedRun.rejected _
  · -- create_acl_rule
    show SiteScopedRun nc _ _ (createACLRule nc request)
    rw [createACLRule_steps]
    split
    · refine SiteScopedRun.forwarded _ _ _ _ (fun _ _ => rfl) (fun _ => rfl) (fun _ _ _ => rfl) ?_
      intro rid v w data hd _
      simp only [pure, NewToolResultJSON, Outcome.returned.injEq, CallToolResult.toolJSON.injEq,
        and_true] at hd
      subst hd
      exact ⟨_, rfl, by simp [List.lookup]⟩
    · exact SiteScopedRun.rejected _
  · -- create_hotspot_voucher
    show SiteScopedRun nc _ _ (createHotspotVoucher nc request)
    rw [createHotspotVoucher_steps]
    split
    · refine SiteScopedRun.forwarded _ _ _ _ (fun _ _ => rfl) (fun _ => rfl) (fun _ _ _ => rfl) ?_
      intro rid v w data hd _
      simp only [pure, NewToolResultJSON, Outcome.returned.injEq, CallToolResult.toolJSON.injEq,
        and_true] at hd
      subst hd
      exact ⟨_, rfl, by simp [List.lookup]⟩
    · exact SiteScopedRun.rejected _
  · -- create_traffic_rule
    show SiteScopedRun nc _ _ (createTrafficRule nc request)
    rw [createTrafficRule_steps]
    split
    · refine SiteScopedRun.forwarded _ _ _ _ (fun _ _ => rfl) (fun _ => rfl) (fun _ _ _ => rfl) ?_
      intro rid v w data hd _
      simp only [pure, NewToolResultJSON, Outcome.returned.injEq, CallToolResult.toolJSON.injEq,
        and_true] at hd
      subst hd
      exact ⟨_, rfl, by simp [List.lookup]⟩
    · exact SiteScopedRun.rejected _
  · -- create_vpn_tunnel
    show SiteScopedRun nc _ _ (createVPNTunnel nc request)
    rw [createVPNTunnel_steps]
    split
    · refine SiteScopedRun.forwarded _ _ _ _ (fun _ _ => rfl) (fun _ => rfl) (fun _ _ _ => rfl) ?_
      intro rid v w data hd _
      simp only [pure, NewToolResultJSON, Outcome.returned.injEq, CallToolResult.toolJSON.injEq,
        and_true] at hd
      subst hd
      exact ⟨_, rfl, by simp [List.lookup]⟩
    · exact SiteScopedRun.rejected _

/-! ## Site resolver: the resolution order -/

/-- C1: against a non-empty site list fetched without error, the empty token
and the token "default" resolve to the ExternalID of the first site. -/
theorem resolveSiteID_default_token {σ : Type} (nc : NetworkClient σ) (w : World σ)
    (first : Site) (rest : List Site) (tok : String)
    (hget : (nc.call Op.GetSites w.state).1 = (first :: rest, none))
    (htok : tok = "" ∨ tok = "default") :
    (resolveSiteID nc tok w).1 = (first.ExternalID, none) := by
  rw [resolveSiteID_value nc tok w first rest hget]
  simp only [htok, if_true]

theorem resolveSiteID_default_token_witness :
    ((siteClient [homeSite]).call Op.GetSites World.fresh.state).1 = ([homeSite], none) ∧
    (resolveSiteID (siteClient [homeSite]) "" World.fresh).1 = ("ext-1", none) :=
  ⟨rfl, resolveSiteID_default_token (siteClient [homeSite]) World.fresh homeSite [] ""
    rfl (Or.inl rfl)⟩

/-- C2, as stated, fails: with the token "default" the site named "default"
is passed over and the first site's ExternalID is returned. -/
theorem resolveSiteID_name_match_counterexample :
    [homeSite, namedDefaultSite].find? (fun site => site.Name = "default")
      = some namedDefaultSite ∧
    (resolveSiteID (siteClient [homeSite, namedDefaultSite]) "default" World.fresh).1
      = ("ext-1", none) ∧
    (resolveSiteID (siteClient [homeSite, namedDefaultSite]) "default" World.fresh).1
      ≠ (namedDefaultSite.ExternalID, none) := by
  refine ⟨by decide, rfl, ?_⟩
  rw [resolveSiteID_value _ _ _ homeSite [namedDefaultSite] rfl]
  decide

/-- C2 (amended): for a token other than "" and "default", when the fetched
list holds a site whose display name equals the token, the ExternalID of the
first such site is returned, whatever the identifiers of the other sites. -/
theorem resolveSiteID_name_match {σ : Type} (nc : NetworkClient σ) (w : World σ)
    (pre post : List Site) (site : Site) (tok : String)
    (hget : (nc.call Op.GetSites w.state).1 = (pre ++ site :: post, none))
    (hne : tok ≠ "") (hnd : tok ≠ "default")
    (hpre : ∀ s ∈ pre, s.Name ≠ tok) (hname : site.Name = tok) :
    (resolveSiteID nc tok w).1 = (site.ExternalID, none) := by
  have hfind : (pre ++ site :: post).find? (fun s => decide (s.Name = tok)) = some site :=
    find?_first_match _ pre post site (fun s hs => by simpa using hpre s hs) (by simpa using hname)
  have htok : ¬ (tok = "" ∨ tok = "default") := fun h => h.elim hne hnd
  obtain ⟨a, l, hal⟩ : ∃ a l, pre ++ site :: post = a :: l := by
    cases pre with
    | nil => exact ⟨site, post, rfl⟩
    | cons b t => exact ⟨b, t ++ site :: post, rfl⟩
  rw [hal] at hfind hget
  rw [resolveSiteID_value nc tok w a l hget]
  simp only [htok, if_false, hfind]

theorem resolveSiteID_name_match_witness :
    ((siteClient [idDefaultSite, homeSite]).call Op.GetSites World.fresh.state).1
      = ([idDefaultSite] ++ homeSite :: [], none) ∧
    "Home" ≠ "" ∧ "Home" ≠ "default" ∧
    (∀ s ∈ [idDefaultSite], s.Name ≠ "Home") ∧ homeSite.Name = "Home" ∧
    (resolveSiteID (siteClient [idDefaultSite, homeSite]) "Home" World.fresh).1
      = ("ext-1", none) :=
  ⟨rfl, by decide, by decide, by decide, rfl,
    resolveSiteID_name_match (siteClient [idDefaultSite, homeSite]) World.fresh
      [idDefaultSite] [] homeSite "Home" rfl (by decide) (by decide) (by decide) rfl⟩

/-- C3, as stated, fails: with the token "default" the site whose internal ID
is "default" is passed over and the first site's ExternalID is returned. -/
theorem resolveSiteID_id_match_counterexample :
    [homeSite, idDefaultSite].find? (fun site => site.Name = "default") = none ∧
    [homeSite, idDefaultSite].find?
      (fun site => site.ID = "default" ∨ site.ExternalID = "default") = some idDefaultSite ∧
    (resolveSiteID (siteClient [homeSite, idDefaultSite]) "default" World.fresh).1
      = ("ext-1", none) ∧
    (resolveSiteID (siteClient [homeSite, idDefaultSite]) "default" World.fresh).1
      ≠ (idDefaultSite.ExternalID, none) := by
  refine ⟨by decide, by decide, rfl, ?_⟩
  rw [resolveSiteID_value _ _ _ homeSite [idDefaultSite] rfl]
  decide

/-- C3 (amended): for a token other than "" and "default", when no site's
display name equals the token and some site's internal ID or ExternalID does,
the ExternalID of the first such site is returned. -/
theorem resolveSiteID_id_match {σ : Type} (nc : NetworkClient σ) (w : World σ)
    (pre post : List Site) (site : Site) (tok : String)
    (hget : (nc.call Op.GetSites w.state).1 = (pre ++ site :: post, none))
    (hne : tok ≠ "") (hnd : tok ≠ "default")
    (hnoname : ∀ s ∈ pre ++ site :: post, s.Name ≠ tok)
    (hpre : ∀ s ∈ pre, s.ID ≠ tok ∧ s.ExternalID ≠ tok)
    (hid : site.ID = tok ∨ site.ExternalID = tok) :
    (resolveSiteID nc tok w).1 = (site.ExternalID, none) := by
  have hn : (pre ++ site :: post).find? (fun s => decide (s.Name = tok)) = none := by
    rw [List.find?_eq_none]
    intro s hs
    simpa using hnoname s hs
  have hfind : (pre ++ site :: post).find?
      (fun s => decide (s.ID = tok ∨ s.ExternalID = tok)) = some site :=
    find?_first_match _ pre post site
      (fun s hs => by simpa [not_or] using hpre s hs) (by simpa using hid)
  have htok : ¬ (tok = "" ∨ tok = "default") := fun h => h.elim hne hnd
  obtain ⟨a, l, hal⟩ : ∃ a l, pre ++ site :: post = a :: l := by
    cases pre with
    | nil => exact ⟨site, post, rfl⟩
    | cons b t => exact ⟨b, t ++ site :: post, rfl⟩
  rw [hal] at hn hfind hget
  rw [resolveSiteID_value nc tok w a l hget]
  simp only [htok, if_false, hn, hfind]

theorem resolveSiteID_id_match_witness :
    ((siteClient [homeSite]).call Op.GetSites World.fresh.state).1
      = ([] ++ homeSite :: [], none) ∧
    "s1" ≠ "" ∧ "s1" ≠ "default" ∧
    (∀ s ∈ [] ++ homeSite :: [], s.Name ≠ "s1") ∧
    (∀ s ∈ ([] : List Site), s.ID ≠ "s1" ∧ s.ExternalID ≠ "s1") ∧
    (homeSite.ID = "s1" ∨ homeSite.ExternalID = "s1") ∧
    (resolveSiteID (siteClient [homeSite]) "s1" World.fresh).1 = ("ext-1", none) :=
  ⟨rfl, by decide, by decide, by decide, by decide, Or.inl rfl,
    resolveSiteID_id_match (siteClient [homeSite]) World.fresh [] [] homeSite "s1" rfl
      (by decide) (by decide) (by decide) (by decide) (Or.inl rfl)⟩

/-- C4, as stated, fails twice: the token "default" matches nothing in the
list and yet resolves to the first site's ExternalID, and against an empty
list an unmatched token is not returned at all. -/
theorem resolveSiteID_passthrough_counterexample :
    (∀ s ∈ [homeSite], s.Name ≠ "default" ∧ s.ID ≠ "default" ∧ s.ExternalID ≠ "default") ∧
    (resolveSiteID (siteClient [homeSite]) "default" World.fresh).1 = ("ext-1", none) ∧
    (resolveSiteID (siteClient [homeSite]) "default" World.fresh).1 ≠ ("default", none) ∧
    (resolveSiteID (siteClient []) "unknown-uuid" World.fresh).1
      = ("", some (fmtErrorf "no sites available")) ∧
    (resolveSiteID (siteClient []) "unknown-uuid" World.fresh).1 ≠ ("unknown-uuid", none) := by
  refine ⟨by decide, rfl, ?_, rfl, ?_⟩
  · rw [resolveSiteID_value _ _ _ homeSite [] rfl]
    decide
  · rw [resolveSiteID_empty (siteClient []) "unknown-uuid" World.fresh rfl]
    decide

/-- C4 (amended): against a non-empty fetched list, a token other than ""
and "default" that equals no site's display name, internal ID or ExternalID is
returned unchanged, with no error. -/
theorem resolveSiteID_passthrough {σ : Type} (nc : NetworkClient σ) (w : World σ)
    (first : Site) (rest : List Site) (tok : String)
    (hget : (nc.call Op.GetSites w.state).1 = (first :: rest, none))
    (hne : tok ≠ "") (hnd : tok ≠ "default")
    (hno : ∀ s ∈ first :: rest, s.Name ≠ tok ∧ s.ID ≠ tok ∧ s.ExternalID ≠ tok) :
    (resolveSiteID nc tok w).1 = (tok, none) := by
  rw [resolveSiteID_value nc tok w first rest hget]
  have hn : (first :: rest).find? (fun s => decide (s.Name = tok)) = none := by
    rw [List.find?_eq_none]
    intro s hs
    simpa using (hno s hs).1
  have hi : (first :: rest).find?
      (fun s => decide (s.ID = tok ∨ s.ExternalID = tok)) = none := by
    rw [List.find?_eq_none]
    intro s hs
    simpa [not_or] using (hno s hs).2
  have htok : ¬ (tok = "" ∨ tok = "default") := fun h => h.elim hne hnd
  simp only [htok, if_false, hn, hi]

theorem resolveSiteID_passthrough_witness :
    ((siteClient [homeSite]).call Op.GetSites World.fresh.state).1 = ([homeSite], none) ∧
    "unknown-uuid" ≠ "" ∧ "unknown-uuid" ≠ "default" ∧
    (∀ s ∈ [homeSite],
      s.Name ≠ "unknown-uuid" ∧ s.ID ≠ "unknown-uuid" ∧ s.ExternalID ≠ "unknown-uuid") ∧
    (resolveSiteID (siteClient [homeSite]) "unknown-uuid" World.fresh).1
      = ("unknown-uuid", none) :=
  ⟨rfl, by decide, by decide, by decide,
    resolveSiteID_passthrough (siteClient [homeSite]) World.fresh homeSite [] "unknown-uuid"
      rfl (by decide) (by decide) (by decide)⟩

/-- C5: when the site list is fetched without error and is empty, every
token yields the empty identifier and the error "no sites available". -/
theorem resolveSiteID_no_sites {σ : Type} (nc : NetworkClient σ) (w : World σ) (tok : String)
    (hget : (nc.call Op.GetSites w.state).1 = ([], none)) :
    (resolveSiteID nc tok w).1 = ("", some (fmtErrorf "no sites available")) ∧
    (fmtErrorf "no sites available").msg = "no sites available" := by
  rw [resolveSiteID_empty nc tok w hget]
  exact ⟨rfl, rfl⟩

theorem resolveSiteID_no_sites_witness :
    ((siteClient []).call Op.GetSites World.fresh.state).1 = ([], none) ∧
    (resolveSiteID (siteClient []) "default" World.fresh).1
      = ("", some (fmtErrorf "no sites available")) ∧
    (fmtErrorf "no sites available").msg = "no sites available" :=
  ⟨rfl, resolveSiteID_no_sites (siteClient []) World.fresh "default" rfl⟩

/-! ## Validation of mutations -/

theorem asMap_index_none (args : GoMap) (k : String)
    (h : ∀ m, args.lookup k ≠ some (Value.obj m)) : (args.index k).asMap = none := by
  unfold GoMap.index
  cases hl : List.lookup k args with
  | none => rfl
  | some v =>
    cases v with
    | obj m => exact absurd hl (h m)
    | _ => rfl

/-- C6: a patch handler whose `settings` argument is absent or not an object,
and a create handler whose `config` argument is absent or not an object,
returns the matching error result and leaves the world as it was: the call log
and the collaborator state are untouched, so not even Authenticate is invoked. -/
theorem mutation_requires_object {σ : Type} (nc : NetworkClient σ) (request : CallToolRequest)
    (w : World σ) :
    ((∀ m, request.GetArguments.lookup "settings" ≠ some (Value.obj m)) →
      patchWiFiNetwork nc request w
        = (Outcome.returned (CallToolResult.toolError "settings must be an object") none, w) ∧
      patchFirewallZone nc request w
        = (Outcome.returned (CallToolResult.toolError "settings must be an object") none, w) ∧
      patchACLRule nc request w
        = (Outcome.returned (CallToolResult.toolError "settings must be an object") none, w) ∧
      patchHotspotVoucher nc request w
        = (Outcome.returned (CallToolResult.toolError "settings must be an object") none, w) ∧
      patchTrafficRule nc request w
        = (Outcome.returned (CallToolResult.toolError "settings must be an object") none, w)) ∧
    ((∀ m, request.GetArguments.lookup "config" ≠ some (Value.obj m)) →
      createWiFiNetwork nc request w
        = (Outcome.returned (CallToolResult.toolError "config must be an object") none, w) ∧
      createFirewallZone nc request w
        = (Outcome.returned (CallToolResult.toolError "config must be an object") none, w) ∧
      createACLRule nc request w
        = (Outcome.returned (CallToolResult.toolError "config must be an object") none, w) ∧
      createHotspotVoucher nc request w
        = (Outcome.returned (CallToolResult.toolError "config must be an object") none, w) ∧
      createTrafficRule nc request w
        = (Outcome.returned (CallToolResult.toolError "config must be an object") none, w) ∧
      createVPNTunnel nc request w
        = (Outcome.returned (CallToolResult.toolError "config must be an object") none, w)) := by
  refine ⟨fun h => ?_, fun h => ?_⟩
  · have hs := asMap_index_none _ _ h
    refine ⟨?_, ?_, ?_, ?_, ?_⟩
    · rw [patchWiFiNetwork_steps, hs]; rfl
    · rw [patchFirewallZone_steps, hs]; rfl
    · rw [patchACLRule_steps, hs]; rfl
    · rw [patchHotspotVoucher_steps, hs]; rfl
    · rw [patchTrafficRule_steps, hs]; rfl
  · have hs := asMap_index_none _ _ h
    refine ⟨?_, ?_, ?_, ?_, ?_, ?_⟩
    · rw [createWiFiNetwork_steps, hs]; rfl
    · rw [createFirewallZone_steps, hs]; rfl
    · rw [createACLRule_steps, hs]; rfl
    · rw [createHotspotVoucher_steps, hs]; rfl
    · rw [createTrafficRule_steps, hs]; rfl
    · rw [createVPNTunnel_steps, hs]; rfl

theorem mutation_requires_object_witness :
    (∀ m, networkRequest.GetArguments.lookup "settings" ≠ some (Value.obj m)) ∧
    (∀ m, networkRequest.GetArguments.lookup "config" ≠ some (Value.obj m)) ∧
    patchWiFiNetwork (siteClient [homeSite]) networkRequest World.fresh
      = (Outcome.returned (CallToolResult.toolError "settings must be an object") none,
          World.fresh) ∧
    createVPNTunnel (siteClient [homeSite]) networkRequest World.fresh
      = (Outcome.returned (CallToolResult.toolError "config must be an object") none,
          World.fresh) :=
  ⟨fun _ h => by simp [networkRequest, CallToolRequest.GetArguments, List.lookup] at h,
    fun _ h => by simp [networkRequest, CallToolRequest.GetArguments, List.lookup] at h,
    ((mutation_requires_object (siteClient [homeSite]) networkRequest World.fresh).1
      (fun _ h => by
        simp [networkRequest, CallToolRequest.GetArguments, List.lookup] at h)).1,
    ((mutation_requires_object (siteClient [homeSite]) networkRequest World.fresh).2
      (fun _ h => by
        simp [networkRequest, CallToolRequest.GetArguments, List.lookup] at h)).2.2.2.2.2⟩

/-! ## Validation of sub-identifiers -/

/-- C7 fails on the code: with an empty sub-identifier the five detail
handlers that authenticate first have already invoked Authenticate when they
reject the request, and when Authenticate fails the request is answered with the
authentication error instead of the validation error. -/
theorem detail_handlers_authenticate_before_validation :
    getWiFiNetworkDetailed (siteClient [homeSite]) blankIDRequest World.fresh
      = (Outcome.returned
          (CallToolResult.toolError "Missing required parameter: network_id") none,
          ⟨1, [Op.Authenticate]⟩) ∧
    getFirewallZoneDetailed (siteClient [homeSite]) blankIDRequest World.fresh
      = (Outcome.returned
          (CallToolResult.toolError "Missing required parameter: firewall_zone_id") none,
          ⟨1, [Op.Authenticate]⟩) ∧
    getACLRuleDetailed (siteClient [homeSite]) blankIDRequest World.fresh
      = (Outcome.returned
          (CallToolResult.toolError "Missing required parameter: acl_rule_id") none,
          ⟨1, [Op.Authenticate]⟩) ∧
    getHotspotVoucherDetailed (siteClient [homeSite]) blankIDRequest World.fresh
      = (Outcome.returned
          (CallToolResult.toolError "Missing required parameter: voucher_id") none,
          ⟨1, [Op.Authenticate]⟩) ∧
    getTrafficRuleDetailed (siteClient [homeSite]) blankIDRequest World.fresh
      = (Outcome.returned
          (CallToolResult.toolError "Missing required parameter: traffic_matching_list_id")
          none,
          ⟨1, [Op.Authenticate]⟩) ∧
    getWiFiNetworkDetailed failingAuthClient emptyRequest World.fresh
      = (Outcome.returned
          (CallToolResult.toolError "Authentication failed: 401 unauthorized") none,
          ⟨1, [Op.Authenticate]⟩) ∧
    getDeviceDetailed failingAuthClient emptyRequest World.fresh
      = (Outcome.returned (CallToolResult.toolError "device_id is required") none,
          World.fresh) :=
  ⟨rfl, rfl, rfl, rfl, rfl, rfl, rfl⟩

/-! ## The Protect health stub -/

/-- C8, as stated, fails: when Authenticate fails the handler answers with the
authentication error, not with the "skipped" envelope. -/
theorem checkProtectEndpointHealth_counterexample :
    (checkProtectEndpointHealth failingAuthClient emptyRequest World.fresh).1
      = Outcome.returned
          (CallToolResult.toolError "Authentication failed: 401 unauthorized") none ∧
    (checkProtectEndpointHealth failingAuthClient emptyRequest World.fresh).1
      ≠ Outcome.returned (CallToolResult.toolJSON (Value.obj [
          ("endpoint", Value.str "Unifi Protect"),
          ("message", Value.str "Protect endpoint health check is not available in network-mcp. Use unifi-mcp for combined access."),
          ("status", Value.str "skipped")])) none := by
  have h : (checkProtectEndpointHealth failingAuthClient emptyRequest World.fresh).1
      = Outcome.returned
          (CallToolResult.toolError "Authentication failed: 401 unauthorized") none := rfl
  refine ⟨h, ?_⟩
  rw [h]
  simp

/-- C8 (amended): for every request and collaborator state the handler
invokes exactly one collaborator operation, Authenticate; when Authenticate
succeeds the result is the fixed "skipped" envelope, and when it fails with `e`
the result is the error "Authentication failed" followed by the message of `e`. -/
theorem checkProtectEndpointHealth_skipped {σ : Type} (nc : NetworkClient σ)
    (request : CallToolRequest) (w : World σ) :
    (checkProtectEndpointHealth nc request w).2.calls = w.calls ++ [Op.Authenticate] ∧
    ((nc.call Op.Authenticate w.state).1 = none →
      (checkProtectEndpointHealth nc request w).1
        = Outcome.returned (CallToolResult.toolJSON (Value.obj [
            ("endpoint", Value.str "Unifi Protect"),
            ("message", Value.str "Protect endpoint health check is not available in network-mcp. Use unifi-mcp for combined access."),
            ("status", Value.str "skipped")])) none) ∧
    (∀ e, (nc.call Op.Authenticate w.state).1 = some e →
      (checkProtectEndpointHealth nc request w).1
        = Outcome.returned
            (CallToolResult.toolError ("Authentication failed" ++ ": " ++ e.msg)) none) := by
  rw [checkProtectEndpointHealth_steps]
  refine ⟨?_, fun h => ?_, fun e h => ?_⟩
  · cases h : (nc.call Op.Authenticate w.state).1 with
    | none => rw [authThen_passed nc _ w h]; rfl
    | some e => rw [authThen_failed nc _ w e h]; rfl
  · rw [authThen_passed nc _ w h]; rfl
  · rw [authThen_failed nc _ w e h]; rfl

theorem checkProtectEndpointHealth_skipped_witness :
    ((siteClient [homeSite]).call Op.Authenticate World.fresh.state).1 = none ∧
    (checkProtectEndpointHealth (siteClient [homeSite]) emptyRequest World.fresh).2.calls
      = [Op.Authenticate] ∧
    (checkProtectEndpointHealth (siteClient [homeSite]) emptyRequest World.fresh).1
      = Outcome.returned (CallToolResult.toolJSON (Value.obj [
          ("endpoint", Value.str "Unifi Protect"),
          ("message", Value.str "Protect endpoint health check is not available in network-mcp. Use unifi-mcp for combined access."),
          ("status", Value.str "skipped")])) none :=
  ⟨rfl,
    (checkProtectEndpointHealth_skipped (siteClient [homeSite]) emptyRequest World.fresh).1,
    (checkProtectEndpointHealth_skipped (siteClient [homeSite]) emptyRequest World.fresh).2.1
      rfl⟩

/-! ## Pagination of the client list -/

theorem truncFloat_of_floatIs (m e n : Int) (h : floatIs m e n) : truncFloat m e = n := by
  unfold floatIs at h
  unfold truncFloat
  by_cases he : 0 ≤ e
  · simp only [he, if_true] at h ⊢
    exact h.symm
  · simp only [he, if_false] at h ⊢
    rw [h]
    exact Int.mul_tdiv_cancel _ (pow_ne_zero _ (by decide))

theorem GetInt_supplied (request : CallToolRequest) (key : String) (d n : Int)
    (hr : inIntRange n)
    (h : (∃ v, request.GetArguments.lookup key = some v ∧ v.suppliesInt n) ∨
      (request.GetArguments.lookup key = none ∧ n = d)) :
    request.GetInt key d = n := by
  unfold CallToolRequest.GetInt
  rcases h with ⟨v, hv, hs⟩ | ⟨h, rfl⟩
  · rw [hv]
    rcases hs with rfl | ⟨m, e, rfl, hf⟩ | ⟨s, rfl, ha⟩
    · rfl
    · show floatToInt m e = n
      unfold floatToInt
      rw [truncFloat_of_floatIs m e n hf]
      exact if_pos hr
    · show (match atoi s with
        | some n => n
        | none => d) = n
      rw [ha]
  · rw [h]

/-- C9, as stated, fails: a supplied limit of 10.5 reaches GetClients and the
envelope as 10, and a supplied limit of 1e19, an integer beyond the range of
`int`, reaches GetClients as the least `int`. -/
theorem getNetworkClients_pagination_counterexample :
    fractionalPageRequest.GetArguments.lookup "limit" = some (Value.float 21 (-1)) ∧
    ¬ floatIs 21 (-1) 10 ∧
    (getNetworkClients (siteClient [homeSite]) fractionalPageRequest World.fresh).2.calls
      = [Op.Authenticate, Op.GetSites, Op.GetClients "ext-1" 10 0] ∧
    (getNetworkClients (siteClient [homeSite]) fractionalPageRequest World.fresh).1
      = Outcome.returned (CallToolResult.toolJSON (Value.obj [
          ("clients", Value.list []),
          ("count", Value.int 0),
          ("site_id", Value.str "ext-1"),
          ("limit", Value.int 10),
          ("offset", Value.int 0)])) none ∧
    hugePageRequest.GetArguments.lookup "limit"
      = some (Value.float 19073486328125 19) ∧
    floatIs 19073486328125 19 10000000000000000000 ∧
    (getNetworkClients (siteClient [homeSite]) hugePageRequest World.fresh).2.calls
      = [Op.Authenticate, Op.GetSites, Op.GetClients "ext-1" (-9223372036854775808) 0] := by
  refine ⟨rfl, ?_, rfl, rfl, rfl, ?_, rfl⟩
  · unfold floatIs
    decide
  · unfold floatIs
    decide

/-- C9 (amended): with `limit` supplied as the integer `l` within the range
of `int` (as a Go `int`, as a number whose value is `l`, or as a string that
`Atoi` reads as `l`), or absent with `l = 25`, and `offset` supplied likewise as
`o`, or absent with `o = 0`, on the success path the collaborator calls are
Authenticate, GetSites and GetClients with exactly the resolved site identifier,
`l` and `o`, and the envelope carries `limit = l` and `offset = o` next to the
clients, their count and the site. -/
theorem getNetworkClients_pagination {σ : Type} (nc : NetworkClient σ)
    (request : CallToolRequest) (w : World σ) (l o : Int) (rid : String)
    (clients : List Value)
    (hl : (∃ v, request.GetArguments.lookup "limit" = some v ∧ v.suppliesInt l) ∨
      (request.GetArguments.lookup "limit" = none ∧ l = 25))
    (hlr : inIntRange l)
    (ho : (∃ v, request.GetArguments.lookup "offset" = some v ∧ v.suppliesInt o) ∨
      (request.GetArguments.lookup "offset" = none ∧ o = 0))
    (hor : inIntRange o)
    (hauth : (nc.call Op.Authenticate w.state).1 = none)
    (hres : resolved nc request w = (rid, none))
    (hget : (nc.call (Op.GetClients rid l o) (afterResolve nc request w).state).1
      = (clients, none)) :
    (getNetworkClients nc request w).2.calls
      = w.calls ++ [Op.Authenticate, Op.GetSites, Op.GetClients rid l o] ∧
    (getNetworkClients nc request w).1
      = Outcome.returned (CallToolResult.toolJSON (Value.obj [
          ("clients", Value.list clients),
          ("count", Value.int clients.length),
          ("site_id", Value.str rid),
          ("limit", Value.int l),
          ("offset", Value.int o)])) none := by
  have hget' : (nc.invoke (Op.GetClients rid l o)
      (resolveSiteID nc (request.GetString "site_id" "") (afterAuthenticate nc w)).2).1
      = (clients, none) := hget
  rw [getNetworkClients_steps, GetInt_supplied request "limit" 25 l hlr hl,
    GetInt_supplied request "offset" 0 o hor ho, authThen_passed nc _ w hauth,
    resolveThen_passed nc _ _ _ rid hres, opThen_passed _ _ _ _ clients hget']
  refine ⟨?_, rfl⟩
  show ((resolveSiteID nc (request.GetString "site_id" "") (afterAuthenticate nc w)).2.calls
    ++ [Op.GetClients rid l o]) = _
  rw [resolveSiteID_calls, afterAuthenticate_calls]
  simp

theorem getNetworkClients_pagination_witness :
    inIntRange 10 ∧ inIntRange 20 ∧
    (Value.float 5 1).suppliesInt 10 ∧ (Value.float 5 2).suppliesInt 20 ∧
    (getNetworkClients (siteClient [homeSite]) decodedPageRequest World.fresh).2.calls
      = [Op.Authenticate, Op.GetSites, Op.GetClients "ext-1" 10 20] ∧
    (getNetworkClients (siteClient [homeSite]) pageRequest World.fresh).1
      = Outcome.returned (CallToolResult.toolJSON (Value.obj [
          ("clients", Value.list []),
          ("count", Value.int 0),
          ("site_id", Value.str "ext-1"),
          ("limit", Value.int 10),
          ("offset", Value.int 20)])) none ∧
    (getNetworkClients (siteClient [homeSite]) emptyRequest World.fresh).2.calls
      = [Op.Authenticate, Op.GetSites, Op.GetClients "ext-1" 25 0] :=
  ⟨by unfold inIntRange; decide, by unfold inIntRange; decide,
    Or.inr (Or.inl ⟨5, 1, rfl, by unfold floatIs; decide⟩),
    Or.inr (Or.inl ⟨5, 2, rfl, by unfold floatIs; decide⟩),
    (getNetworkClients_pagination (siteClient [homeSite]) decodedPageRequest World.fresh 10 20
      "ext-1" []
      (Or.inl ⟨_, rfl, Or.inr (Or.inl ⟨5, 1, rfl, by unfold floatIs; decide⟩)⟩)
      (by unfold inIntRange; decide)
      (Or.inl ⟨_, rfl, Or.inr (Or.inl ⟨5, 2, rfl, by unfold floatIs; decide⟩)⟩)
      (by unfold inIntRange; decide) rfl rfl rfl).1,
    (getNetworkClients_pagination (siteClient [homeSite]) pageRequest World.fresh 10 20
      "ext-1" [] (Or.inl ⟨_, rfl, Or.inl rfl⟩) (by unfold inIntRange; decide)
      (Or.inl ⟨_, rfl, Or.inl rfl⟩) (by unfold inIntRange; decide) rfl rfl rfl).2,
    (getNetworkClients_pagination (siteClient [homeSite]) emptyRequest World.fresh 25 0
      "ext-1" [] (Or.inr ⟨rfl, rfl⟩) (by unfold inIntRange; decide) (Or.inr ⟨rfl, rfl⟩)
      (by unfold inIntRange; decide) rfl rfl rfl).1⟩

/-! ## The resolved site identifier in site-scoped handlers -/

/-- C10, as stated, fails: `get_wifi_network_detailed` hands the resolved
identifier to the collaborator and then returns the collaborator's payload as
it is, so its success envelope has no `site_id` field. -/
theorem siteScoped_envelope_counterexample :
    resolved payloadClient networkRequest World.fresh = ("ext-1", none) ∧
    getWiFiNetworkDetailed payloadClient networkRequest World.fresh
      = (Outcome.returned
          (CallToolResult.toolJSON (Value.obj [("ssid", Value.str "lan")])) none,
          ⟨3, [Op.Authenticate, Op.GetSites, Op.GetWiFiNetworkDetailed "ext-1" "n1"]⟩) ∧
    GoMap.index [("ssid", Value.str "lan")] "site_id" = Value.null :=
  ⟨rfl, rfl, rfl⟩

/-- C10 (amended): for every registered tool that declares a `site_id`
argument, every collaborator operation the handler invokes with a site
identifier is handed the value `resolveSiteID` returned for the request's
`site_id` argument (read as the empty string when the argument is absent); on
success the calls are Authenticate, GetSites and one such operation, and the
`site_id` field of the success envelope is that resolved value, except in the
five pass-through detail handlers, which return the payload without an
envelope. -/
theorem siteScoped_hands_resolved_site {σ : Type} (nc : NetworkClient σ)
    (tool : ServerTool σ) (htool : tool ∈ registerTools nc)
    (hsite : "site_id" ∈ tool.Properties.map (fun p => p.1))
    (request : CallToolRequest) (w : World σ) :
    (∀ op ∈ (tool.Handler request w).2.calls.drop w.calls.length, ∀ s,
      op.siteID? = some s → s = (resolved nc request w).1) ∧
    (∀ data, (tool.Handler request w).1
        = Outcome.returned (CallToolResult.toolJSON data) none →
      (resolved nc request w).2 = none ∧
      (∃ op, (tool.Handler request w).2.calls
          = w.calls ++ [Op.Authenticate, Op.GetSites, op] ∧
        op.siteID? = some (resolved nc request w).1) ∧
      (tool.Name ∉ passthroughTools →
        ∃ m, data = Value.obj m ∧
          m.lookup "site_id" = some (Value.str (resolved nc request w).1))) ∧
    (request.GetArguments.lookup "site_id" = none →
      resolved nc request w = (resolveSiteID nc "" (afterAuthenticate nc w)).1) := by
  have hs := (registerTools_siteScoped nc tool htool hsite request).sound w
  refine ⟨hs.1, fun data hd => ?_, fun h => ?_⟩
  · obtain ⟨h1, h2, h3⟩ := hs.2 data hd
    exact ⟨h1, h3, fun hn => h2 data hd hn⟩
  · unfold resolved CallToolRequest.GetString
    rw [h]

theorem siteScoped_hands_resolved_site_witness :
    devicesTool ∈ registerTools (siteClient [homeSite]) ∧
    "site_id" ∈ devicesTool.Properties.map (fun p => p.1) ∧
    resolved (siteClient [homeSite]) emptyRequest World.fresh = ("ext-1", none) ∧
    devicesTool.Handler emptyRequest World.fresh
      = (Outcome.returned (CallToolResult.toolJSON (Value.obj [
            ("devices", Value.list []),
            ("count", Value.int 0),
            ("site_id", Value.str "ext-1")])) none,
          ⟨3, [Op.Authenticate, Op.GetSites, Op.GetDevices "ext-1"]⟩) ∧
    (∀ op ∈ (devicesTool.Handler emptyRequest World.fresh).2.calls.drop
        World.fresh.calls.length, ∀ s,
      op.siteID? = some s → s = (resolved (siteClient [homeSite]) emptyRequest World.fresh).1) :=
  ⟨List.Mem.tail _ (List.Mem.head _), List.Mem.head _, rfl, rfl,
    (siteScoped_hands_resolved_site (siteClient [homeSite]) devicesTool
      (List.Mem.tail _ (List.Mem.head _)) (List.Mem.head _) emptyRequest World.fresh).1⟩

/-! ## How a handler run ends -/

theorem ToolRun.classify {σ : Type} {nc : NetworkClient σ} {tok failText : String}
    {forSite : Bool} {h : Exec σ Outcome} (hs : ToolRun nc tok failText forSite h)
    (w : World σ) : RunCase nc tok failText forSite w (h w) := by
  cases hs with
  | rejected text => exact RunCase.rejected text rfl
  | rejectedAfterAuth text =>
    cases ha : (nc.call Op.Authenticate w.state).1 with
    | some e =>
      rw [authThen_failed nc _ w e ha]
      exact RunCase.authFailed e ha
    | none =>
      rw [authThen_passed nc _ w ha]
      exact RunCase.rejectedAfterAuth text rfl ha
  | stub data =>
    cases ha : (nc.call Op.Authenticate w.state).1 with
    | some e =>
      rw [authThen_failed nc _ w e ha]
      exact RunCase.authFailed e ha
    | none =>
      rw [authThen_passed nc _ w ha]
      exact RunCase.stub data rfl ha
  | direct run op ok hrun herr hop hok =>
    cases ha : (nc.call Op.Authenticate w.state).1 with
    | some e =>
      rw [authThen_failed nc _ w e ha]
      exact RunCase.authFailed e ha
    | none =>
      rw [authThen_passed nc _ w ha]
      have hat : AtOperation nc tok false w op (afterAuthenticate nc w) :=
        Or.inr ⟨rfl, rfl, hop⟩
      rcases ho : (run (afterAuthenticate nc w)).1 with ⟨v, _ | e⟩
      · have he : op.err (nc.call op (afterAuthenticate nc w).state).1 = none := by
          rw [← herr, ho]
        obtain ⟨data, hd⟩ := hok v (run (afterAuthenticate nc w)).2
        rw [opThen_passed _ _ _ _ v ho, hd, hrun]
        exact RunCase.opDone op _ _ ha hat he (Or.inl ⟨data, rfl⟩)
      · have he : op.err (nc.call op (afterAuthenticate nc w).state).1 = some e := by
          rw [← herr, ho]
        rw [opThen_failed _ _ _ _ v e ho, hrun]
        exact RunCase.opFailed op e _ ha hat he
  | forwarded run opOf ok hrun herr hop hok =>
    cases ha : (nc.call Op.Authenticate w.state).1 with
    | some e =>
      rw [authThen_failed nc _ w e ha]
      exact RunCase.authFailed e ha
    | none =>
      rw [authThen_passed nc _ w ha]
      rcases hr : (resolveSiteID nc tok (afterAuthenticate nc w)).1 with ⟨rid, _ | e⟩
      · rw [resolveThen_passed nc tok _ _ rid hr]
        have hat : AtOperation nc tok true w (opOf rid)
            (resolveSiteID nc tok (afterAuthenticate nc w)).2 :=
          Or.inl ⟨rfl, rid, hr, rfl, hop rid⟩
        rcases ho : (run rid (resolveSiteID nc tok (afterAuthenticate nc w)).2).1
          with ⟨v, _ | e⟩
        · have he : (opOf rid).err (nc.call (opOf rid)
              (resolveSiteID nc tok (afterAuthenticate nc w)).2.state).1 = none := by
            rw [← herr, ho]
          rw [opThen_passed _ _ _ _ v ho]
          rcases hok rid v (run rid (resolveSiteID nc tok (afterAuthenticate nc w)).2).2
            with ⟨data, hd⟩ | ⟨reason, hd⟩
          · rw [hd, hrun]
            exact RunCase.opDone (opOf rid) _ _ ha hat he (Or.inl ⟨data, rfl⟩)
          · rw [hd, hrun]
            exact RunCase.opDone (opOf rid) _ _ ha hat he (Or.inr ⟨reason, rfl⟩)
        · have he : (opOf rid).err (nc.call (opOf rid)
              (resolveSiteID nc tok (afterAuthenticate nc w)).2.state).1 = some e := by
            rw [← herr, ho]
          rw [opThen_failed _ _ _ _ v e ho, hrun]
          exact RunCase.opFailed (opOf rid) e _ ha hat he
      · rw [resolveThen_failed nc tok _ _ rid e hr]
        exact RunCase.resolveFailed rid e rfl ha hr

theorem registerTools_run {σ : Type} (nc : NetworkClient σ) (tool : ServerTool σ)
    (htool : tool ∈ registerTools nc) (request : CallToolRequest) :
    ToolRun nc (request.GetString "site_id" "") (failureText tool.Name) tool.siteScoped
      (tool.Handler request) := by
  simp only [registerTools, List.mem_cons, List.mem_singleton, List.not_mem_nil, or_false]
    at htool
  rcases htool with rfl | rfl | rfl | rfl | rfl | rfl | rfl | rfl | rfl | rfl | rfl | rfl | rfl | rfl | rfl | rfl | rfl | rfl | rfl | rfl | rfl | rfl | rfl | rfl | rfl | rfl | rfl | rfl | rfl | rfl | rfl | rfl | rfl | rfl | rfl | rfl | rfl | rfl | rfl | rfl | rfl
  · -- get_network_sites
    show ToolRun nc _ "Failed to get sites" false (getNetworkSites nc request)
    rw [getNetworkSites_steps]
    exact ToolRun.direct _ _ _ (fun _ => rfl) (fun _ => rfl) rfl (fun _ _ => ⟨_, rfl⟩)
  · -- get_network_devices
    show ToolRun nc _ "Failed to get devices" true (getNetworkDevices nc request)
    rw [getNetworkDevices_steps]
    refine ToolRun.forwarded _ _ _ (fun _ _ => rfl) (fun _ _ => rfl) (fun _ => rfl) ?_
    intro rid v w
    exact Or.inl ⟨_, rfl⟩
  · -- get_device_detailed
    show ToolRun nc _ "Failed to get device details" true (getDeviceDetailed nc request)
    rw [getDeviceDetailed_steps]
    split
    · exact ToolRun.rejected _
    · refine ToolRun.forwarded _ _ _ (fun _ _ => rfl) (fun _ _ => rfl) (fun _ => rfl) ?_
      intro rid v w
      exact Or.inl ⟨_, rfl⟩
  · -- get_device_stats
    show ToolRun nc _ "Failed to get device stats" true (getDeviceStats nc request)
    rw [getDeviceStats_steps]
    split
    · exact ToolRun.rejected _
    · refine ToolRun.forwarded _ _ _ (fun _ _ => rfl) (fun _ _ => rfl) (fun _ => rfl) ?_
      intro rid v w
      exact Or.inl ⟨_, rfl⟩
  · -- get_network_info
    show ToolRun nc _ "Failed to get network info" false (getNetworkInfo nc request)
    rw [getNetworkInfo_steps]
    exact ToolRun.direct _ _ _ (fun _ => rfl) (fun _ => rfl) rfl (fun _ _ => ⟨_, rfl⟩)
  · -- get_pending_devices
    show ToolRun nc _ "Failed to get pending devices" false (getPendingDevices nc request)
    rw [getPendingDevices_steps]
    exact ToolRun.direct _ _ _ (fun _ => rfl) (fun _ => rfl) rfl (fun _ _ => ⟨_, rfl⟩)
  · -- get_wifi_networks
    show ToolRun nc _ "Failed to get wifi networks" true (getWiFiNetworks nc request)
    rw [getWiFiNetworks_steps]
    refine ToolRun.forwarded _ _ _ (fun _ _ => rfl) (fun _ _ => rfl) (fun _ => rfl) ?_
    intro rid v w
    exact Or.inl ⟨_, rfl⟩
  · -- get_wifi_network_detailed
    show ToolRun nc _ "Failed to get network details" true (getWiFiNetworkDetailed nc request)
    rw [getWiFiNetworkDetailed_steps]
    split
    · exact ToolRun.rejectedAfterAuth _
    · refine ToolRun.forwarded _ _ _ (fun _ _ => rfl) (fun _ _ => rfl) (fun _ => rfl) ?_
      intro rid v w
      exact Or.inl ⟨_, rfl⟩
  · -- get_wifi_broadcasts
    show ToolRun nc _ "Failed to get wifi broadcasts" true (getWiFiBroadcasts nc request)
    rw [getWiFiBroadcasts_steps]
    refine ToolRun.forwarded _ _ _ (fun _ _ => rfl) (fun _ _ => rfl) (fun _ => rfl) ?_
    intro rid v w
    exact Or.inl ⟨_, rfl⟩
  · -- get_network_clients
    show ToolRun nc _ "Failed to get network clients" true (getNetworkClients nc request)
    rw [getNetworkClients_steps]
    refine ToolRun.forwarded _ _ _ (fun _ _ => rfl) (fun _ _ => rfl) (fun _ => rfl) ?_
    intro rid v w
    exact Or.inl ⟨_, rfl⟩
  · -- get_client_detailed
    show ToolRun nc _ "Failed to get client details" true (getClientDetailed nc request)
    rw [getClientDetailed_steps]
    split
    · exact ToolRun.rejected _
    · refine ToolRun.forwarded _ _ _ (fun _ _ => rfl) (fun _ _ => rfl) (fun _ => rfl) ?_
      intro rid v w
      exact Or.inl ⟨_, rfl⟩
  · -- get_client_stats
    show ToolRun nc _ "Failed to get client stats" true (getClientStats nc request)
    rw [getClientStats_steps]
    refine ToolRun.forwarded _ _ _ (fun _ _ => rfl) (fun _ _ => rfl) (fun _ => rfl) ?_
    intro rid v w
    exact Or.inl ⟨_, rfl⟩
  · -- get_site_health
    show ToolRun nc _ "Failed to get health" true (getSiteHealth nc request)
    rw [getSiteHealth_steps]
    refine ToolRun.forwarded _ _ _ (fun _ _ => rfl) (fun _ _ => rfl) (fun _ => rfl) ?_
    intro rid v w
    exact Or.inl ⟨_, rfl⟩
  · -- check_network_endpoint_health
    show ToolRun nc _ "Failed to check endpoint health" false (checkNetworkEndpointHealth nc request)
    rw [checkNetworkEndpointHealth_steps]
    exact ToolRun.direct _ _ _ (fun _ => rfl) (fun _ => rfl) rfl (fun _ _ => ⟨_, rfl⟩)
  · -- check_protect_endpoint_health
    show ToolRun nc _ "" false (checkProtectEndpointHealth nc request)
    rw [checkProtectEndpointHealth_steps]
    exact ToolRun.stub _
  · -- get_firewall_zones
    show ToolRun nc _ "Failed to get firewall zones" true (getFirewallZones nc request)
    rw [getFirewallZones_steps]
    refine ToolRun.forwarded _ _ _ (fun _ _ => rfl) (fun _ _ => rfl) (fun _ => rfl) ?_
    intro rid v w
    exact Or.inl ⟨_, rfl⟩
  · -- get_firewall_zone_detailed
    show ToolRun nc _ "Failed to get firewall zone details" true (getFirewallZoneDetailed nc request)
    rw [getFirewallZoneDetailed_steps]
    split
    · exact ToolRun.rejectedAfterAuth _
    · refine ToolRun.forwarded _ _ _ (fun _ _ => rfl) (fun _ _ => rfl) (fun _ => rfl) ?_
      intro rid v w
      exact Or.inl ⟨_, rfl⟩
  · -- get_acl_rules
    show ToolRun nc _ "Failed to get acl rules" true (getACLRules nc request)
    rw [getACLRules_steps]
    refine ToolRun.forwarded _ _ _ (fun _ _ => rfl) (fun _ _ => rfl) (fun _ => rfl) ?_
    intro rid v w
    exact Or.inl ⟨_, rfl⟩
  · -- get_acl_rule_detailed
    show ToolRun nc _ "Failed to get ACL rule details" true (getACLRuleDetailed nc request)
    rw [getACLRuleDetailed_steps]
    split
    · exact ToolRun.rejectedAfterAuth _
    · refine ToolRun.forwarded _ _ _ (fun _ _ => rfl) (fun _ _ => rfl) (fun _ => rfl) ?_
      intro rid v w
      exact Or.inl ⟨_, rfl⟩
  · -- get_hotspot_vouchers
    show ToolRun nc _ "Failed to get hotspot vouchers" true (getHotspotVouchers nc request)
    rw [getHotspotVouchers_steps]
    refine ToolRun.forwarded _ _ _ (fun _ _ => rfl) (fun _ _ => rfl) (fun _ => rfl) ?_
    intro rid v w
    exact Or.inl ⟨_, rfl⟩
  · -- get_hotspot_voucher_detailed
    show ToolRun nc _ "Failed to get voucher details" true (getHotspotVoucherDetailed nc request)
    rw [getHotspotVoucherDetailed_steps]
    split
    · exact ToolRun.rejectedAfterAuth _
    · refine ToolRun.forwarded _ _ _ (fun _ _ => rfl) (fun _ _ => rfl) (fun _ => rfl) ?_
      intro rid v w
      exact Or.inl ⟨_, rfl⟩
  · -- get_traffic_rules
    show ToolRun nc _ "Failed to get traffic rules" true (getTrafficRules nc request)
    rw [getTrafficRules_steps]
    refine ToolRun.forwarded _ _ _ (fun _ _ => rfl) (fun _ _ => rfl) (fun _ => rfl) ?_
    intro rid v w
    exact Or.inl ⟨_, rfl⟩
  · -- get_traffic_rule_detailed
    show ToolRun nc _ "Failed to get traffic rule details" true (getTrafficRuleDetailed nc request)
    rw [getTrafficRuleDetailed_steps]
    split
    · exact ToolRun.rejectedAfterAuth _
    · refine ToolRun.forwarded _ _ _ (fun _ _ => rfl) (fun _ _ => rfl) (fun _ => rfl) ?_
      intro rid v w
      exact Or.inl ⟨_, rfl⟩
  · -- get_vpn_servers
    show ToolRun nc _ "Failed to get vpn servers" true (getVPNServers nc request)
    rw [getVPNServers_steps]
    refine ToolRun.forwarded _ _ _ (fun _ _ => rfl) (fun _ _ => rfl) (fun _ => rfl) ?_
    intro rid v w
    exact Or.inl ⟨_, rfl⟩
  · -- get_device_tags
    show ToolRun nc _ "Failed to get device tags" true (getDeviceTags nc request)
    rw [getDeviceTags_steps]
    refine ToolRun.forwarded _ _ _ (fun _ _ => rfl) (fun _ _ => rfl) (fun _ => rfl) ?_
    intro rid v w
    exact Or.inl ⟨_, rfl⟩
  · -- get_wan_config
    show ToolRun nc _ "Failed to get WAN config" true (getWANConfig nc request)
    rw [getWANConfig_steps]
    refine ToolRun.forwarded _ _ _ (fun _ _ => rfl) (fun _ _ => rfl) (fun _ => rfl) ?_
    intro rid v w
    exact Or.inl ⟨_, rfl⟩
  · -- get_radius_profiles
    show ToolRun nc _ "Failed to get RADIUS profiles" true (getRADIUSProfiles nc request)
    rw [getRADIUSProfiles_steps]
    refine ToolRun.forwarded _ _ _ (fun _ _ => rfl) (fun _ _ => rfl) (fun _ => rfl) ?_
    intro rid v w
    exact Or.inl ⟨_, rfl⟩
  · -- get_dpi_categories
    show ToolRun nc _ "Failed to get dpi categories" false (getDPICategories nc request)
    rw [getDPICategories_steps]
    exact ToolRun.direct _ _ _ (fun _ => rfl) (fun _ => rfl) rfl (fun _ _ => ⟨_, rfl⟩)
  · -- get_dpi_apps
    show ToolRun nc _ "Failed to get dpi apps" false (getDPIApps nc request)
    rw [getDPIApps_steps]
    exact ToolRun.direct _ _ _ (fun _ => rfl) (fun _ => rfl) rfl (fun _ _ => ⟨_, rfl⟩)
  · -- get_dpi_applications
    show ToolRun nc _ "Failed to get DPI applications" false (getDPIApplications nc request)
    rw [getDPIApplications_steps]
    exact ToolRun.direct _ _ _ (fun _ => rfl) (fun _ => rfl) rfl (fun _ _ => ⟨_, rfl⟩)
  · -- patch_wifi_network
    show ToolRun nc _ "Failed to update wifi network" true (patchWiFiNetwork nc request)
    rw [patchWiFiNetwork_steps]
    split
    · split
      · exact ToolRun.rejected _
      · refine ToolRun.forwarded _ _ _ (fun _ _ => rfl) (fun _ _ => rfl) (fun _ => rfl) ?_
        intro rid v w
        cases v with
        | none => exact Or.inr ⟨_, rfl⟩
        | some m => exact Or.inl ⟨_, rfl⟩
    · exact ToolRun.rejected _
  · -- patch_firewall_zone
    show ToolRun nc _ "Failed to update firewall zone" true (patchFirewallZone nc request)
    rw [patchFirewallZone_steps]
    split
    · split
      · exact ToolRun.rejected _
      · refine ToolRun.forwarded _ _ _ (fun _ _ => rfl) (fun _ _ => rfl) (fun _ => rfl) ?_
        intro rid v w
        cases v with
        | none => exact Or.inr ⟨_, rfl⟩
        | some m => exact Or.inl ⟨_, rfl⟩
    · exact ToolRun.rejected _
  · -- patch_acl_rule
    show ToolRun nc _ "Failed to update acl rule" true (patchACLRule nc request)
    rw [patchACLRule_steps]
    split
    · split
      · exact ToolRun.rejected _
      · refine ToolRun.forwarded _ _ _ (fun _ _ => rfl) (fun _ _ => rfl) (fun _ => rfl) ?_
        intro rid v w
        cases v with
        | none => exact Or.inr ⟨_, rfl⟩
        | some m => exact Or.inl ⟨_, rfl⟩
    · exact ToolRun.rejected _
  · -- patch_hotspot_voucher
    show ToolRun nc _ "Failed to update hotspot voucher" true (patchHotspotVoucher nc request)
    rw [patchHotspotVoucher_steps]
    split
    · split
      · exact ToolRun.rejected _
      · refine ToolRun.forwarded _ _ _ (fun _ _ => rfl) (fun _ _ => rfl) (fun _ => rfl) ?_
        intro rid v w
        cases v with
        | none => exact Or.inr ⟨_, rfl⟩
        | some m => exact Or.inl ⟨_, rfl⟩
    · exact ToolRun.rejected _
  · -- patch_traffic_rule
    show ToolRun nc _ "Failed to update traffic rule" true (patchTrafficRule nc request)
    rw [patchTrafficRule_steps]
    split
    · split
      · exact ToolRun.rejected _
      · refine ToolRun.forwarded _ _ _ (fun _ _ => rfl) (fun _ _ => rfl) (fun _ => rfl) ?_
        intro rid v w
        cases v with
        | none => exact Or.inr ⟨_, rfl⟩
        | some m => exact Or.inl ⟨_, rfl⟩
    · exact ToolRun.rejected _
  · -- create_wifi_network
    show ToolRun nc _ "Failed to create wifi network" true (createWiFiNetwork nc request)
    rw [createWiFiNetwork_steps]
    split
    · refine ToolRun.forwarded _ _ _ (fun _ _ => rfl) (fun _ _ => rfl) (fun _ => rfl) ?_
      intro rid v w
      exact Or.inl ⟨_, rfl⟩
    · exact ToolRun.rejected _
  · -- create_firewall_zone
    show ToolRun nc _ "Failed to create firewall zone" true (createFirewallZone nc request)
    rw [createFirewallZone_steps]
    split
    · refine ToolRun.forwarded _ _ _ (fun _ _ => rfl) (fun _ _ => rfl) (fun _ => rfl) ?_
      intro rid v w
      exact Or.inl ⟨_, rfl⟩
    · exact ToolRun.rejected _
  · -- create_acl_rule
    show ToolRun nc _ "Failed to create acl rule" true (createACLRule nc request)
    rw [createACLRule_steps]
    split
    · refine ToolRun.forwarded _ _ _ (fun _ _ => rfl) (fun _ _ => rfl) (fun _ => rfl) ?_
      intro rid v w
      exact Or.inl ⟨_, rfl⟩
    · exact ToolRun.rejected _
  · -- create_hotspot_voucher
    show ToolRun nc _ "Failed to create hotspot voucher" true (createHotspotVoucher nc request)
    rw [createHotspotVoucher_steps]
    split
    · refine ToolRun.forwarded _ _ _ (fun _ _ => rfl) (fun _ _ => rfl) (fun _ => rfl) ?_
      intro rid v w
      exact Or.inl ⟨_, rfl⟩
    · exact ToolRun.rejected _
  · -- create_traffic_rule
    show ToolRun nc _ "Failed to create traffic rule" true (createTrafficRule nc request)
    rw [createTrafficRule_steps]
    split
    · refine ToolRun.forwarded _ _ _ (fun _ _ => rfl) (fun _ _ => rfl) (fun _ => rfl) ?_
      intro rid v w
      exact Or.inl ⟨_, rfl⟩
    · exact ToolRun.rejected _
  · -- create_vpn_tunnel
    show ToolRun nc _ "Failed to create vpn tunnel" true (createVPNTunnel nc request)
    rw [createVPNTunnel_steps]
    split
    · refine ToolRun.forwarded _ _ _ (fun _ _ => rfl) (fun _ _ => rfl) (fun _ => rfl) ?_
      intro rid v w
      exact Or.inl ⟨_, rfl⟩
    · exact ToolRun.rejected _

theorem registerTools_cases {σ : Type} (nc : NetworkClient σ) (tool : ServerTool σ)
    (htool : tool ∈ registerTools nc) (request : CallToolRequest) (w : World σ) :
    RunCase nc (request.GetString "site_id" "") (failureText tool.Name) tool.siteScoped w
      (tool.Handler request w) :=
  (registerTools_run nc tool htool request).classify w

/-! ## The call log of each way to end -/

theorem newCalls_same {σ : Type} (w : World σ) (o : Outcome) : newCalls w (o, w) = [] := by
  simp [newCalls]

theorem newCalls_afterAuthenticate {σ : Type} (nc : NetworkClient σ) (w : World σ)
    (o : Outcome) : newCalls w (o, afterAuthenticate nc w) = [Op.Authenticate] := by
  simp [newCalls, afterAuthenticate_calls]

theorem newCalls_afterResolve {σ : Type} (nc : NetworkClient σ) (tok : String) (w : World σ)
    (o : Outcome) :
    newCalls w (o, (resolveSiteID nc tok (afterAuthenticate nc w)).2)
      = [Op.Authenticate, Op.GetSites] := by
  simp [newCalls, resolveSiteID_calls, afterAuthenticate_calls]

theorem newCalls_atOperation {σ : Type} (nc : NetworkClient σ) (tok : String)
    (forSite : Bool) (w wB : World σ) (op : Op) (o : Outcome)
    (hat : AtOperation nc tok forSite w op wB) :
    newCalls w (o, (nc.invoke op wB).2)
      = (if forSite then [Op.Authenticate, Op.GetSites] else [Op.Authenticate]) ++ [op] := by
  rcases hat with ⟨hs, rid, _, hw, _⟩ | ⟨hs, hw, _⟩
  · subst hs hw
    simp [newCalls, NetworkClient.invoke, resolveSiteID_calls, afterAuthenticate_calls]
  · subst hs hw
    simp [newCalls, NetworkClient.invoke, afterAuthenticate_calls]

theorem atOperation_world {σ : Type} (nc : NetworkClient σ) (tok : String)
    (forSite : Bool) (w wB : World σ) (op : Op) (hat : AtOperation nc tok forSite w op wB) :
    wB = if forSite then (resolveSiteID nc tok (afterAuthenticate nc w)).2
      else afterAuthenticate nc w := by
  rcases hat with ⟨hs, rid, _, hw, _⟩ | ⟨hs, hw, _⟩
  · subst hs hw; rfl
  · subst hs hw; rfl

theorem atOperation_own {σ : Type} (nc : NetworkClient σ) (tok : String)
    (forSite : Bool) (w wB : World σ) (op op' : Op)
    (hat : AtOperation nc tok forSite w op' wB)
    (hmem : op ∈ (if forSite then [Op.Authenticate, Op.GetSites] else [Op.Authenticate])
      ++ [op'])
    (hna : op ≠ Op.Authenticate) (hns : forSite = true → op ≠ Op.GetSites) : op = op' := by
  rcases hat with ⟨hs, _⟩ | ⟨hs, _⟩
  · subst hs
    simp at hmem
    rcases hmem with h | h | h
    · exact absurd h hna
    · exact absurd h (hns rfl)
    · exact h
  · subst hs
    simp at hmem
    rcases hmem with h | h
    · exact absurd h hna
    · exact h

theorem toolErrorFromErr_eq (text : String) (e : GoError) :
    NewToolResultErrorFromErr text (some e) = CallToolResult.toolError (text ++ ": " ++ e.msg) :=
  rfl

theorem RunCase.of_auth_failed {σ : Type} {nc : NetworkClient σ} {tok failText : String}
    {forSite : Bool} {w : World σ} {out : Outcome × World σ}
    (hc : RunCase nc tok failText forSite w out) (e : GoError)
    (hreach : Op.Authenticate ∈ newCalls w out)
    (hfail : (nc.call Op.Authenticate w.state).1 = some e) :
    out = (Outcome.returned (NewToolResultErrorFromErr "Authentication failed" (some e)) none,
      afterAuthenticate nc w) := by
  cases hc with
  | rejected text hs => simp [newCalls_same] at hreach
  | authFailed e' ha =>
    rw [hfail] at ha
    cases ha
    rfl
  | rejectedAfterAuth text hs ha => rw [hfail] at ha; cases ha
  | stub data hs ha => rw [hfail] at ha; cases ha
  | resolveFailed rid e' hs ha hr => rw [hfail] at ha; cases ha
  | opFailed op e' wB ha hat he => rw [hfail] at ha; cases ha
  | opDone op wB o ha hat he hout => rw [hfail] at ha; cases ha

theorem RunCase.of_resolve_failed {σ : Type} {nc : NetworkClient σ} {tok failText : String}
    {forSite : Bool} {w : World σ} {out : Outcome × World σ}
    (hc : RunCase nc tok failText forSite w out) (hsite : forSite = true) (rid : String)
    (e : GoError) (hreach : Op.GetSites ∈ newCalls w out)
    (hfail : (resolveSiteID nc tok (afterAuthenticate nc w)).1 = (rid, some e)) :
    out = (Outcome.returned
        (NewToolResultErrorFromErr "Failed to resolve site ID" (some e)) none,
      (resolveSiteID nc tok (afterAuthenticate nc w)).2) := by
  cases hc with
  | rejected text hs => simp [newCalls_same] at hreach
  | authFailed e' ha => simp [newCalls_afterAuthenticate] at hreach
  | rejectedAfterAuth text hs ha => simp [newCalls_afterAuthenticate] at hreach
  | stub data hs ha => simp [newCalls_afterAuthenticate] at hreach
  | resolveFailed rid' e' hs ha hr =>
    rw [hfail] at hr
    cases hr
    rfl
  | opFailed op e' wB ha hat he =>
    rcases hat with ⟨_, rid', hr, _, _⟩ | ⟨hs, _⟩
    · rw [hfail] at hr; cases hr
    · rw [hsite] at hs; cases hs
  | opDone op wB o ha hat he hout =>
    rcases hat with ⟨_, rid', hr, _, _⟩ | ⟨hs, _⟩
    · rw [hfail] at hr; cases hr
    · rw [hsite] at hs; cases hs

theorem RunCase.of_op_failed {σ : Type} {nc : NetworkClient σ} {tok failText : String}
    {forSite : Bool} {w : World σ} {out : Outcome × World σ}
    (hc : RunCase nc tok failText forSite w out) (op : Op) (e : GoError)
    (hinv : op ∈ newCalls w out) (hna : op ≠ Op.Authenticate)
    (hns : forSite = true → op ≠ Op.GetSites)
    (hfail : op.err (nc.call op
      (if forSite then (resolveSiteID nc tok (afterAuthenticate nc w)).2
        else afterAuthenticate nc w).state).1 = some e) :
    out = (Outcome.returned (NewToolResultErrorFromErr failText (some e)) none,
      (nc.invoke op (if forSite then (resolveSiteID nc tok (afterAuthenticate nc w)).2
        else afterAuthenticate nc w)).2) := by
  cases hc with
  | rejected text hs => simp [newCalls_same] at hinv
  | authFailed e' ha =>
    simp [newCalls_afterAuthenticate] at hinv
    exact absurd hinv hna
  | rejectedAfterAuth text hs ha =>
    simp [newCalls_afterAuthenticate] at hinv
    exact absurd hinv hna
  | stub data hs ha =>
    simp [newCalls_afterAuthenticate] at hinv
    exact absurd hinv hna
  | resolveFailed rid' e' hs ha hr =>
    simp [newCalls_afterResolve] at hinv
    rcases hinv with h | h
    · exact absurd h hna
    · exact absurd h (hns hs)
  | opFailed op' e' wB ha hat he =>
    rw [newCalls_atOperation nc tok forSite w wB op' _ hat] at hinv
    have hop := atOperation_own nc tok forSite w wB op op' hat hinv hna hns
    subst hop
    rw [← atOperation_world nc tok forSite w wB op hat] at hfail ⊢
    rw [hfail] at he
    cases he
    rfl
  | opDone op' wB o ha hat he hout =>
    rw [newCalls_atOperation nc tok forSite w wB op' _ hat] at hinv
    have hop := atOperation_own nc tok forSite w wB op op' hat hinv hna hns
    subst hop
    rw [← atOperation_world nc tok forSite w wB op hat] at hfail
    rw [hfail] at he
    cases he

theorem RunCase.nil_error {σ : Type} {nc : NetworkClient σ} {tok failText : String}
    {forSite : Bool} {w : World σ} {out : Outcome × World σ}
    (hc : RunCase nc tok failText forSite w out) (result : CallToolResult)
    (err : Option GoError) (h : out.1 = Outcome.returned result err) : err = none := by
  cases hc with
  | rejected text hs => cases h; rfl
  | authFailed e' ha => cases h; rfl
  | rejectedAfterAuth text hs ha => cases h; rfl
  | stub data hs ha => cases h; rfl
  | resolveFailed rid' e' hs ha hr => cases h; rfl
  | opFailed op' e' wB ha hat he => cases h; rfl
  | opDone op' wB o ha hat he hout =>
    rcases hout with ⟨data, rfl⟩ | ⟨reason, rfl⟩
    · cases h; rfl
    · cases h

theorem RunCase.of_no_call {σ : Type} {nc : NetworkClient σ} {tok failText : String}
    {forSite : Bool} {w : World σ} {out : Outcome × World σ}
    (hc : RunCase nc tok failText forSite w out) (hnone : newCalls w out = []) :
    ∃ text, out = (Outcome.returned (CallToolResult.toolError text) none, w) := by
  cases hc with
  | rejected text hs => exact ⟨text, rfl⟩
  | authFailed e' ha => simp [newCalls_afterAuthenticate] at hnone
  | rejectedAfterAuth text hs ha => simp [newCalls_afterAuthenticate] at hnone
  | stub data hs ha => simp [newCalls_afterAuthenticate] at hnone
  | resolveFailed rid' e' hs ha hr => simp [newCalls_afterResolve] at hnone
  | opFailed op' e' wB ha hat he =>
    rw [newCalls_atOperation nc tok forSite w wB op' _ hat] at hnone
    simp at hnone
  | opDone op' wB o ha hat he hout =>
    rw [newCalls_atOperation nc tok forSite w wB op' _ hat] at hnone
    simp at hnone

theorem RunCase.of_auth_only {σ : Type} {nc : NetworkClient σ} {tok failText : String}
    {forSite : Bool} {w : World σ} {out : Outcome × World σ}
    (hc : RunCase nc tok failText forSite w out) (hsite : forSite = true)
    (honly : newCalls w out = [Op.Authenticate])
    (hauth : (nc.call Op.Authenticate w.state).1 = none) :
    ∃ text, out = (Outcome.returned (CallToolResult.toolError text) none,
      afterAuthenticate nc w) := by
  cases hc with
  | rejected text hs => simp [newCalls_same] at honly
  | authFailed e' ha => rw [hauth] at ha; cases ha
  | rejectedAfterAuth text hs ha => exact ⟨text, rfl⟩
  | stub data hs ha => rw [hsite] at hs; cases hs
  | resolveFailed rid' e' hs ha hr => simp [newCalls_afterResolve] at honly
  | opFailed op' e' wB ha hat he =>
    rw [newCalls_atOperation nc tok forSite w wB op' _ hat, hsite] at honly
    simp at honly
  | opDone op' wB o ha hat he hout =>
    rw [newCalls_atOperation nc tok forSite w wB op' _ hat, hsite] at honly
    simp at honly

theorem siteScoped_of_declared {σ : Type} (tool : ServerTool σ)
    (hsite : "site_id" ∈ tool.Properties.map (fun p => p.1)) : tool.siteScoped = true := by
  unfold ServerTool.siteScoped
  rw [List.any_eq_true]
  obtain ⟨p, hp, hk⟩ := List.mem_map.mp hsite
  exact ⟨p, hp, by simp [hk]⟩

/-! ## Failure paths of the registered tools -/

/-- C11: for every registered tool and every request on which the handler
reaches Authenticate, if Authenticate fails with `e` the result is the error
result "Authentication failed" wrapping `e`, paired with a nil error, and
Authenticate is the only collaborator operation invoked. -/
theorem authentication_failure_short_circuits {σ : Type} (nc : NetworkClient σ)
    (tool : ServerTool σ) (htool : tool ∈ registerTools nc) (request : CallToolRequest)
    (w : World σ) (e : GoError)
    (hreach : Op.Authenticate ∈ newCalls w (tool.Handler request w))
    (hfail : (nc.call Op.Authenticate w.state).1 = some e) :
    (tool.Handler request w).1
      = Outcome.returned (NewToolResultErrorFromErr "Authentication failed" (some e)) none ∧
    NewToolResultErrorFromErr "Authentication failed" (some e)
      = CallToolResult.toolError ("Authentication failed" ++ ": " ++ e.msg) ∧
    newCalls w (tool.Handler request w) = [Op.Authenticate] := by
  have hrun := (registerTools_cases nc tool htool request w).of_auth_failed e hreach hfail
  rw [hrun]
  exact ⟨rfl, toolErrorFromErr_eq _ e, newCalls_afterAuthenticate nc w _⟩

theorem authentication_failure_short_circuits_witness :
    devicesToolOver failingAuthClient ∈ registerTools failingAuthClient ∧
    Op.Authenticate ∈
      newCalls World.fresh ((devicesToolOver failingAuthClient).Handler emptyRequest World.fresh) ∧
    (failingAuthClient.call Op.Authenticate World.fresh.state).1 = some ⟨"401 unauthorized"⟩ ∧
    ((devicesToolOver failingAuthClient).Handler emptyRequest World.fresh).1
      = Outcome.returned
          (NewToolResultErrorFromErr "Authentication failed" (some ⟨"401 unauthorized"⟩)) none ∧
    newCalls World.fresh ((devicesToolOver failingAuthClient).Handler emptyRequest World.fresh)
      = [Op.Authenticate] :=
  ⟨List.Mem.tail _ (List.Mem.head _), List.Mem.head _, rfl,
    (authentication_failure_short_circuits failingAuthClient (devicesToolOver failingAuthClient)
      (List.Mem.tail _ (List.Mem.head _)) emptyRequest World.fresh ⟨"401 unauthorized"⟩
      (List.Mem.head _) rfl).1,
    (authentication_failure_short_circuits failingAuthClient (devicesToolOver failingAuthClient)
      (List.Mem.tail _ (List.Mem.head _)) emptyRequest World.fresh ⟨"401 unauthorized"⟩
      (List.Mem.head _) rfl).2.2⟩

/-- C15: for every registered tool that declares a `site_id` argument and
every request on which the handler reaches site resolution, if resolution fails
with `e` (the site fetch failed with `e`, or the fetched list was empty and `e`
is "no sites available") the result is the error result "Failed to resolve site
ID" wrapping `e`, and the calls are Authenticate and GetSites only: the tool's
own operation is not invoked. -/
theorem resolution_failure_short_circuits {σ : Type} (nc : NetworkClient σ)
    (tool : ServerTool σ) (htool : tool ∈ registerTools nc)
    (hsite : "site_id" ∈ tool.Properties.map (fun p => p.1))
    (request : CallToolRequest) (w : World σ) (rid : String) (e : GoError)
    (hreach : Op.GetSites ∈ newCalls w (tool.Handler request w))
    (hfail : resolved nc request w = (rid, some e)) :
    (tool.Handler request w).1
      = Outcome.returned
          (NewToolResultErrorFromErr "Failed to resolve site ID" (some e)) none ∧
    NewToolResultErrorFromErr "Failed to resolve site ID" (some e)
      = CallToolResult.toolError ("Failed to resolve site ID" ++ ": " ++ e.msg) ∧
    newCalls w (tool.Handler request w) = [Op.Authenticate, Op.GetSites] ∧
    (∀ sites e', (nc.call Op.GetSites (afterAuthenticate nc w).state).1 = (sites, some e') →
      e = e') ∧
    ((nc.call Op.GetSites (afterAuthenticate nc w).state).1 = ([], none) →
      e = fmtErrorf "no sites available") := by
  have hs := siteScoped_of_declared tool hsite
  have hrun := (registerTools_cases nc tool htool request w).of_resolve_failed hs rid e
    hreach hfail
  rw [hrun]
  refine ⟨rfl, toolErrorFromErr_eq _ e, newCalls_afterResolve nc _ w _, ?_, ?_⟩
  · intro sites e' hget
    have h := resolveSiteID_fetch_failed nc (request.GetString "site_id" "")
      (afterAuthenticate nc w) sites e' hget
    have h2 : (rid, some e) = ("", some e') := hfail.symm.trans h
    cases h2
    rfl
  · intro hget
    have h := resolveSiteID_empty nc (request.GetString "site_id" "")
      (afterAuthenticate nc w) hget
    have h2 : (rid, some e) = ("", some (fmtErrorf "no sites available")) :=
      hfail.symm.trans h
    cases h2
    rfl

theorem resolution_failure_short_circuits_witness :
    devicesToolOver (siteClient []) ∈ registerTools (siteClient []) ∧
    "site_id" ∈ (devicesToolOver (siteClient [])).Properties.map (fun p => p.1) ∧
    Op.GetSites ∈
      newCalls World.fresh ((devicesToolOver (siteClient [])).Handler emptyRequest World.fresh) ∧
    resolved (siteClient []) emptyRequest World.fresh
      = ("", some (fmtErrorf "no sites available")) ∧
    ((devicesToolOver (siteClient [])).Handler emptyRequest World.fresh).1
      = Outcome.returned
          (NewToolResultErrorFromErr "Failed to resolve site ID"
            (some (fmtErrorf "no sites available"))) none ∧
    newCalls World.fresh ((devicesToolOver (siteClient [])).Handler emptyRequest World.fresh)
      = [Op.Authenticate, Op.GetSites] :=
  ⟨List.Mem.tail _ (List.Mem.head _), List.Mem.head _, List.Mem.tail _ (List.Mem.head _), rfl,
    (resolution_failure_short_circuits (siteClient []) (devicesToolOver (siteClient []))
      (List.Mem.tail _ (List.Mem.head _)) (List.Mem.head _) emptyRequest World.fresh ""
      (fmtErrorf "no sites available") (List.Mem.tail _ (List.Mem.head _)) rfl).1,
    (resolution_failure_short_circuits (siteClient []) (devicesToolOver (siteClient []))
      (List.Mem.tail _ (List.Mem.head _)) (List.Mem.head _) emptyRequest World.fresh ""
      (fmtErrorf "no sites available") (List.Mem.tail _ (List.Mem.head _)) rfl).2.2.1⟩

/-- C16: for every registered tool, when the handler has invoked its own
collaborator operation `op` (an operation other than Authenticate and other than
the GetSites of site resolution) and that invocation fails with `e`, the result
is the error result with the tool's own failure text wrapping `e`, and the calls
are the stage calls followed by `op`, once: there is no retry and no success
envelope. -/
theorem operation_failure_is_reported {σ : Type} (nc : NetworkClient σ)
    (tool : ServerTool σ) (htool : tool ∈ registerTools nc) (request : CallToolRequest)
    (w : World σ) (op : Op) (e : GoError)
    (hinv : op ∈ newCalls w (tool.Handler request w))
    (hna : op ≠ Op.Authenticate)
    (hns : tool.siteScoped = true → op ≠ Op.GetSites)
    (hfail : op.err (nc.call op (operationWorld nc tool request w).state).1 = some e) :
    (tool.Handler request w).1
      = Outcome.returned (NewToolResultErrorFromErr (failureText tool.Name) (some e)) none ∧
    NewToolResultErrorFromErr (failureText tool.Name) (some e)
      = CallToolResult.toolError (failureText tool.Name ++ ": " ++ e.msg) ∧
    newCalls w (tool.Handler request w) = stageCalls tool ++ [op] ∧
    (tool.Handler request w).2 = (nc.invoke op (operationWorld nc tool request w)).2 := by
  have hc := registerTools_cases nc tool htool request w
  have hw : operationWorld nc tool request w
      = if tool.siteScoped then
          (resolveSiteID nc (request.GetString "site_id" "") (afterAuthenticate nc w)).2
        else afterAuthenticate nc w := rfl
  rw [hw] at hfail ⊢
  have hrun := hc.of_op_failed op e hinv hna hns hfail
  rw [hrun]
  refine ⟨rfl, toolErrorFromErr_eq _ e, ?_, rfl⟩
  unfold stageCalls
  cases hsc : tool.siteScoped
  · simp [newCalls, NetworkClient.invoke, afterAuthenticate_calls]
  · simp [newCalls, NetworkClient.invoke, afterAuthenticate_calls, resolveSiteID_calls]

theorem operation_failure_is_reported_witness :
    devicesToolOver failingOpClient ∈ registerTools failingOpClient ∧
    Op.GetDevices "ext-1" ∈
      newCalls World.fresh ((devicesToolOver failingOpClient).Handler emptyRequest World.fresh) ∧
    (Op.GetDevices "ext-1").err (failingOpClient.call (Op.GetDevices "ext-1")
        (operationWorld failingOpClient (devicesToolOver failingOpClient) emptyRequest
          World.fresh).state).1 = some ⟨"500 internal error"⟩ ∧
    ((devicesToolOver failingOpClient).Handler emptyRequest World.fresh).1
      = Outcome.returned
          (NewToolResultErrorFromErr "Failed to get devices" (some ⟨"500 internal error"⟩))
          none ∧
    newCalls World.fresh ((devicesToolOver failingOpClient).Handler emptyRequest World.fresh)
      = [Op.Authenticate, Op.GetSites, Op.GetDevices "ext-1"] :=
  ⟨List.Mem.tail _ (List.Mem.head _),
    List.Mem.tail _ (List.Mem.tail _ (List.Mem.head _)), rfl,
    (operation_failure_is_reported failingOpClient (devicesToolOver failingOpClient)
      (List.Mem.tail _ (List.Mem.head _)) emptyRequest World.fresh (Op.GetDevices "ext-1")
      ⟨"500 internal error"⟩ (List.Mem.tail _ (List.Mem.tail _ (List.Mem.head _)))
      (fun h => Op.noConfusion h) (fun _ h => Op.noConfusion h) rfl).1,
    (operation_failure_is_reported failingOpClient (devicesToolOver failingOpClient)
      (List.Mem.tail _ (List.Mem.head _)) emptyRequest World.fresh (Op.GetDevices "ext-1")
      ⟨"500 internal error"⟩ (List.Mem.tail _ (List.Mem.tail _ (List.Mem.head _)))
      (fun h => Op.noConfusion h) (fun _ h => Op.noConfusion h) rfl).2.2.1⟩

/-- C17: for every registered tool, an error result is never paired with a
non-nil Go error, and each of the four failure kinds ends in an error result
paired with a nil error: rejection by validation (no call made, or for a site-scoped tool
nothing after a successful Authenticate), failed authentication, failed site
resolution, and failure of the tool's own operation. -/
theorem failures_are_error_results {σ : Type} (nc : NetworkClient σ)
    (tool : ServerTool σ) (htool : tool ∈ registerTools nc) (request : CallToolRequest)
    (w : World σ) :
    (∀ text err, (tool.Handler request w).1
        = Outcome.returned (CallToolResult.toolError text) err → err = none) ∧
    (newCalls w (tool.Handler request w) = [] →
      ∃ text, (tool.Handler request w).1
        = Outcome.returned (CallToolResult.toolError text) none) ∧
    (tool.siteScoped = true → newCalls w (tool.Handler request w) = [Op.Authenticate] →
      (nc.call Op.Authenticate w.state).1 = none →
      ∃ text, (tool.Handler request w).1
        = Outcome.returned (CallToolResult.toolError text) none) ∧
    (∀ e, Op.Authenticate ∈ newCalls w (tool.Handler request w) →
      (nc.call Op.Authenticate w.state).1 = some e →
      ∃ text, (tool.Handler request w).1
        = Outcome.returned (CallToolResult.toolError text) none) ∧
    (∀ rid e, tool.siteScoped = true → Op.GetSites ∈ newCalls w (tool.Handler request w) →
      resolved nc request w = (rid, some e) →
      ∃ text, (tool.Handler request w).1
        = Outcome.returned (CallToolResult.toolError text) none) ∧
    (∀ op e, op ∈ newCalls w (tool.Handler request w) → op ≠ Op.Authenticate →
      (tool.siteScoped = true → op ≠ Op.GetSites) →
      op.err (nc.call op (operationWorld nc tool request w).state).1 = some e →
      ∃ text, (tool.Handler request w).1
        = Outcome.returned (CallToolResult.toolError text) none) := by
  have hc := registerTools_cases nc tool htool request w
  refine ⟨fun text err h => hc.nil_error _ err h, fun h => ?_, fun hs h ha => ?_,
    fun e h ha => ?_, fun rid e hs h hr => ?_, fun op e h hna hns he => ?_⟩
  · obtain ⟨text, ht⟩ := hc.of_no_call h
    exact ⟨text, by rw [ht]⟩
  · obtain ⟨text, ht⟩ := hc.of_auth_only hs h ha
    exact ⟨text, by rw [ht]⟩
  · have ht := hc.of_auth_failed e h ha
    exact ⟨_, by rw [ht, toolErrorFromErr_eq]⟩
  · have ht := hc.of_resolve_failed hs rid e h hr
    exact ⟨_, by rw [ht, toolErrorFromErr_eq]⟩
  · have ht := hc.of_op_failed op e h hna hns he
    exact ⟨_, by rw [ht, toolErrorFromErr_eq]⟩

theorem failures_are_error_results_witness :
    devicesToolOver failingAuthClient ∈ registerTools failingAuthClient ∧
    Op.Authenticate ∈
      newCalls World.fresh ((devicesToolOver failingAuthClient).Handler emptyRequest World.fresh) ∧
    (failingAuthClient.call Op.Authenticate World.fresh.state).1 = some ⟨"401 unauthorized"⟩ ∧
    (∃ text, ((devicesToolOver failingAuthClient).Handler emptyRequest World.fresh).1
      = Outcome.returned (CallToolResult.toolError text) none) :=
  ⟨List.Mem.tail _ (List.Mem.head _), List.Mem.head _, rfl,
    (failures_are_error_results failingAuthClient (devicesToolOver failingAuthClient)
      (List.Mem.tail _ (List.Mem.head _)) emptyRequest World.fresh).2.2.2.1
      ⟨"401 unauthorized"⟩ (List.Mem.head _) rfl⟩

/-! ## Site resolver: fetch failure -/

/-- C18: when GetSites fails with `e`, `resolveSiteID` returns the empty
identifier together with exactly `e`, whatever the token and whatever list came
with the error, and it has made that one GetSites call. -/
theorem resolveSiteID_propagates_fetch_error {σ : Type} (nc : NetworkClient σ)
    (w : World σ) (tok : String) (sites : List Site) (e : GoError)
    (hget : (nc.call Op.GetSites w.state).1 = (sites, some e)) :
    (resolveSiteID nc tok w).1 = ("", some e) ∧
    (resolveSiteID nc tok w).2.calls = w.calls ++ [Op.GetSites] := by
  refine ⟨?_, resolveSiteID_calls nc tok w⟩
  unfold resolveSiteID
  simp only [bind, pure, NetworkClient.invoke, hget]

theorem resolveSiteID_propagates_fetch_error_witness :
    (failingSitesClient.call Op.GetSites World.fresh.state).1
      = ([], some ⟨"503 unavailable"⟩) ∧
    (resolveSiteID failingSitesClient "default" World.fresh).1
      = ("", some ⟨"503 unavailable"⟩) ∧
    (resolveSiteID failingSitesClient "" World.fresh).1 = ("", some ⟨"503 unavailable"⟩) :=
  ⟨rfl,
    (resolveSiteID_propagates_fetch_error failingSitesClient World.fresh "default" []
      ⟨"503 unavailable"⟩ rfl).1,
    (resolveSiteID_propagates_fetch_error failingSitesClient World.fresh "" []
      ⟨"503 unavailable"⟩ rfl).1⟩

/-! ## Envelopes of the mutations -/

theorem lookup_filter_ne (m : GoMap) (k k' : String) (h : k' ≠ k) :
    List.lookup k' (m.filter (fun e => e.1 ≠ k)) = List.lookup k' m := by
  induction m with
  | nil => rfl
  | cons p t ih =>
    obtain ⟨a, b⟩ := p
    simp only [ne_eq, decide_not] at ih
    by_cases hak : a = k
    · subst hak
      have hne : (k' == a) = false := by simpa using h
      simp [List.filter, List.lookup, hne, ih]
    · by_cases hka : k' = a
      · subst hka
        simp [List.filter, List.lookup, hak]
      · have hne : (k' == a) = false := by simpa using hka
        simp [List.filter, List.lookup, hak, hne, ih]

theorem GoMap.lookup_set_self (m : GoMap) (k : String) (v : Value) :
    List.lookup k (m.set k v) = some v := by
  simp [GoMap.set, List.lookup]

theorem GoMap.lookup_set_other (m : GoMap) (k k' : String) (v : Value) (h : k' ≠ k) :
    List.lookup k' (m.set k v) = List.lookup k' m := by
  have hne : (k' == k) = false := by simpa using h
  simp only [GoMap.set, List.lookup, hne]
  exact lookup_filter_ne m k k' h

theorem isMerge_set (m : GoMap) (idKey id rid : String)
    (h1 : idKey ≠ "site_id") (h2 : idKey ≠ "success") :
    IsMerge m (((m.set "success" (Value.bool true)).set idKey (Value.str id)).set "site_id"
      (Value.str rid)) idKey id rid := by
  refine ⟨?_, ?_, ?_, ?_⟩
  · rw [GoMap.lookup_set_other _ _ _ _ (by decide),
      GoMap.lookup_set_other _ _ _ _ (Ne.symm h2), GoMap.lookup_set_self]
  · rw [GoMap.lookup_set_other _ _ _ _ h1, GoMap.lookup_set_self]
  · rw [GoMap.lookup_set_self]
  · intro k hk1 hk2 hk3
    rw [GoMap.lookup_set_other _ _ _ _ hk3, GoMap.lookup_set_other _ _ _ _ hk2,
      GoMap.lookup_set_other _ _ _ _ hk1]

theorem asMap_index_obj (args : GoMap) (k : String) (m : GoMap)
    (h : args.lookup k = some (Value.obj m)) : (args.index k).asMap = some m := by
  unfold GoMap.index
  rw [h]
  rfl

theorem GetString_supplied (request : CallToolRequest) (key d s : String)
    (h : request.GetArguments.lookup key = some (Value.str s)) :
    request.GetString key d = s := by
  unfold CallToolRequest.GetString
  rw [h]

theorem patch_success {σ : Type} (nc : NetworkClient σ) (tok failText idKey id : String)
    (run : String → Exec σ (Option GoMap × Option GoError)) (w : World σ) (rid : String)
    (result : Option GoMap) (data : Value)
    (h1 : idKey ≠ "site_id") (h2 : idKey ≠ "success")
    (hauth : (nc.call Op.Authenticate w.state).1 = none)
    (hres : (resolveSiteID nc tok (afterAuthenticate nc w)).1 = (rid, none))
    (hget : (run rid (resolveSiteID nc tok (afterAuthenticate nc w)).2).1 = (result, none))
    (hok : (authThen nc (resolveThen nc tok (fun rid =>
        opThen (run rid) failText (fun result =>
          match result with
          | some result =>
            pure (NewToolResultJSON (Value.obj
              (((result.set "success" (Value.bool true)).set idKey
                (Value.str id)).set "site_id" (Value.str rid))))
          | _ => pure (Outcome.panicked "assignment to entry in nil map")))) w).1
      = Outcome.returned (CallToolResult.toolJSON data) none) :
    ∃ m merged, result = some m ∧ data = Value.obj merged ∧ IsMerge m merged idKey id rid := by
  rw [authThen_passed nc _ w hauth, resolveThen_passed nc _ _ _ rid hres,
    opThen_passed _ _ _ _ result hget] at hok
  cases result with
  | none => simp [pure] at hok
  | some m =>
    simp only [pure, NewToolResultJSON, Outcome.returned.injEq, CallToolResult.toolJSON.injEq,
      and_true] at hok
    exact ⟨m, _, rfl, hok.symm, isMerge_set m idKey id rid h1 h2⟩

/-- C12: for each patch handler, when the request carries a settings object
and the target identifier `id`, Authenticate and site resolution succeed with
`rid`, the collaborator's Patch call returns `result` with a nil error and the
handler ends in a success envelope, then `result` is a mapping `m` and the
envelope is `m` with exactly three keys set: `success` to true, the target
identifier key to `id` and `site_id` to `rid`; every other key reads as in `m`,
and whatever `m` held under the three keys is overwritten. -/
theorem patch_merges_into_mapping {σ : Type} (nc : NetworkClient σ)
    (request : CallToolRequest) (w : World σ) (settings : GoMap) (id rid : String)
    (result : Option GoMap) (data : Value)
    (hset : request.GetArguments.lookup "settings" = some (Value.obj settings))
    (hauth : (nc.call Op.Authenticate w.state).1 = none)
    (hres : resolved nc request w = (rid, none)) :
    (request.GetArguments.lookup "network_id" = some (Value.str id) →
      (nc.call (Op.PatchWiFiNetwork rid id settings) (afterResolve nc request w).state).1
        = (result, none) →
      (patchWiFiNetwork nc request w).1 = Outcome.returned (CallToolResult.toolJSON data) none →
      ∃ m merged, result = some m ∧ data = Value.obj merged ∧
        IsMerge m merged "network_id" id rid) ∧
    (request.GetArguments.lookup "zone_id" = some (Value.str id) →
      (nc.call (Op.PatchFirewallZone rid id settings) (afterResolve nc request w).state).1
        = (result, none) →
      (patchFirewallZone nc request w).1 = Outcome.returned (CallToolResult.toolJSON data) none →
      ∃ m merged, result = some m ∧ data = Value.obj merged ∧
        IsMerge m merged "zone_id" id rid) ∧
    (request.GetArguments.lookup "rule_id" = some (Value.str id) →
      (nc.call (Op.PatchACLRule rid id settings) (afterResolve nc request w).state).1
        = (result, none) →
      (patchACLRule nc request w).1 = Outcome.returned (CallToolResult.toolJSON data) none →
      ∃ m merged, result = some m ∧ data = Value.obj merged ∧
        IsMerge m merged "rule_id" id rid) ∧
    (request.GetArguments.lookup "voucher_id" = some (Value.str id) →
      (nc.call (Op.PatchHotspotVoucher rid id settings) (afterResolve nc request w).state).1
        = (result, none) →
      (patchHotspotVoucher nc request w).1 = Outcome.returned (CallToolResult.toolJSON data) none →
      ∃ m merged, result = some m ∧ data = Value.obj merged ∧
        IsMerge m merged "voucher_id" id rid) ∧
    (request.GetArguments.lookup "rule_id" = some (Value.str id) →
      (nc.call (Op.PatchTrafficRule rid id settings) (afterResolve nc request w).state).1
        = (result, none) →
      (patchTrafficRule nc request w).1 = Outcome.returned (CallToolResult.toolJSON data) none →
      ∃ m merged, result = some m ∧ data = Value.obj merged ∧
        IsMerge m merged "rule_id" id rid) := by
  have hs := asMap_index_obj _ _ _ hset
  refine ⟨?_, ?_, ?_, ?_, ?_⟩
  · intro hid hget hok
    have hi := GetString_supplied request "network_id" "" id hid
    rw [patchWiFiNetwork_steps, hs, hi] at hok
    by_cases hempty : id = ""
    · simp [hempty, pure, NewToolResultError] at hok
    · simp only [hempty, if_false] at hok
      exact patch_success nc _ _ "network_id" id (fun rid => nc.invoke (Op.PatchWiFiNetwork rid id settings))
        w rid result data (by decide) (by decide) hauth hres hget hok
  · intro hid hget hok
    have hi := GetString_supplied request "zone_id" "" id hid
    rw [patchFirewallZone_steps, hs, hi] at hok
    by_cases hempty : id = ""
    · simp [hempty, pure, NewToolResultError] at hok
    · simp only [hempty, if_false] at hok
      exact patch_success nc _ _ "zone_id" id (fun rid => nc.invoke (Op.PatchFirewallZone rid id settings))
        w rid result data (by decide) (by decide) hauth hres hget hok
  · intro hid hget hok
    have hi := GetString_supplied request "rule_id" "" id hid
    rw [patchACLRule_steps, hs, hi] at hok
    by_cases hempty : id = ""
    · simp [hempty, pure, NewToolResultError] at hok
    · simp only [hempty, if_false] at hok
      exact patch_success nc _ _ "rule_id" id (fun rid => nc.invoke (Op.PatchACLRule rid id settings))
        w rid result data (by decide) (by decide) hauth hres hget hok
  · intro hid hget hok
    have hi := GetString_supplied request "voucher_id" "" id hid
    rw [patchHotspotVoucher_steps, hs, hi] at hok
    by_cases hempty : id = ""
    · simp [hempty, pure, NewToolResultError] at hok
    · simp only [hempty, if_false] at hok
      exact patch_success nc _ _ "voucher_id" id (fun rid => nc.invoke (Op.PatchHotspotVoucher rid id settings))
        w rid result data (by decide) (by decide) hauth hres hget hok
  · intro hid hget hok
    have hi := GetString_supplied request "rule_id" "" id hid
    rw [patchTrafficRule_steps, hs, hi] at hok
    by_cases hempty : id = ""
    · simp [hempty, pure, NewToolResultError] at hok
    · simp only [hempty, if_false] at hok
      exact patch_success nc _ _ "rule_id" id (fun rid => nc.invoke (Op.PatchTrafficRule rid id settings))
        w rid result data (by decide) (by decide) hauth hres hget hok

theorem patch_merges_into_mapping_witness :
    mutationRequest.GetArguments.lookup "settings"
      = some (Value.obj [("enabled", Value.bool true)]) ∧
    (mappingClient.call Op.Authenticate World.fresh.state).1 = none ∧
    resolved mappingClient mutationRequest World.fresh = ("ext-1", none) ∧
    (patchWiFiNetwork mappingClient mutationRequest World.fresh).1
      = Outcome.returned (CallToolResult.toolJSON (Value.obj [
          ("site_id", Value.str "ext-1"),
          ("network_id", Value.str "n1"),
          ("success", Value.bool true),
          ("name", Value.str "lan")])) none ∧
    (∃ m merged,
      some [("name", Value.str "lan"), ("site_id", Value.str "stale"),
        ("success", Value.bool false)] = some m ∧
      Value.obj [
          ("site_id", Value.str "ext-1"),
          ("network_id", Value.str "n1"),
          ("success", Value.bool true),
          ("name", Value.str "lan")] = Value.obj merged ∧
      IsMerge m merged "network_id" "n1" "ext-1") :=
  ⟨rfl, rfl, rfl, rfl,
    (patch_merges_into_mapping mappingClient mutationRequest World.fresh
      [("enabled", Value.bool true)] "n1" "ext-1"
      (some [("name", Value.str "lan"), ("site_id", Value.str "stale"),
        ("success", Value.bool false)])
      (Value.obj [
          ("site_id", Value.str "ext-1"),
          ("network_id", Value.str "n1"),
          ("success", Value.bool true),
          ("name", Value.str "lan")])
      rfl rfl rfl).1 rfl rfl rfl⟩

/-- C13: for each create handler, when the request carries a config object,
Authenticate and site resolution succeed with `rid` and the collaborator's Create
call returns `entity` with a nil error, the envelope has exactly three fields:
`success` true, the created entity under the operation's key, and `site_id`
`rid`. -/
theorem create_wraps_entity {σ : Type} (nc : NetworkClient σ) (request : CallToolRequest)
    (w : World σ) (config : GoMap) (rid : String) (entity : Value)
    (hcfg : request.GetArguments.lookup "config" = some (Value.obj config))
    (hauth : (nc.call Op.Authenticate w.state).1 = none)
    (hres : resolved nc request w = (rid, none)) :
    ((nc.call (Op.CreateWiFiNetwork rid config) (afterResolve nc request w).state).1 = (entity, none) →
      (createWiFiNetwork nc request w).1
        = Outcome.returned (CallToolResult.toolJSON (Value.obj [
            ("success", Value.bool true),
            ("network", entity),
            ("site_id", Value.str rid)])) none) ∧
    ((nc.call (Op.CreateFirewallZone rid config) (afterResolve nc request w).state).1 = (entity, none) →
      (createFirewallZone nc request w).1
        = Outcome.returned (CallToolResult.toolJSON (Value.obj [
            ("success", Value.bool true),
            ("zone", entity),
            ("site_id", Value.str rid)])) none) ∧
    ((nc.call (Op.CreateACLRule rid config) (afterResolve nc request w).state).1 = (entity, none) →
      (createACLRule nc request w).1
        = Outcome.returned (CallToolResult.toolJSON (Value.obj [
            ("success", Value.bool true),
            ("rule", entity),
            ("site_id", Value.str rid)])) none) ∧
    ((nc.call (Op.CreateHotspotVoucher rid config) (afterResolve nc request w).state).1 = (entity, none) →
      (createHotspotVoucher nc request w).1
        = Outcome.returned (CallToolResult.toolJSON (Value.obj [
            ("success", Value.bool true),
            ("voucher", entity),
            ("site_id", Value.str rid)])) none) ∧
    ((nc.call (Op.CreateTrafficRule rid config) (afterResolve nc request w).state).1 = (entity, none) →
      (createTrafficRule nc request w).1
        = Outcome.returned (CallToolResult.toolJSON (Value.obj [
            ("success", Value.bool true),
            ("rule", entity),
            ("site_id", Value.str rid)])) none) ∧
    ((nc.call (Op.CreateVPNTunnel rid config) (afterResolve nc request w).state).1 = (entity, none) →
      (createVPNTunnel nc request w).1
        = Outcome.returned (CallToolResult.toolJSON (Value.obj [
            ("success", Value.bool true),
            ("tunnel", entity),
            ("site_id", Value.str rid)])) none) := by
  have hs := asMap_index_obj _ _ _ hcfg
  refine ⟨?_, ?_, ?_, ?_, ?_, ?_⟩
  · intro hget
    have hget' : (nc.invoke (Op.CreateWiFiNetwork rid config) (resolveSiteID nc (request.GetString "site_id" "") (afterAuthenticate nc w)).2).1 = (entity, none) := hget
    rw [createWiFiNetwork_steps, hs]
    simp only []
    rw [authThen_passed nc _ w hauth, resolveThen_passed nc _ _ _ rid hres,
      opThen_passed _ _ _ _ entity hget']
    rfl
  · intro hget
    have hget' : (nc.invoke (Op.CreateFirewallZone rid config) (resolveSiteID nc (request.GetString "site_id" "") (afterAuthenticate nc w)).2).1 = (entity, none) := hget
    rw [createFirewallZone_steps, hs]
    simp only []
    rw [authThen_passed nc _ w hauth, resolveThen_passed nc _ _ _ rid hres,
      opThen_passed _ _ _ _ entity hget']
    rfl
  · intro hget
    have hget' : (nc.invoke (Op.CreateACLRule rid config) (resolveSiteID nc (request.GetString "site_id" "") (afterAuthenticate nc w)).2).1 = (entity, none) := hget
    rw [createACLRule_steps, hs]
    simp only []
    rw [authThen_passed nc _ w hauth, resolveThen_passed nc _ _ _ rid hres,
      opThen_passed _ _ _ _ entity hget']
    rfl
  · intro hget
    have hget' : (nc.invoke (Op.CreateHotspotVoucher rid config) (resolveSiteID nc (request.GetString "site_id" "") (afterAuthenticate nc w)).2).1 = (entity, none) := hget
    rw [createHotspotVoucher_steps, hs]
    simp only []
    rw [authThen_passed nc _ w hauth, resolveThen_passed nc _ _ _ rid hres,
      opThen_passed _ _ _ _ entity hget']
    rfl
  · intro hget
    have hget' : (nc.invoke (Op.CreateTrafficRule rid config) (resolveSiteID nc (request.GetString "site_id" "") (afterAuthenticate nc w)).2).1 = (entity, none) := hget
    rw [createTrafficRule_steps, hs]
    simp only []
    rw [authThen_passed nc _ w hauth, resolveThen_passed nc _ _ _ rid hres,
      opThen_passed _ _ _ _ entity hget']
    rfl
  · intro hget
    have hget' : (nc.invoke (Op.CreateVPNTunnel rid config) (resolveSiteID nc (request.GetString "site_id" "") (afterAuthenticate nc w)).2).1 = (entity, none) := hget
    rw [createVPNTunnel_steps, hs]
    simp only []
    rw [authThen_passed nc _ w hauth, resolveThen_passed nc _ _ _ rid hres,
      opThen_passed _ _ _ _ entity hget']
    rfl

theorem create_wraps_entity_witness :
    mutationRequest.GetArguments.lookup "config"
      = some (Value.obj [("name", Value.str "guest")]) ∧
    (mappingClient.call Op.Authenticate World.fresh.state).1 = none ∧
    resolved mappingClient mutationRequest World.fresh = ("ext-1", none) ∧
    (mappingClient.call (Op.CreateVPNTunnel "ext-1" [("name", Value.str "guest")])
      (afterResolve mappingClient mutationRequest World.fresh).state).1
      = (Value.str "created", none) ∧
    (createVPNTunnel mappingClient mutationRequest World.fresh).1
      = Outcome.returned (CallToolResult.toolJSON (Value.obj [
          ("success", Value.bool true),
          ("tunnel", Value.str "created"),
          ("site_id", Value.str "ext-1")])) none :=
  ⟨rfl, rfl, rfl, rfl,
    (create_wraps_entity mappingClient mutationRequest World.fresh
      [("name", Value.str "guest")] "ext-1" (Value.str "created") rfl rfl rfl).2.2.2.2.2 rfl⟩

/-! ## Envelopes of the list reads -/

/-- C14: for every list-returning read handler, when Authenticate (and, for
a site-scoped handler, site resolution with result `rid`) succeeds and the
collaborator returns the list `items` with a nil error, the success envelope
carries that list unmodified under the handler's payload key and `count` equal
to its number of elements. -/
theorem list_reads_count_payload {σ : Type} (nc : NetworkClient σ)
    (request : CallToolRequest) (w : World σ)
    (hauth : (nc.call Op.Authenticate w.state).1 = none) :
    (∀ sites, (nc.call Op.GetSites (afterAuthenticate nc w).state).1 = (sites, none) →
      (getNetworkSites nc request w).1
        = Outcome.returned (CallToolResult.toolJSON (Value.obj [
            ("sites", Value.list (sites.map Value.site)),
            ("count", Value.int sites.length)])) none) ∧
    (∀ items, (nc.call Op.GetPendingDevices (afterAuthenticate nc w).state).1 = (items, none) →
      (getPendingDevices nc request w).1
        = Outcome.returned (CallToolResult.toolJSON (Value.obj [
            ("devices", Value.list items),
            ("count", Value.int items.length)])) none) ∧
    (∀ items, (nc.call Op.GetDPICategories (afterAuthenticate nc w).state).1 = (items, none) →
      (getDPICategories nc request w).1
        = Outcome.returned (CallToolResult.toolJSON (Value.obj [
            ("categories", Value.list items),
            ("count", Value.int items.length)])) none) ∧
    (∀ items, (nc.call Op.GetDPIApplications (afterAuthenticate nc w).state).1 = (items, none) →
      (getDPIApps nc request w).1
        = Outcome.returned (CallToolResult.toolJSON (Value.obj [
            ("apps", Value.list items),
            ("count", Value.int items.length)])) none) ∧
    (∀ items, (nc.call Op.GetDPIApplications (afterAuthenticate nc w).state).1 = (items, none) →
      (getDPIApplications nc request w).1
        = Outcome.returned (CallToolResult.toolJSON (Value.obj [
            ("applications", Value.list items),
            ("count", Value.int items.length)])) none) ∧
    (∀ rid, resolved nc request w = (rid, none) →
      (∀ items, (nc.call (Op.GetDevices rid) (afterResolve nc request w).state).1 = (items, none) →
        (getNetworkDevices nc request w).1
          = Outcome.returned (CallToolResult.toolJSON (Value.obj [
              ("devices", Value.list items),
              ("count", Value.int items.length),
              ("site_id", Value.str rid)])) none) ∧
      (∀ items, (nc.call (Op.GetWiFiNetworks rid) (afterResolve nc request w).state).1 = (items, none) →
        (getWiFiNetworks nc request w).1
          = Outcome.returned (CallToolResult.toolJSON (Value.obj [
              ("networks", Value.list items),
              ("count", Value.int items.length),
              ("site_id", Value.str rid)])) none) ∧
      (∀ items, (nc.call (Op.GetWiFiBroadcasts rid) (afterResolve nc request w).state).1 = (items, none) →
        (getWiFiBroadcasts nc request w).1
          = Outcome.returned (CallToolResult.toolJSON (Value.obj [
              ("broadcasts", Value.list items),
              ("count", Value.int items.length),
              ("site_id", Value.str rid)])) none) ∧
      (∀ items, (nc.call (Op.GetClients rid (request.GetInt "limit" 25) (request.GetInt "offset" 0)) (afterResolve nc request w).state).1 = (items, none) →
        (getNetworkClients nc request w).1
          = Outcome.returned (CallToolResult.toolJSON (Value.obj [
              ("clients", Value.list items),
              ("count", Value.int items.length),
              ("site_id", Value.str rid),
              ("limit", Value.int (request.GetInt "limit" 25)),
              ("offset", Value.int (request.GetInt "offset" 0))])) none) ∧
      (∀ items, (nc.call (Op.GetFirewallZones rid) (afterResolve nc request w).state).1 = (items, none) →
        (getFirewallZones nc request w).1
          = Outcome.returned (CallToolResult.toolJSON (Value.obj [
              ("zones", Value.list items),
              ("count", Value.int items.length),
              ("site_id", Value.str rid)])) none) ∧
      (∀ items, (nc.call (Op.GetACLRules rid) (afterResolve nc request w).state).1 = (items, none) →
        (getACLRules nc request w).1
          = Outcome.returned (CallToolResult.toolJSON (Value.obj [
              ("rules", Value.list items),
              ("count", Value.int items.length),
              ("site_id", Value.str rid)])) none) ∧
      (∀ items, (nc.call (Op.GetHotspotVouchers rid) (afterResolve nc request w).state).1 = (items, none) →
        (getHotspotVouchers nc request w).1
          = Outcome.returned (CallToolResult.toolJSON (Value.obj [
              ("vouchers", Value.list items),
              ("count", Value.int items.length),
              ("site_id", Value.str rid)])) none) ∧
      (∀ items, (nc.call (Op.GetTrafficRules rid) (afterResolve nc request w).state).1 = (items, none) →
        (getTrafficRules nc request w).1
          = Outcome.returned (CallToolResult.toolJSON (Value.obj [
              ("rules", Value.list items),
              ("count", Value.int items.length),
              ("site_id", Value.str rid)])) none) ∧
      (∀ items, (nc.call (Op.GetVPNServers rid) (afterResolve nc request w).state).1 = (items, none) →
        (getVPNServers nc request w).1
          = Outcome.returned (CallToolResult.toolJSON (Value.obj [
              ("servers", Value.list items),
              ("count", Value.int items.length),
              ("site_id", Value.str rid)])) none) ∧
      (∀ items, (nc.call (Op.GetDeviceTags rid) (afterResolve nc request w).state).1 = (items, none) →
        (getDeviceTags nc request w).1
          = Outcome.returned (CallToolResult.toolJSON (Value.obj [
              ("tags", Value.list items),
              ("count", Value.int items.length),
              ("site_id", Value.str rid)])) none) ∧
      (∀ items, (nc.call (Op.GetWANConfig rid) (afterResolve nc request w).state).1 = (items, none) →
        (getWANConfig nc request w).1
          = Outcome.returned (CallToolResult.toolJSON (Value.obj [
              ("wans", Value.list items),
              ("count", Value.int items.length),
              ("site_id", Value.str rid)])) none) ∧
      (∀ items, (nc.call (Op.GetRADIUSProfiles rid) (afterResolve nc request w).state).1 = (items, none) →
        (getRADIUSProfiles nc request w).1
          = Outcome.returned (CallToolResult.toolJSON (Value.obj [
              ("profiles", Value.list items),
              ("count", Value.int items.length),
              ("site_id", Value.str rid)])) none)) := by
  refine ⟨?_, ?_, ?_, ?_, ?_, fun rid hres => ⟨?_, ?_, ?_, ?_, ?_, ?_, ?_, ?_, ?_, ?_, ?_, ?_⟩⟩
  · intro sites hget
    have hget' : (nc.invoke Op.GetSites (afterAuthenticate nc w)).1 = (sites, none) := hget
    rw [getNetworkSites_steps, authThen_passed nc _ w hauth, opThen_passed _ _ _ _ sites hget']
    rfl
  · intro items hget
    have hget' : (nc.invoke Op.GetPendingDevices (afterAuthenticate nc w)).1 = (items, none) := hget
    rw [getPendingDevices_steps, authThen_passed nc _ w hauth, opThen_passed _ _ _ _ items hget']
    rfl
  · intro items hget
    have hget' : (nc.invoke Op.GetDPICategories (afterAuthenticate nc w)).1 = (items, none) := hget
    rw [getDPICategories_steps, authThen_passed nc _ w hauth, opThen_passed _ _ _ _ items hget']
    rfl
  · intro items hget
    have hget' : (nc.invoke Op.GetDPIApplications (afterAuthenticate nc w)).1 = (items, none) := hget
    rw [getDPIApps_steps, authThen_passed nc _ w hauth, opThen_passed _ _ _ _ items hget']
    rfl
  · intro items hget
    have hget' : (nc.invoke Op.GetDPIApplications (afterAuthenticate nc w)).1 = (items, none) := hget
    rw [getDPIApplications_steps, authThen_passed nc _ w hauth, opThen_passed _ _ _ _ items hget']
    rfl
  · intro items hget
    have hget' : (nc.invoke (Op.GetDevices rid) (resolveSiteID nc (request.GetString "site_id" "") (afterAuthenticate nc w)).2).1 = (items, none) := hget
    rw [getNetworkDevices_steps, authThen_passed nc _ w hauth, resolveThen_passed nc _ _ _ rid hres,
      opThen_passed _ _ _ _ items hget']
    rfl
  · intro items hget
    have hget' : (nc.invoke (Op.GetWiFiNetworks rid) (resolveSiteID nc (request.GetString "site_id" "") (afterAuthenticate nc w)).2).1 = (items, none) := hget
    rw [getWiFiNetworks_steps, authThen_passed nc _ w hauth, resolveThen_passed nc _ _ _ rid hres,
      opThen_passed _ _ _ _ items hget']
    rfl
  · intro items hget
    have hget' : (nc.invoke (Op.GetWiFiBroadcasts rid) (resolveSiteID nc (request.GetString "site_id" "") (afterAuthenticate nc w)).2).1 = (items, none) := hget
    rw [getWiFiBroadcasts_steps, authThen_passed nc _ w hauth, resolveThen_passed nc _ _ _ rid hres,
      opThen_passed _ _ _ _ items hget']
    rfl
  · intro items hget
    have hget' : (nc.invoke (Op.GetClients rid (request.GetInt "limit" 25) (request.GetInt "offset" 0)) (resolveSiteID nc (request.GetString "site_id" "") (afterAuthenticate nc w)).2).1 = (items, none) := hget
    rw [getNetworkClients_steps, authThen_passed nc _ w hauth, resolveThen_passed nc _ _ _ rid hres,
      opThen_passed _ _ _ _ items hget']
    rfl
  · intro items hget
    have hget' : (nc.invoke (Op.GetFirewallZones rid) (resolveSiteID nc (request.GetString "site_id" "") (afterAuthenticate nc w)).2).1 = (items, none) := hget
    rw [getFirewallZones_steps, authThen_passed nc _ w hauth, resolveThen_passed nc _ _ _ rid hres,
      opThen_passed _ _ _ _ items hget']
    rfl
  · intro items hget
    have hget' : (nc.invoke (Op.GetACLRules rid) (resolveSiteID nc (request.GetString "site_id" "") (afterAuthenticate nc w)).2).1 = (items, none) := hget
    rw [getACLRules_steps, authThen_passed nc _ w hauth, resolveThen_passed nc _ _ _ rid hres,
      opThen_passed _ _ _ _ items hget']
    rfl
  · intro items hget
    have hget' : (nc.invoke (Op.GetHotspotVouchers rid) (resolveSiteID nc (request.GetString "site_id" "") (afterAuthenticate nc w)).2).1 = (items, none) := hget
    rw [getHotspotVouchers_steps, authThen_passed nc _ w hauth, resolveThen_passed nc _ _ _ rid hres,
      opThen_passed _ _ _ _ items hget']
    rfl
  · intro items hget
    have hget' : (nc.invoke (Op.GetTrafficRules rid) (resolveSiteID nc (request.GetString "site_id" "") (afterAuthenticate nc w)).2).1 = (items, none) := hget
    rw [getTrafficRules_steps, authThen_passed nc _ w hauth, resolveThen_passed nc _ _ _ rid hres,
      opThen_passed _ _ _ _ items hget']
    rfl
  · intro items hget
    have hget' : (nc.invoke (Op.GetVPNServers rid) (resolveSiteID nc (request.GetString "site_id" "") (afterAuthenticate nc w)).2).1 = (items, none) := hget
    rw [getVPNServers_steps, authThen_passed nc _ w hauth, resolveThen_passed nc _ _ _ rid hres,
      opThen_passed _ _ _ _ items hget']
    rfl
  · intro items hget
    have hget' : (nc.invoke (Op.GetDeviceTags rid) (resolveSiteID nc (request.GetString "site_id" "") (afterAuthenticate nc w)).2).1 = (items, none) := hget
    rw [getDeviceTags_steps, authThen_passed nc _ w hauth, resolveThen_passed nc _ _ _ rid hres,
      opThen_passed _ _ _ _ items hget']
    rfl
  · intro items hget
    have hget' : (nc.invoke (Op.GetWANConfig rid) (resolveSiteID nc (request.GetString "site_id" "") (afterAuthenticate nc w)).2).1 = (items, none) := hget
    rw [getWANConfig_steps, authThen_passed nc _ w hauth, resolveThen_passed nc _ _ _ rid hres,
      opThen_passed _ _ _ _ items hget']
    rfl
  · intro items hget
    have hget' : (nc.invoke (Op.GetRADIUSProfiles rid) (resolveSiteID nc (request.GetString "site_id" "") (afterAuthenticate nc w)).2).1 = (items, none) := hget
    rw [getRADIUSProfiles_steps, authThen_passed nc _ w hauth, resolveThen_passed nc _ _ _ rid hres,
      opThen_passed _ _ _ _ items hget']
    rfl

theorem list_reads_count_payload_witness :
    (itemsClient.call Op.Authenticate World.fresh.state).1 = none ∧
    resolved itemsClient emptyRequest World.fresh = ("ext-1", none) ∧
    (itemsClient.call (Op.GetDevices "ext-1")
      (afterResolve itemsClient emptyRequest World.fresh).state).1
      = ([Value.str "a", Value.str "b"], none) ∧
    (getNetworkDevices itemsClient emptyRequest World.fresh).1
      = Outcome.returned (CallToolResult.toolJSON (Value.obj [
          ("devices", Value.list [Value.str "a", Value.str "b"]),
          ("count", Value.int 2),
          ("site_id", Value.str "ext-1")])) none ∧
    (getNetworkSites itemsClient emptyRequest World.fresh).1
      = Outcome.returned (CallToolResult.toolJSON (Value.obj [
          ("sites", Value.list [Value.site homeSite]),
          ("count", Value.int 1)])) none :=
  ⟨rfl, rfl, rfl,
    ((list_reads_count_payload itemsClient emptyRequest World.fresh rfl).2.2.2.2.2
      "ext-1" rfl).1 [Value.str "a", Value.str "b"] rfl,
    (list_reads_count_payload itemsClient emptyRequest World.fresh rfl).1 [homeSite] rfl⟩

/-! ## Validation of the target identifier -/

theorem GetString_blank (request : CallToolRequest) (key : String)
    (h : request.GetArguments.lookup key = none ∨
      request.GetArguments.lookup key = some (Value.str "")) :
    request.GetString key "" = "" := by
  unfold CallToolRequest.GetString
  rcases h with h | h <;> rw [h]

/-- C19: for each patch handler, a request whose settings argument is an
object and whose target identifier is absent or empty is answered with the error
"<identifier> is required" and leaves the world as it was (no collaborator call);
a request whose settings argument is absent or not an object is answered with
the settings error, whatever its target identifier: settings is checked first. -/
theorem patch_requires_target {σ : Type} (nc : NetworkClient σ) (request : CallToolRequest)
    (w : World σ) :
    ((∃ settings, request.GetArguments.lookup "settings" = some (Value.obj settings)) →
      ((request.GetArguments.lookup "network_id" = none ∨
        request.GetArguments.lookup "network_id" = some (Value.str "")) →
        patchWiFiNetwork nc request w
          = (Outcome.returned (CallToolResult.toolError "network_id is required") none, w)) ∧
      ((request.GetArguments.lookup "zone_id" = none ∨
        request.GetArguments.lookup "zone_id" = some (Value.str "")) →
        patchFirewallZone nc request w
          = (Outcome.returned (CallToolResult.toolError "zone_id is required") none, w)) ∧
      ((request.GetArguments.lookup "rule_id" = none ∨
        request.GetArguments.lookup "rule_id" = some (Value.str "")) →
        patchACLRule nc request w
          = (Outcome.returned (CallToolResult.toolError "rule_id is required") none, w)) ∧
      ((request.GetArguments.lookup "voucher_id" = none ∨
        request.GetArguments.lookup "voucher_id" = some (Value.str "")) →
        patchHotspotVoucher nc request w
          = (Outcome.returned (CallToolResult.toolError "voucher_id is required") none, w)) ∧
      ((request.GetArguments.lookup "rule_id" = none ∨
        request.GetArguments.lookup "rule_id" = some (Value.str "")) →
        patchTrafficRule nc request w
          = (Outcome.returned (CallToolResult.toolError "rule_id is required") none, w))) ∧
    ((∀ m, request.GetArguments.lookup "settings" ≠ some (Value.obj m)) →
      ((request.GetArguments.lookup "network_id" = none ∨
        request.GetArguments.lookup "network_id" = some (Value.str "")) →
        patchWiFiNetwork nc request w
          = (Outcome.returned (CallToolResult.toolError "settings must be an object") none,
              w)) ∧
      ((request.GetArguments.lookup "zone_id" = none ∨
        request.GetArguments.lookup "zone_id" = some (Value.str "")) →
        patchFirewallZone nc request w
          = (Outcome.returned (CallToolResult.toolError "settings must be an object") none,
              w)) ∧
      ((request.GetArguments.lookup "rule_id" = none ∨
        request.GetArguments.lookup "rule_id" = some (Value.str "")) →
        patchACLRule nc request w
          = (Outcome.returned (CallToolResult.toolError "settings must be an object") none,
              w)) ∧
      ((request.GetArguments.lookup "voucher_id" = none ∨
        request.GetArguments.lookup "voucher_id" = some (Value.str "")) →
        patchHotspotVoucher nc request w
          = (Outcome.returned (CallToolResult.toolError "settings must be an object") none,
              w)) ∧
      ((request.GetArguments.lookup "rule_id" = none ∨
        request.GetArguments.lookup "rule_id" = some (Value.str "")) →
        patchTrafficRule nc request w
          = (Outcome.returned (CallToolResult.toolError "settings must be an object") none,
              w))) := by
  refine ⟨fun hset => ?_, fun hset => ?_⟩
  · obtain ⟨settings, hset⟩ := hset
    have hs := asMap_index_obj _ _ _ hset
    refine ⟨?_, ?_, ?_, ?_, ?_⟩
    · intro hid
      rw [patchWiFiNetwork_steps, hs, GetString_blank request "network_id" hid]
      rfl
    · intro hid
      rw [patchFirewallZone_steps, hs, GetString_blank request "zone_id" hid]
      rfl
    · intro hid
      rw [patchACLRule_steps, hs, GetString_blank request "rule_id" hid]
      rfl
    · intro hid
      rw [patchHotspotVoucher_steps, hs, GetString_blank request "voucher_id" hid]
      rfl
    · intro hid
      rw [patchTrafficRule_steps, hs, GetString_blank request "rule_id" hid]
      rfl
  · have hs := asMap_index_none _ _ hset
    refine ⟨?_, ?_, ?_, ?_, ?_⟩
    · intro _
      rw [patchWiFiNetwork_steps, hs]
      rfl
    · intro _
      rw [patchFirewallZone_steps, hs]
      rfl
    · intro _
      rw [patchACLRule_steps, hs]
      rfl
    · intro _
      rw [patchHotspotVoucher_steps, hs]
      rfl
    · intro _
      rw [patchTrafficRule_steps, hs]
      rfl

theorem patch_requires_target_witness :
    (∃ settings, settingsOnlyRequest.GetArguments.lookup "settings"
      = some (Value.obj settings)) ∧
    (settingsOnlyRequest.GetArguments.lookup "network_id" = none ∨
      settingsOnlyRequest.GetArguments.lookup "network_id" = some (Value.str "")) ∧
    patchWiFiNetwork (siteClient [homeSite]) settingsOnlyRequest World.fresh
      = (Outcome.returned (CallToolResult.toolError "network_id is required") none,
          World.fresh) ∧
    (∀ m, emptyRequest.GetArguments.lookup "settings" ≠ some (Value.obj m)) ∧
    patchTrafficRule (siteClient [homeSite]) emptyRequest World.fresh
      = (Outcome.returned (CallToolResult.toolError "settings must be an object") none,
          World.fresh) :=
  ⟨⟨_, rfl⟩, Or.inl rfl,
    ((patch_requires_target (siteClient [homeSite]) settingsOnlyRequest World.fresh).1
      ⟨_, rfl⟩).1 (Or.inl rfl),
    fun _ h => by simp [emptyRequest, CallToolRequest.GetArguments, List.lookup] at h,
    ((patch_requires_target (siteClient [homeSite]) emptyRequest World.fresh).2
      (fun _ h => by
        simp [emptyRequest, CallToolRequest.GetArguments, List.lookup] at h)).2.2.2.2
      (Or.inl rfl)⟩

/-! ## Reads that are not site-scoped -/

theorem direct_success_calls {σ α : Type} (nc : NetworkClient σ)
    (run : Exec σ (α × Option GoError)) (op : Op) (failText : String) (ok : α → Outcome)
    (hrun : ∀ w, (run w).2 = (nc.invoke op w).2) (w : World σ) (data : Value)
    (h : (authThen nc (opThen run failText (fun v => pure (ok v))) w).1
      = Outcome.returned (CallToolResult.toolJSON data) none) :
    newCalls w (authThen nc (opThen run failText (fun v => pure (ok v))) w)
      = [Op.Authenticate, op] := by
  cases ha : (nc.call Op.Authenticate w.state).1 with
  | some e =>
    rw [authThen_failed nc _ w e ha] at h
    exact absurd h (toolErrorFromErr_ne_json _ _ _ _)
  | none =>
    rw [authThen_passed nc _ w ha] at h ⊢
    rcases ho : (run (afterAuthenticate nc w)).1 with ⟨v, _ | e⟩
    · rw [opThen_passed _ _ _ _ v ho]
      show newCalls w (ok v, (run (afterAuthenticate nc w)).2) = _
      rw [hrun]
      simp [newCalls, NetworkClient.invoke, afterAuthenticate_calls]
    · rw [opThen_failed _ _ _ _ v e ho] at h
      exact absurd h (toolErrorFromErr_ne_json _ _ _ _)

/-- C20: each of the six reads that are not site-scoped runs the same way
whatever the request holds, a `site_id` argument included, and whenever it ends
in a success envelope its collaborator calls are exactly Authenticate followed
by its one read operation: site resolution is never run. -/
theorem unscoped_reads_skip_resolution {σ : Type} (nc : NetworkClient σ)
    (request : CallToolRequest) (w : World σ) :
    ((∀ request', getNetworkSites nc request' = getNetworkSites nc request) ∧
      (∀ data, (getNetworkSites nc request w).1
          = Outcome.returned (CallToolResult.toolJSON data) none →
        newCalls w (getNetworkSites nc request w) = [Op.Authenticate, Op.GetSites])) ∧
    ((∀ request', getNetworkInfo nc request' = getNetworkInfo nc request) ∧
      (∀ data, (getNetworkInfo nc request w).1
          = Outcome.returned (CallToolResult.toolJSON data) none →
        newCalls w (getNetworkInfo nc request w) = [Op.Authenticate, Op.GetInfo])) ∧
    ((∀ request', getPendingDevices nc request' = getPendingDevices nc request) ∧
      (∀ data, (getPendingDevices nc request w).1
          = Outcome.returned (CallToolResult.toolJSON data) none →
        newCalls w (getPendingDevices nc request w) = [Op.Authenticate, Op.GetPendingDevices])) ∧
    ((∀ request', getDPICategories nc request' = getDPICategories nc request) ∧
      (∀ data, (getDPICategories nc request w).1
          = Outcome.returned (CallToolResult.toolJSON data) none →
        newCalls w (getDPICategories nc request w) = [Op.Authenticate, Op.GetDPICategories])) ∧
    ((∀ request', getDPIApps nc request' = getDPIApps nc request) ∧
      (∀ data, (getDPIApps nc request w).1
          = Outcome.returned (CallToolResult.toolJSON data) none →
        newCalls w (getDPIApps nc request w) = [Op.Authenticate, Op.GetDPIApplications])) ∧
    ((∀ request', getDPIApplications nc request' = getDPIApplications nc request) ∧
      (∀ data, (getDPIApplications nc request w).1
          = Outcome.returned (CallToolResult.toolJSON data) none →
        newCalls w (getDPIApplications nc request w) = [Op.Authenticate, Op.GetDPIApplications])) := by
  refine ⟨⟨fun _ => rfl, fun data h => ?_⟩, ⟨fun _ => rfl, fun data h => ?_⟩, ⟨fun _ => rfl, fun data h => ?_⟩, ⟨fun _ => rfl, fun data h => ?_⟩, ⟨fun _ => rfl, fun data h => ?_⟩, ⟨fun _ => rfl, fun data h => ?_⟩⟩
  · rw [getNetworkSites_steps] at h ⊢
    exact direct_success_calls nc _ Op.GetSites _ _ (fun _ => rfl) w data h
  · rw [getNetworkInfo_steps] at h ⊢
    exact direct_success_calls nc _ Op.GetInfo _ _ (fun _ => rfl) w data h
  · rw [getPendingDevices_steps] at h ⊢
    exact direct_success_calls nc _ Op.GetPendingDevices _ _ (fun _ => rfl) w data h
  · rw [getDPICategories_steps] at h ⊢
    exact direct_success_calls nc _ Op.GetDPICategories _ _ (fun _ => rfl) w data h
  · rw [getDPIApps_steps] at h ⊢
    exact direct_success_calls nc _ Op.GetDPIApplications _ _ (fun _ => rfl) w data h
  · rw [getDPIApplications_steps] at h ⊢
    exact direct_success_calls nc _ Op.GetDPIApplications _ _ (fun _ => rfl) w data h

theorem unscoped_reads_skip_resolution_witness :
    getNetworkInfo (siteClient [homeSite]) siteRequest
      = getNetworkInfo (siteClient [homeSite]) emptyRequest ∧
    (getNetworkInfo (siteClient [homeSite]) siteRequest World.fresh).1
      = Outcome.returned (CallToolResult.toolJSON Value.null) none ∧
    newCalls World.fresh (getNetworkInfo (siteClient [homeSite]) siteRequest World.fresh)
      = [Op.Authenticate, Op.GetInfo] :=
  ⟨(unscoped_reads_skip_resolution (siteClient [homeSite]) emptyRequest World.fresh).2.1.1
      siteRequest,
    rfl,
    (unscoped_reads_skip_resolution (siteClient [homeSite]) siteRequest World.fresh).2.1.2
      Value.null rfl⟩

/-! ## Names of the registered tools -/

theorem registerTools_names {σ : Type} (nc : NetworkClient σ) :
    (registerTools nc).map (fun t => t.Name) = [
      "get_network_sites",
      "get_network_devices",
      "get_device_detailed",
      "get_device_stats",
      "get_network_info",
      "get_pending_devices",
      "get_wifi_networks",
      "get_wifi_network_detailed",
      "get_wifi_broadcasts",
      "get_network_clients",
      "get_client_detailed",
      "get_client_stats",
      "get_site_health",
      "check_network_endpoint_health",
      "check_protect_endpoint_health",
      "get_firewall_zones",
      "get_firewall_zone_detailed",
      "get_acl_rules",
      "get_acl_rule_detailed",
      "get_hotspot_vouchers",
      "get_hotspot_voucher_detailed",
      "get_traffic_rules",
      "get_traffic_rule_detailed",
      "get_vpn_servers",
      "get_device_tags",
      "get_wan_config",
      "get_radius_profiles",
      "get_dpi_categories",
      "get_dpi_apps",
      "get_dpi_applications",
      "patch_wifi_network",
      "patch_firewall_zone",
      "patch_acl_rule",
      "patch_hotspot_voucher",
      "patch_traffic_rule",
      "create_wifi_network",
      "create_firewall_zone",
      "create_acl_rule",
      "create_hotspot_voucher",
      "create_traffic_rule",
      "create_vpn_tunnel"] := rfl

theorem lookup_of_nodup {σ : Type} (tools : List (ServerTool σ))
    (hnd : (tools.map (fun t => t.Name)).Nodup) (t : ServerTool σ) (ht : t ∈ tools) :
    lookupTool tools t.Name = some t := by
  unfold lookupTool
  induction tools with
  | nil => cases ht
  | cons a l ih =>
    rw [List.map_cons, List.nodup_cons] at hnd
    by_cases ha : a.Name = t.Name
    · rcases List.mem_cons.mp ht with h | h
      · subst h
        simp [List.find?]
      · exact absurd (ha ▸ List.mem_map_of_mem (fun t => t.Name) h) hnd.1
    · rcases List.mem_cons.mp ht with h | h
      · exact absurd (h ▸ rfl) ha
      · have hb : (a.Name == t.Name) = false := by simp [ha]
        simp only [List.find?, hb]
        exact ih hnd.2 h

/-- C25: the names of the tools handed over by `registerTools` are 41 names
without a duplicate; so two registered tools of the same name are the same tool,
and the exact-name lookup of a registered tool's name yields that tool and its
handler. -/
theorem registerTools_names_distinct {σ : Type} (nc : NetworkClient σ) :
    ((registerTools nc).map (fun t => t.Name)).Nodup ∧
    ((registerTools nc).map (fun t => t.Name)).length = 41 ∧
    (∀ t1 ∈ registerTools nc, ∀ t2 ∈ registerTools nc, t1.Name = t2.Name → t1 = t2) ∧
    (∀ t ∈ registerTools nc, lookupTool (registerTools nc) t.Name = some t) := by
  have hnd : ((registerTools nc).map (fun t => t.Name)).Nodup := by
    rw [registerTools_names]
    decide
  refine ⟨hnd, by rw [registerTools_names]; rfl, ?_, ?_⟩
  · intro t1 h1 t2 h2 heq
    exact List.inj_on_of_nodup_map hnd h1 h2 heq
  · intro t ht
    exact lookup_of_nodup _ hnd t ht

/-! ## Order of validation in the detail reads -/

theorem authThen_rejects {σ : Type} (nc : NetworkClient σ) (w : World σ) (text : String) :
    RejectsAfterAuthenticate nc w text
      (authThen nc (pure (Outcome.returned (CallToolResult.toolError text) none)) w) := by
  unfold RejectsAfterAuthenticate
  cases ha : (nc.call Op.Authenticate w.state).1 with
  | some e =>
    rw [authThen_failed nc _ w e ha]
    refine ⟨afterAuthenticate_calls nc w, ?_, ?_, ?_⟩
    · rw [newCalls_afterAuthenticate]
      simp
    · intro h
      cases h
    · intro e' he
      cases he
      rfl
  | none =>
    rw [authThen_passed nc _ w ha]
    have hn : newCalls w
        ((pure (Outcome.returned (CallToolResult.toolError text) none) : Exec σ Outcome)
          (afterAuthenticate nc w)) = [Op.Authenticate] := newCalls_afterAuthenticate nc w _
    refine ⟨afterAuthenticate_calls nc w, ?_, ?_, ?_⟩
    · rw [hn]
      simp
    · intro _
      rfl
    · intro e he
      cases he

/-- C22: in each of the eight reads that take a sub-identifier, a request
whose sub-identifier is empty is rejected without fetching the site list.
`get_device_detailed`, `get_device_stats` and `get_client_detailed` reject it
before any call, with "<identifier> is required".  The five other detail reads
call Authenticate first and nothing else: GetSites is not among the calls, the
answer is "Missing required parameter: <identifier>" when Authenticate succeeds
and "Authentication failed" wrapping the cause when it fails. -/
theorem detail_validation_precedes_resolution {σ : Type} (nc : NetworkClient σ)
    (request : CallToolRequest) (w : World σ) :
    (request.GetString "device_id" "" = "" →
      RejectsBeforeAuthenticate w "device_id is required" (getDeviceDetailed nc request w)) ∧
    (request.GetString "device_id" "" = "" →
      RejectsBeforeAuthenticate w "device_id is required" (getDeviceStats nc request w)) ∧
    (request.GetString "mac" "" = "" →
      RejectsBeforeAuthenticate w "mac is required" (getClientDetailed nc request w)) ∧
    (request.GetString "network_id" "" = "" →
      RejectsAfterAuthenticate nc w "Missing required parameter: network_id"
        (getWiFiNetworkDetailed nc request w)) ∧
    (request.GetString "firewall_zone_id" "" = "" →
      RejectsAfterAuthenticate nc w "Missing required parameter: firewall_zone_id"
        (getFirewallZoneDetailed nc request w)) ∧
    (request.GetString "acl_rule_id" "" = "" →
      RejectsAfterAuthenticate nc w "Missing required parameter: acl_rule_id"
        (getACLRuleDetailed nc request w)) ∧
    (request.GetString "voucher_id" "" = "" →
      RejectsAfterAuthenticate nc w "Missing required parameter: voucher_id"
        (getHotspotVoucherDetailed nc request w)) ∧
    (request.GetString "traffic_matching_list_id" "" = "" →
      RejectsAfterAuthenticate nc w "Missing required parameter: traffic_matching_list_id"
        (getTrafficRuleDetailed nc request w)) := by
  refine ⟨?_, ?_, ?_, ?_, ?_, ?_, ?_, ?_⟩
  · intro h
    rw [getDeviceDetailed_steps, h]
    rfl
  · intro h
    rw [getDeviceStats_steps, h]
    rfl
  · intro h
    rw [getClientDetailed_steps, h]
    rfl
  · intro h
    rw [getWiFiNetworkDetailed_steps, h]
    exact authThen_rejects nc w _
  · intro h
    rw [getFirewallZoneDetailed_steps, h]
    exact authThen_rejects nc w _
  · intro h
    rw [getACLRuleDetailed_steps, h]
    exact authThen_rejects nc w _
  · intro h
    rw [getHotspotVoucherDetailed_steps, h]
    exact authThen_rejects nc w _
  · intro h
    rw [getTrafficRuleDetailed_steps, h]
    exact authThen_rejects nc w _

theorem detail_validation_precedes_resolution_witness :
    blankIDRequest.GetString "device_id" "" = "" ∧
    blankIDRequest.GetString "network_id" "" = "" ∧
    getDeviceStats failingAuthClient blankIDRequest World.fresh
      = (Outcome.returned (CallToolResult.toolError "device_id is required") none,
          World.fresh) ∧
    RejectsAfterAuthenticate failingAuthClient World.fresh
      "Missing required parameter: network_id"
      (getWiFiNetworkDetailed failingAuthClient blankIDRequest World.fresh) ∧
    (getWiFiNetworkDetailed failingAuthClient blankIDRequest World.fresh).1
      = Outcome.returned
          (CallToolResult.toolError "Authentication failed: 401 unauthorized") none :=
  ⟨rfl, rfl,
    (detail_validation_precedes_resolution failingAuthClient blankIDRequest World.fresh).2.1
      rfl,
    (detail_validation_precedes_resolution failingAuthClient blankIDRequest
      World.fresh).2.2.2.1 rfl,
    ((detail_validation_precedes_resolution failingAuthClient blankIDRequest
      World.fresh).2.2.2.1 rfl).2.2.2 ⟨"401 unauthorized"⟩ rfl⟩

/-! ## Site resolver: canonical identifiers are fixed points -/

theorem resolveSiteID_canonical {σ : Type} (nc : NetworkClient σ) (w : World σ)
    (sites : List Site) (e : String)
    (hget : (nc.call Op.GetSites w.state).1 = (sites, none))
    (hne : sites ≠ []) (hc : Canonical sites e) :
    (resolveSiteID nc e w).1 = (e, none) := by
  obtain ⟨h1, h2, h3⟩ := hc
  cases sites with
  | nil => exact absurd rfl hne
  | cons first rest =>
    rw [resolveSiteID_value nc e w first rest hget]
    have ht : ¬ (e = "" ∨ e = "default") := fun h => h.elim h1 h2
    simp only [ht, if_false]
    cases hn : List.find? (fun site => decide (site.Name = e)) (first :: rest) with
    | some t =>
      have hp := List.find?_some hn
      have hm := List.mem_of_find?_eq_some hn
      simp only [decide_eq_true_eq] at hp
      simp only [h3 t hm (Or.inl hp)]
    | none =>
      cases hi : List.find? (fun site => decide (site.ID = e ∨ site.ExternalID = e))
          (first :: rest) with
      | some t =>
        have hp := List.find?_some hi
        have hm := List.mem_of_find?_eq_some hi
        simp only [decide_eq_true_eq] at hp
        rcases hp with hp | hp
        · simp only [h3 t hm (Or.inr hp)]
        · simp only [hp]
      | none => rfl

theorem resolveSiteID_result {σ : Type} (nc : NetworkClient σ) (w : World σ)
    (sites : List Site) (tok r : String)
    (hget : (nc.call Op.GetSites w.state).1 = (sites, none))
    (hres : (resolveSiteID nc tok w).1 = (r, none)) :
    (∃ s ∈ sites, s.ExternalID = r) ∨
    (r = tok ∧ ∀ w2 : World σ, (nc.call Op.GetSites w2.state).1 = (sites, none) →
      (resolveSiteID nc tok w2).1 = (tok, none)) := by
  cases sites with
  | nil =>
    rw [resolveSiteID_empty nc tok w hget] at hres
    cases hres
  | cons first rest =>
    rw [resolveSiteID_value nc tok w first rest hget] at hres
    by_cases ht : tok = "" ∨ tok = "default"
    · simp only [ht, if_true, Prod.mk.injEq, and_true] at hres
      exact Or.inl ⟨first, List.mem_cons_self _ _, hres⟩
    · simp only [ht, if_false] at hres
      cases hn : List.find? (fun site => decide (site.Name = tok)) (first :: rest) with
      | some t =>
        rw [hn] at hres
        simp only [Prod.mk.injEq, and_true] at hres
        exact Or.inl ⟨t, List.mem_of_find?_eq_some hn, hres⟩
      | none =>
        rw [hn] at hres
        cases hi : List.find? (fun site => decide (site.ID = tok ∨ site.ExternalID = tok))
            (first :: rest) with
        | some t =>
          rw [hi] at hres
          simp only [Prod.mk.injEq, and_true] at hres
          exact Or.inl ⟨t, List.mem_of_find?_eq_some hi, hres⟩
        | none =>
          rw [hi] at hres
          simp only [Prod.mk.injEq, and_true] at hres
          refine Or.inr ⟨hres.symm, fun w2 hget2 => ?_⟩
          rw [resolveSiteID_value nc tok w2 first rest hget2]
          simp only [ht, if_false, hn, hi]

/-- C23: when the site list is fetched without error, every site of the
list whose ExternalID `e` is canonical (non-empty, not "default", and the
ExternalID of every site whose display name or internal ID is `e`) resolves to
itself: `resolveSiteID e` returns `e` with no error.  Consequently, when the
ExternalID of every site of the list is canonical, resolving the result `r` of
any successful resolution against the same list returns `r` again. -/
theorem resolveSiteID_fixed_point {σ : Type} (nc : NetworkClient σ) (w : World σ)
    (sites : List Site) (hget : (nc.call Op.GetSites w.state).1 = (sites, none)) :
    (∀ s ∈ sites, Canonical sites s.ExternalID →
      (resolveSiteID nc s.ExternalID w).1 = (s.ExternalID, none)) ∧
    ((∀ s ∈ sites, Canonical sites s.ExternalID) →
      ∀ (tok r : String) (w2 w3 : World σ),
        (nc.call Op.GetSites w2.state).1 = (sites, none) →
        (nc.call Op.GetSites w3.state).1 = (sites, none) →
        (resolveSiteID nc tok w2).1 = (r, none) →
        (resolveSiteID nc r w3).1 = (r, none)) := by
  refine ⟨fun s hs hc =>
    resolveSiteID_canonical nc w sites _ hget (List.ne_nil_of_mem hs) hc, ?_⟩
  intro hall tok r w2 w3 hget2 hget3 hres
  rcases resolveSiteID_result nc w2 sites tok r hget2 hres with ⟨s, hs, he⟩ | ⟨hr, hsame⟩
  · exact resolveSiteID_canonical nc w3 sites r hget3 (List.ne_nil_of_mem hs)
      (he ▸ hall s hs)
  · rw [hr]
    exact hsame w3 hget3

theorem resolveSiteID_fixed_point_witness :
    ((siteClient [homeSite, officeSite]).call Op.GetSites World.fresh.state).1
      = ([homeSite, officeSite], none) ∧
    officeSite ∈ [homeSite, officeSite] ∧
    Canonical [homeSite, officeSite] officeSite.ExternalID ∧
    (resolveSiteID (siteClient [homeSite, officeSite]) "ext-2" World.fresh).1
      = ("ext-2", none) ∧
    (resolveSiteID (siteClient [homeSite, officeSite]) "Office" World.fresh).1
      = ("ext-2", none) ∧
    (resolveSiteID (siteClient [homeSite, officeSite]) "ext-2" ⟨7, []⟩).1
      = ("ext-2", none) :=
  ⟨rfl, List.Mem.tail _ (List.Mem.head _),
    by simp [Canonical, homeSite, officeSite],
    (resolveSiteID_fixed_point (siteClient [homeSite, officeSite]) World.fresh
      [homeSite, officeSite] rfl).1 officeSite (List.Mem.tail _ (List.Mem.head _))
      (by simp [Canonical, homeSite, officeSite]),
    rfl,
    (resolveSiteID_fixed_point (siteClient [homeSite, officeSite]) World.fresh
      [homeSite, officeSite] rfl).2
      (by simp [Canonical, homeSite, officeSite]) "Office" "ext-2" World.fresh ⟨7, []⟩
      rfl rfl rfl⟩

/-! ## The writes into the returned mapping -/

theorem patch_completes {σ : Type} (nc : NetworkClient σ) (tok failText idKey id : String)
    (run : String → Exec σ (Option GoMap × Option GoError)) (w : World σ) (rid : String)
    (m : GoMap)
    (hauth : (nc.call Op.Authenticate w.state).1 = none)
    (hres : (resolveSiteID nc tok (afterAuthenticate nc w)).1 = (rid, none))
    (hget : (run rid (resolveSiteID nc tok (afterAuthenticate nc w)).2).1 = (some m, none)) :
    authThen nc (resolveThen nc tok (fun rid =>
        opThen (run rid) failText (fun result =>
          match result with
          | some result =>
            pure (NewToolResultJSON (Value.obj
              (((result.set "success" (Value.bool true)).set idKey
                (Value.str id)).set "site_id" (Value.str rid))))
          | _ => pure (Outcome.panicked "assignment to entry in nil map")))) w
      = (Outcome.returned (CallToolResult.toolJSON (Value.obj
          (((m.set "success" (Value.bool true)).set idKey (Value.str id)).set
            "site_id" (Value.str rid)))) none,
        (run rid (resolveSiteID nc tok (afterAuthenticate nc w)).2).2) := by
  rw [authThen_passed nc _ w hauth, resolveThen_passed nc _ _ _ rid hres,
    opThen_passed _ _ _ _ (some m) hget]
  rfl

/-- C24, as stated, fails: against a collaborator whose Patch call returns a
nil mapping with a nil error, after a successful Authenticate and site
resolution, each of the five patch handlers ends in the run-time panic of a
write into a nil map, not in a success envelope. -/
theorem patch_nil_mapping_counterexample :
    (nilMappingClient.call Op.Authenticate World.fresh.state).1 = none ∧
    resolved nilMappingClient mutationRequest World.fresh = ("ext-1", none) ∧
    (nilMappingClient.call (Op.PatchWiFiNetwork "ext-1" "n1" [("enabled", Value.bool true)])
      (afterResolve nilMappingClient mutationRequest World.fresh).state).1 = (none, none) ∧
    (patchWiFiNetwork nilMappingClient mutationRequest World.fresh).1
      = Outcome.panicked "assignment to entry in nil map" ∧
    (patchFirewallZone nilMappingClient mutationRequest World.fresh).1
      = Outcome.panicked "assignment to entry in nil map" ∧
    (patchACLRule nilMappingClient mutationRequest World.fresh).1
      = Outcome.panicked "assignment to entry in nil map" ∧
    (patchHotspotVoucher nilMappingClient mutationRequest World.fresh).1
      = Outcome.panicked "assignment to entry in nil map" ∧
    (patchTrafficRule nilMappingClient mutationRequest World.fresh).1
      = Outcome.panicked "assignment to entry in nil map" ∧
    (∀ data, (patchWiFiNetwork nilMappingClient mutationRequest World.fresh).1
      ≠ Outcome.returned (CallToolResult.toolJSON data) none) := by
  refine ⟨rfl, rfl, rfl, rfl, rfl, rfl, rfl, rfl, ?_⟩
  intro data h
  have hp : (patchWiFiNetwork nilMappingClient mutationRequest World.fresh).1
      = Outcome.panicked "assignment to entry in nil map" := rfl
  rw [hp] at h
  cases h

/-- C24 (amended): for each patch handler, when the request carries a
settings object and a non-empty target identifier `id`, Authenticate and site
resolution succeed with `rid` and the collaborator's Patch call returns a
non-nil mapping `m` with a nil error, the handler does not panic: it returns the
success envelope, `m` after the three writes of `success`, the target identifier
and `site_id`, and the Patch call is the last call made. -/
theorem patch_completes_on_mapping {σ : Type} (nc : NetworkClient σ)
    (request : CallToolRequest) (w : World σ) (settings m : GoMap) (id rid : String)
    (hset : request.GetArguments.lookup "settings" = some (Value.obj settings))
    (hne : id ≠ "")
    (hauth : (nc.call Op.Authenticate w.state).1 = none)
    (hres : resolved nc request w = (rid, none)) :
    (request.GetArguments.lookup "network_id" = some (Value.str id) →
      (nc.call (Op.PatchWiFiNetwork rid id settings) (afterResolve nc request w).state).1
        = (some m, none) →
      patchWiFiNetwork nc request w
        = (Outcome.returned (CallToolResult.toolJSON (Value.obj
            (((m.set "success" (Value.bool true)).set "network_id" (Value.str id)).set
              "site_id" (Value.str rid)))) none,
          (nc.invoke (Op.PatchWiFiNetwork rid id settings) (afterResolve nc request w)).2)) ∧
    (request.GetArguments.lookup "zone_id" = some (Value.str id) →
      (nc.call (Op.PatchFirewallZone rid id settings) (afterResolve nc request w).state).1
        = (some m, none) →
      patchFirewallZone nc request w
        = (Outcome.returned (CallToolResult.toolJSON (Value.obj
            (((m.set "success" (Value.bool true)).set "zone_id" (Value.str id)).set
              "site_id" (Value.str rid)))) none,
          (nc.invoke (Op.PatchFirewallZone rid id settings) (afterResolve nc request w)).2)) ∧
    (request.GetArguments.lookup "rule_id" = some (Value.str id) →
      (nc.call (Op.PatchACLRule rid id settings) (afterResolve nc request w).state).1
        = (some m, none) →
      patchACLRule nc request w
        = (Outcome.returned (CallToolResult.toolJSON (Value.obj
            (((m.set "success" (Value.bool true)).set "rule_id" (Value.str id)).set
              "site_id" (Value.str rid)))) none,
          (nc.invoke (Op.PatchACLRule rid id settings) (afterResolve nc request w)).2)) ∧
    (request.GetArguments.lookup "voucher_id" = some (Value.str id) →
      (nc.call (Op.PatchHotspotVoucher rid id settings) (afterResolve nc request w).state).1
        = (some m, none) →
      patchHotspotVoucher nc request w
        = (Outcome.returned (CallToolResult.toolJSON (Value.obj
            (((m.set "success" (Value.bool true)).set "voucher_id" (Value.str id)).set
              "site_id" (Value.str rid)))) none,
          (nc.invoke (Op.PatchHotspotVoucher rid id settings) (afterResolve nc request w)).2)) ∧
    (request.GetArguments.lookup "rule_id" = some (Value.str id) →
      (nc.call (Op.PatchTrafficRule rid id settings) (afterResolve nc request w).state).1
        = (some m, none) →
      patchTrafficRule nc request w
        = (Outcome.returned (CallToolResult.toolJSON (Value.obj
            (((m.set "success" (Value.bool true)).set "rule_id" (Value.str id)).set
              "site_id" (Value.str rid)))) none,
          (nc.invoke (Op.PatchTrafficRule rid id settings) (afterResolve nc request w)).2)) := by
  have hs := asMap_index_obj _ _ _ hset
  refine ⟨?_, ?_, ?_, ?_, ?_⟩
  · intro hid hget
    have hi := GetString_supplied request "network_id" "" id hid
    rw [patchWiFiNetwork_steps, hs, hi]
    simp only [hne, if_false]
    exact patch_completes nc _ _ "network_id" id
      (fun rid => nc.invoke (Op.PatchWiFiNetwork rid id settings)) w rid m hauth hres hget
  · intro hid hget
    have hi := GetString_supplied request "zone_id" "" id hid
    rw [patchFirewallZone_steps, hs, hi]
    simp only [hne, if_false]
    exact patch_completes nc _ _ "zone_id" id
      (fun rid => nc.invoke (Op.PatchFirewallZone rid id settings)) w rid m hauth hres hget
  · intro hid hget
    have hi := GetString_supplied request "rule_id" "" id hid
    rw [patchACLRule_steps, hs, hi]
    simp only [hne, if_false]
    exact patch_completes nc _ _ "rule_id" id
      (fun rid => nc.invoke (Op.PatchACLRule rid id settings)) w rid m hauth hres hget
  · intro hid hget
    have hi := GetString_supplied request "voucher_id" "" id hid
    rw [patchHotspotVoucher_steps, hs, hi]
    simp only [hne, if_false]
    exact patch_completes nc _ _ "voucher_id" id
      (fun rid => nc.invoke (Op.PatchHotspotVoucher rid id settings)) w rid m hauth hres hget
  · intro hid hget
    have hi := GetString_supplied request "rule_id" "" id hid
    rw [patchTrafficRule_steps, hs, hi]
    simp only [hne, if_false]
    exact patch_completes nc _ _ "rule_id" id
      (fun rid => nc.invoke (Op.PatchTrafficRule rid id settings)) w rid m hauth hres hget

theorem patch_completes_on_mapping_witness :
    mutationRequest.GetArguments.lookup "settings"
      = some (Value.obj [("enabled", Value.bool true)]) ∧
    ("z1" : String) ≠ "" ∧
    (mappingClient.call Op.Authenticate World.fresh.state).1 = none ∧
    resolved mappingClient mutationRequest World.fresh = ("ext-1", none) ∧
    (patchFirewallZone mappingClient mutationRequest World.fresh).1
      = Outcome.returned (CallToolResult.toolJSON (Value.obj [
          ("site_id", Value.str "ext-1"),
          ("zone_id", Value.str "z1"),
          ("success", Value.bool true),
          ("name", Value.str "lan")])) none :=
  ⟨rfl, by decide, rfl, rfl,
    congrArg Prod.fst
      ((patch_completes_on_mapping mappingClient mutationRequest World.fresh
        [("enabled", Value.bool true)]
        [("name", Value.str "lan"), ("site_id", Value.str "stale"),
          ("success", Value.bool false)]
        "z1" "ext-1" rfl (by decide) rfl rfl).2.1 rfl rfl)⟩

/-! ## The call sequence of a successful site-scoped run -/

theorem RunCase.of_op_done {σ : Type} {nc : NetworkClient σ} {tok failText : String}
    {forSite : Bool} {w : World σ} {out : Outcome × World σ}
    (hc : RunCase nc tok failText forSite w out) (hsite : forSite = true) (op : Op)
    (hinv : op ∈ newCalls w out) (hna : op ≠ Op.Authenticate) (hns : op ≠ Op.GetSites)
    (hop : op.err (nc.call op
      (resolveSiteID nc tok (afterAuthenticate nc w)).2.state).1 = none) :
    (nc.call Op.Authenticate w.state).1 = none ∧
    (∃ rid, (resolveSiteID nc tok (afterAuthenticate nc w)).1 = (rid, none) ∧
      op.siteID? = some rid) ∧
    out.2 = (nc.invoke op (resolveSiteID nc tok (afterAuthenticate nc w)).2).2 ∧
    ((∃ data, out.1 = Outcome.returned (CallToolResult.toolJSON data) none) ∨
      (∃ reason, out.1 = Outcome.panicked reason)) := by
  subst hsite
  cases hc with
  | rejected text hs => simp [newCalls_same] at hinv
  | authFailed e' ha =>
    simp [newCalls_afterAuthenticate] at hinv
    exact absurd hinv hna
  | rejectedAfterAuth text hs ha =>
    simp [newCalls_afterAuthenticate] at hinv
    exact absurd hinv hna
  | stub data hs ha => cases hs
  | resolveFailed rid' e' hs ha hr =>
    simp [newCalls_afterResolve] at hinv
    rcases hinv with h | h
    · exact absurd h hna
    · exact absurd h hns
  | opFailed op' e' wB ha hat he =>
    rw [newCalls_atOperation nc tok true w wB op' _ hat] at hinv
    have hsame := atOperation_own nc tok true w wB op op' hat hinv hna (fun _ => hns)
    subst hsame
    have hw := atOperation_world nc tok true w wB op hat
    simp only [if_true] at hw
    rw [hw, hop] at he
    cases he
  | opDone op' wB o ha hat he hout =>
    rw [newCalls_atOperation nc tok true w wB op' _ hat] at hinv
    have hsame := atOperation_own nc tok true w wB op op' hat hinv hna (fun _ => hns)
    subst hsame
    have hw := atOperation_world nc tok true w wB op hat
    simp only [if_true] at hw
    rcases hat with ⟨_, rid, hr, _, hsid⟩ | ⟨hs, _⟩
    · exact ⟨ha, ⟨rid, hr, hsid⟩, by rw [hw], hout⟩
    · cases hs

theorem registerTools_done {σ : Type} (nc : NetworkClient σ) (tool : ServerTool σ)
    (htool : tool ∈ registerTools nc)
    (hsite : "site_id" ∈ tool.Properties.map (fun p => p.1))
    (request : CallToolRequest) (w : World σ) (op : Op)
    (hinv : op ∈ newCalls w (tool.Handler request w))
    (hna : op ≠ Op.Authenticate) (hns : op ≠ Op.GetSites)
    (hop : op.err (nc.call op (afterResolve nc request w).state).1 = none) :
    (nc.call Op.Authenticate w.state).1 = none ∧
    (∃ rid, resolved nc request w = (rid, none) ∧ op.siteID? = some rid) ∧
    (tool.Handler request w).2.calls = w.calls ++ [Op.Authenticate, Op.GetSites, op] ∧
    ((∃ data, (tool.Handler request w).1
        = Outcome.returned (CallToolResult.toolJSON data) none) ∨
      (∃ reason, (tool.Handler request w).1 = Outcome.panicked reason)) := by
  have hs := siteScoped_of_declared tool hsite
  obtain ⟨ha, hr, hw, hout⟩ :=
    (registerTools_cases nc tool htool request w).of_op_done hs op hinv hna hns hop
  refine ⟨ha, hr, ?_, hout⟩
  rw [hw]
  simp [NetworkClient.invoke, resolveSiteID_calls, afterAuthenticate_calls]

/-- C21: for every registered tool that declares a `site_id` argument and
every run in which the handler invokes its own operation `op` (so validation,
Authenticate and site resolution succeeded) and `op` returns without error, the
calls added to the log are exactly Authenticate, GetSites, `op`, in that order
and once each, with `op` handed the resolved site; the run ends in a JSON result
or, for a nil mapping, in a panic, never in an error result.  A second
such run, started where the first ended, adds Authenticate, GetSites and its own
operation again: the site list of the first run is not reused. -/
theorem siteScoped_call_sequence {σ : Type} (nc : NetworkClient σ) (tool : ServerTool σ)
    (htool : tool ∈ registerTools nc)
    (hsite : "site_id" ∈ tool.Properties.map (fun p => p.1))
    (request : CallToolRequest) (w : World σ) (op : Op)
    (hinv : op ∈ newCalls w (tool.Handler request w))
    (hna : op ≠ Op.Authenticate) (hns : op ≠ Op.GetSites)
    (hop : op.err (nc.call op (afterResolve nc request w).state).1 = none) :
    (nc.call Op.Authenticate w.state).1 = none ∧
    (∃ rid, resolved nc request w = (rid, none) ∧ op.siteID? = some rid) ∧
    (tool.Handler request w).2.calls = w.calls ++ [Op.Authenticate, Op.GetSites, op] ∧
    newCalls w (tool.Handler request w) = [Op.Authenticate, Op.GetSites, op] ∧
    (∀ text, (tool.Handler request w).1
      ≠ Outcome.returned (CallToolResult.toolError text) none) ∧
    (∀ (next : ServerTool σ), next ∈ registerTools nc →
      "site_id" ∈ next.Properties.map (fun p => p.1) →
      ∀ (request2 : CallToolRequest) (op2 : Op),
        op2 ∈ newCalls (tool.Handler request w).2
          (next.Handler request2 (tool.Handler request w).2) →
        op2 ≠ Op.Authenticate → op2 ≠ Op.GetSites →
        op2.err (nc.call op2
          (afterResolve nc request2 (tool.Handler request w).2).state).1 = none →
        (next.Handler request2 (tool.Handler request w).2).2.calls
          = w.calls ++ [Op.Authenticate, Op.GetSites, op,
              Op.Authenticate, Op.GetSites, op2]) := by
  obtain ⟨ha, hr, hcalls, hout⟩ :=
    registerTools_done nc tool htool hsite request w op hinv hna hns hop
  refine ⟨ha, hr, hcalls, ?_, ?_, ?_⟩
  · unfold newCalls
    rw [hcalls]
    simp
  · intro text h
    rcases hout with ⟨data, hd⟩ | ⟨reason, hd⟩
    · rw [hd] at h
      cases h
    · rw [hd] at h
      cases h
  · intro next hnext hsite2 request2 op2 hinv2 hna2 hns2 hop2
    obtain ⟨_, _, hcalls2, _⟩ :=
      registerTools_done nc next hnext hsite2 request2 _ op2 hinv2 hna2 hns2 hop2
    rw [hcalls2, hcalls]
    simp

theorem siteScoped_call_sequence_witness :
    devicesToolOver (siteClient [homeSite]) ∈ registerTools (siteClient [homeSite]) ∧
    "site_id" ∈ (devicesToolOver (siteClient [homeSite])).Properties.map (fun p => p.1) ∧
    Op.GetDevices "ext-1" ∈ newCalls World.fresh
      ((devicesToolOver (siteClient [homeSite])).Handler emptyRequest World.fresh) ∧
    (Op.GetDevices "ext-1").err ((siteClient [homeSite]).call (Op.GetDevices "ext-1")
      (afterResolve (siteClient [homeSite]) emptyRequest World.fresh).state).1 = none ∧
    ((devicesToolOver (siteClient [homeSite])).Handler emptyRequest World.fresh).2.calls
      = [Op.Authenticate, Op.GetSites, Op.GetDevices "ext-1"] ∧
    ((devicesToolOver (siteClient [homeSite])).Handler siteRequest
        ((devicesToolOver (siteClient [homeSite])).Handler emptyRequest World.fresh).2).2.calls
      = [Op.Authenticate, Op.GetSites, Op.GetDevices "ext-1",
          Op.Authenticate, Op.GetSites, Op.GetDevices "ext-1"] :=
  ⟨List.Mem.tail _ (List.Mem.head _), List.Mem.head _,
    List.Mem.tail _ (List.Mem.tail _ (List.Mem.head _)), rfl,
    (siteScoped_call_sequence (siteClient [homeSite]) (devicesToolOver (siteClient [homeSite]))
      (List.Mem.tail _ (List.Mem.head _)) (List.Mem.head _) emptyRequest World.fresh
      (Op.GetDevices "ext-1") (List.Mem.tail _ (List.Mem.tail _ (List.Mem.head _)))
      (fun h => Op.noConfusion h) (fun h => Op.noConfusion h) rfl).2.2.1,
    (siteScoped_call_sequence (siteClient [homeSite]) (devicesToolOver (siteClient [homeSite]))
      (List.Mem.tail _ (List.Mem.head _)) (List.Mem.head _) emptyRequest World.fresh
      (Op.GetDevices "ext-1") (List.Mem.tail _ (List.Mem.tail _ (List.Mem.head _)))
      (fun h => Op.noConfusion h) (fun h => Op.noConfusion h) rfl).2.2.2.2.2
      (devicesToolOver (siteClient [homeSite])) (List.Mem.tail _ (List.Mem.head _))
      (List.Mem.head _) siteRequest (Op.GetDevices "ext-1")
      (List.Mem.tail _ (List.Mem.tail _ (List.Mem.head _)))
      (fun h => Op.noConfusion h) (fun h => Op.noConfusion h) rfl⟩

end UnifiMcp
